import Mathlib

/-!
# Slicer: units logic and volumes logic

A shallow embedding of `Modules/Loadable/Units/Logic/vtkSlicerUnitsLogic.cxx` and
`Modules/Loadable/Volumes/Logic/vtkSlicerVolumesLogic.cxx`.

C strings (`const char*`) are `Option String`: `none` is the null pointer, `some ""` the
empty string. Doubles that are only stored and compared are exact rationals; where the
code tests for an infinity or NaN they are values of `Double`. Objects of
the MRML library (scene, selection node, unit node) are records holding the part of their
state that the two logic classes read or write.
-/

namespace Slicer

/-! ## Units logic: the collaborating MRML objects -/

/-- The quantity to unit-ID table of the selection node: a finite map with one entry per
quantity (node references with role `unit/<quantity>` in the MRML library). -/
abbrev UnitTable := AList (fun _ : String => String)

/-- Unit node as created by `AddUnitNodeToScene`: the attributes set there, the ID given
by the scene and the save-with-scene flag. -/
structure vtkMRMLUnitNode where
  ID : Option String
  Name : String
  Quantity : String
  Prefix : String
  Suffix : String
  Precision : Int
  MinimumValue : ℚ
  MaximumValue : ℚ
  DisplayCoefficient : ℚ
  DisplayOffset : ℚ
  SaveWithScene : Bool

/-- Selection node: the singleton that holds the default unit of every quantity. -/
structure vtkMRMLSelectionNode where
  UnitNodeIDs : UnitTable

/-- Modelled from the spec: the selection entity's "get unit-ID for quantity". -/
def vtkMRMLSelectionNode.GetUnitNodeID (sel : vtkMRMLSelectionNode) (quantity : String) :
    Option String :=
  sel.UnitNodeIDs.lookup quantity

/-- Modelled from the spec: the selection entity's "set unit-ID for quantity". Every key
present has a value, so a null ID removes the entry of the quantity; any other ID
replaces or creates the entry. -/
def vtkMRMLSelectionNode.SetUnitNodeID (sel : vtkMRMLSelectionNode) (quantity : String)
    (id : Option String) : vtkMRMLSelectionNode :=
  match id with
  | none => { sel with UnitNodeIDs := sel.UnitNodeIDs.erase quantity }
  | some u => { sel with UnitNodeIDs := sel.UnitNodeIDs.insert quantity u }

/-- Modelled from the spec: the selection entity's "enumerate all (quantity, unit-ID)
pairs", returned as the two parallel vectors that `SaveDefaultUnits` walks. -/
def vtkMRMLSelectionNode.GetUnitNodeIDs (sel : vtkMRMLSelectionNode) :
    List (Option String) × List (Option String) :=
  (sel.UnitNodeIDs.entries.map (fun e => some e.1),
   sel.UnitNodeIDs.entries.map (fun e => some e.2))

/-- The MRML scene as the units logic sees it: its unit nodes in insertion order
(`GetNodesByClass("vtkMRMLUnitNode")`) and its selection node, if any
(`GetNthNodeByClass(0, "vtkMRMLSelectionNode")`). -/
structure UnitsScene where
  UnitNodes : List vtkMRMLUnitNode
  SelectionNode : Option vtkMRMLSelectionNode

/-- Modelled from the spec: insertion into the graph's node collection, which gives the
node its ID. The ID of a unit node is the class name followed by the node's name, which
is what `areValidNodes` of `vtkSlicerUnitsLogicTest1.cxx` expects
(`vtkMRMLUnitNodeApplicationLength`, ...). -/
def UnitsScene.AddNode (scene : UnitsScene) (node : vtkMRMLUnitNode) :
    vtkMRMLUnitNode × UnitsScene :=
  let added := { node with ID := some ("vtkMRMLUnitNode" ++ node.Name) }
  (added, { scene with UnitNodes := scene.UnitNodes ++ [added] })

/-- State of a `vtkSlicerUnitsLogic`: the observed scene (`GetMRMLScene()`), the number of
`ModifiedEvent` observations the logic holds on the selection node, the cache of default
units and the re-entrancy flag. -/
structure vtkSlicerUnitsLogic where
  MRMLScene : Option UnitsScene
  SelectionNodeObservations : Nat
  CachedDefaultUnits : UnitTable
  RestoringDefaultUnits : Bool

/-- `AddUnitNodeToScene` (lines 80-106): null for a null scene, otherwise a new unit node
with the given attributes is added to the scene and returned. -/
def AddUnitNodeToScene (scene : Option UnitsScene) (name quantity pfx suffix : String)
    (precision : Int) (min max displayCoeff displayOffset : ℚ) :
    Option vtkMRMLUnitNode × Option UnitsScene :=
  match scene with
  | none => (none, none)
  | some sc =>
    let unitNode : vtkMRMLUnitNode :=
      { ID := none, Name := name, Quantity := quantity, Prefix := pfx, Suffix := suffix,
        Precision := precision, MinimumValue := min, MaximumValue := max,
        DisplayCoefficient := displayCoeff, DisplayOffset := displayOffset,
        SaveWithScene := true }
    let r := sc.AddNode unitNode
    (some r.1, some r.2)

/-- `SetDefaultUnit` (lines 214-232): the statements of the body, with no observer of the
selection node run. The notification raised by the write of line 225 is handled in
`SetDefaultUnitNotified`. -/
def SetDefaultUnit (quantity id : Option String) (l : vtkSlicerUnitsLogic) :
    vtkSlicerUnitsLogic :=
  match quantity, l.MRMLScene with
  | none, _ => l
  | some _, none => l
  | some q, some scene =>
    match scene.SelectionNode with
    | none => l
    | some selectionNode =>
      let l1 := { l with
        MRMLScene := some { scene with SelectionNode := some (selectionNode.SetUnitNodeID q id) } }
      if l1.SelectionNodeObservations = 0 then
        { l1 with SelectionNodeObservations := l1.SelectionNodeObservations + 1 }
      else l1

/-- The loop of `SaveDefaultUnits` (lines 284-295) over the two parallel vectors: it runs
until the unit IDs are exhausted and stores the pairs whose two pointers are non-null. -/
def saveLoop : List (Option String) → List (Option String) → UnitTable → UnitTable
  | _, [], cache => cache
  | [], _ :: _, cache => cache
  | quantity :: qs, unitID :: us, cache =>
    match quantity, unitID with
    | some q, some u => saveLoop qs us (cache.insert q u)
    | _, _ => saveLoop qs us cache

/-- `SaveDefaultUnits` (lines 270-296). The scene pointer is dereferenced unchecked:
`none` when no scene is attached. -/
def SaveDefaultUnits (l : vtkSlicerUnitsLogic) : Option vtkSlicerUnitsLogic :=
  match l.MRMLScene with
  | none => none
  | some scene =>
    let vectors : List (Option String) × List (Option String) :=
      match scene.SelectionNode with
      | some selectionNode => selectionNode.GetUnitNodeIDs
      | none => ([], [])
    some { l with CachedDefaultUnits := saveLoop vectors.1 vectors.2 ∅ }

/-- `RestoreDefaultUnits` (lines 299-323): with the flag raised, `SetDefaultUnit` is called
for every cached pair, then the flag is lowered. `StartModify`/`EndModify` on the selection
node only delay its notifications and change nothing of this state. The scene pointer is
dereferenced unchecked: `none` when no scene is attached. -/
def RestoreDefaultUnits (l : vtkSlicerUnitsLogic) : Option vtkSlicerUnitsLogic :=
  match l.MRMLScene with
  | none => none
  | some _ =>
    let l1 := { l with RestoringDefaultUnits := true }
    let l2 := l1.CachedDefaultUnits.entries.foldl
      (fun acc e => SetDefaultUnit (some e.1) (some e.2) acc) l1
    some { l2 with RestoringDefaultUnits := false }

/-- `OnMRMLNodeModified` (lines 259-267): a modified selection node starts a restore unless
one is running. `isSelectionNode` is the outcome of the downcast of the modified node. -/
def OnMRMLNodeModified (isSelectionNode : Bool) (l : vtkSlicerUnitsLogic) :
    Option vtkSlicerUnitsLogic :=
  if isSelectionNode && !l.RestoringDefaultUnits then RestoreDefaultUnits l else some l

/-- `OnMRMLSceneStartBatchProcess` (lines 250-256): the default units are saved. -/
def OnMRMLSceneStartBatchProcess (l : vtkSlicerUnitsLogic) : Option vtkSlicerUnitsLogic :=
  SaveDefaultUnits l

/-- Modelled from the spec: the notification raised by a write to the selection node is
handled by `OnMRMLNodeModified` if the logic observed the node when the write was made. -/
def deliverModifiedEvent (observed : Bool) (l : vtkSlicerUnitsLogic) :
    Option vtkSlicerUnitsLogic :=
  if observed then OnMRMLNodeModified true l else some l

/-- The default unit of a quantity as the selection node of the attached scene holds it. -/
def defaultUnit (l : vtkSlicerUnitsLogic) (quantity : String) : Option String :=
  match l.MRMLScene with
  | none => none
  | some scene =>
    match scene.SelectionNode with
    | none => none
    | some sel => sel.GetUnitNodeID quantity

/-! ## Units logic: states and terms the statements use -/

/-- A logic whose scene holds a selection node. -/
def hasSelectionNode (l : vtkSlicerUnitsLogic) : Prop :=
  ∃ scene sel, l.MRMLScene = some scene ∧ scene.SelectionNode = some sel

/-- A logic attached to a scene that holds a fresh selection node: nothing observed, nothing
cached, no default unit chosen. -/
def freshUnitsLogic : vtkSlicerUnitsLogic :=
  { MRMLScene := some { UnitNodes := [], SelectionNode := some { UnitNodeIDs := ∅ } }
    SelectionNodeObservations := 0
    CachedDefaultUnits := ∅
    RestoringDefaultUnits := false }

/-- `AddBuiltInUnits` (lines 150-211), as the new value of the scene. `RegisterNodesInternal`
registers the class of unit nodes and adds no node. The coefficients are the expressions of
the source, read over exact arithmetic. -/
def AddBuiltInUnits (scene : Option UnitsScene) : Option UnitsScene :=
  match scene with
  | none => none
  | some _ =>
    let scene := (AddUnitNodeToScene scene
      "Meter" "length" "" "m" 3 (-10000) 10000 0.001 0).2
    let scene := (AddUnitNodeToScene scene
      "Centimeter" "length" "" "cm" 3 (-10000) 10000 0.1 0).2
    let scene := (AddUnitNodeToScene scene
      "Millimeter" "length" "" "mm" 3 (-10000) 10000 1 0).2
    let scene := (AddUnitNodeToScene scene
      "Micrometer" "length" "" "\xB5m" 3 (-10000) 10000 1000 0).2
    let scene := (AddUnitNodeToScene scene
      "Nanometer" "length" "" "nm" 3 (-10000) 10000 1000000 0).2
    let scene := (AddUnitNodeToScene scene
      "Year" "time" "" "year" 2 (-10000) 10000 (1.0 / 12.0 * 30.436875 * 24.0 * 60.0 * 60.0) 0).2
    let scene := (AddUnitNodeToScene scene
      "Month" "time" "" "month" 2 (-10000) 10000 (1.0 / 30.436875 * 24.0 * 60.0 * 60.0) 0).2
    let scene := (AddUnitNodeToScene scene
      "Day" "time" "" "day" 2 (-10000) 10000 (1.0 / 24.0 * 60.0 * 60.0) 0).2
    let scene := (AddUnitNodeToScene scene
      "Hour" "time" "" "h" 2 (-10000) 10000 (1.0 / 60.0 * 60.0) 0).2
    let scene := (AddUnitNodeToScene scene
      "Minute" "time" "" "min" 2 (-10000) 10000 (1.0 / 60.0) 0).2
    let scene := (AddUnitNodeToScene scene
      "Second" "time" "" "s" 3 (-10000) 10000 1 0).2
    let scene := (AddUnitNodeToScene scene
      "Millisecond" "time" "" "ms" 3 (-10000) 10000 1000 0).2
    let scene := (AddUnitNodeToScene scene
      "Microsecond" "time" "" "\xB5s" 3 (-10000) 10000 1000 0).2
    let scene := (AddUnitNodeToScene scene
      "Herz" "frequency" "" "Hz" 3 (-10000) 10000 1 0).2
    let scene := (AddUnitNodeToScene scene
      "decahertz" "frequency" "" "daHz" 3 (-10000) 10000 0.1 0).2
    let scene := (AddUnitNodeToScene scene
      "HectoHerz" "frequency" "" "hHz" 3 (-10000) 10000 0.01 0).2
    let scene := (AddUnitNodeToScene scene
      "KiloHerz" "frequency" "" "kHz" 3 (-10000) 10000 0.001 0).2
    let scene := (AddUnitNodeToScene scene
      "MegaHerz" "frequency" "" "MHz" 3 (-10000) 10000 0.000001 0).2
    let scene := (AddUnitNodeToScene scene
      "GigaHerz" "frequency" "" "GHz" 3 (-10000) 10000 0.000000001 0).2
    let scene := (AddUnitNodeToScene scene
      "TeraHerz" "frequency" "" "THz" 3 (-10000) 10000 0.000000000001 0).2
    let scene := (AddUnitNodeToScene scene
      "Metre per second" "velocity" "" "m/s" 3 (-10000) 10000 1 0).2
    let scene := (AddUnitNodeToScene scene
      "Kilometre per second" "velocity" "" "km/s" 3 (-10000) 10000 0.01 0).2
    (AddUnitNodeToScene scene
      "Intensity" "intensity" "" "W/m\xB2" 3 (-10000) 10000 1 0).2

/-- The unit nodes that `AddBuiltInUnits` puts into the empty scene made by the
constructor (lines 42-47). -/
def builtInUnits : List vtkMRMLUnitNode :=
  match AddBuiltInUnits (some { UnitNodes := [], SelectionNode := none }) with
  | some scene => scene.UnitNodes
  | none => []

/-- The display coefficient of the built-in unit of a given name. -/
def builtInCoefficient (name : String) : Option ℚ :=
  (builtInUnits.find? (fun node => node.Name = name)).map (fun node => node.DisplayCoefficient)

/-- The body of the loop of `RestoreDefaultUnits` (lines 312-317) with the notifications of
the selection node delivered. Modelled from the spec: "the modification notifications fired
by each `setDefaultUnit` call" reach the logic through `handler`: `delivered k` tells
whether the write of the `k`-th cached pair makes the selection node notify the logic
before the loop goes on. -/
def restoreLoop
    (handler : vtkSlicerUnitsLogic → List Bool → Option (vtkSlicerUnitsLogic × List Bool))
    (delivered : Nat → Bool) :
    List (Sigma fun _ : String => String) → Nat → vtkSlicerUnitsLogic → List Bool →
      Option (vtkSlicerUnitsLogic × List Bool)
  | [], _, l, log => some (l, log)
  | e :: es, k, l, log =>
    let l1 := SetDefaultUnit (some e.1) (some e.2) l
    match (if delivered k then handler l1 log else some (l1, log)) with
    | none => none
    | some (l2, log2) => restoreLoop handler delivered es (k + 1) l2 log2

/-- `OnMRMLNodeModified` (lines 259-267) for the selection node, with `RestoreDefaultUnits`
(lines 299-323) in place and the notifications raised while it runs handled by
`OnMRMLNodeModified` again. Modelled from the spec: the selection node may notify the
logic after each `SetDefaultUnit` of the loop and when `EndModify` releases the coalesced
notification; `delivered` tells at which of these points, numbered from 0 and with the
number of cached pairs for `EndModify`, it does. The list records, for every run of
`OnMRMLNodeModified` in the order they start, the value of `RestoringDefaultUnits` it
finds: `false` is a restore started. `fuel` bounds the nesting of handlers. -/
def OnSelectionNodeModified (delivered : Nat → Bool) :
    Nat → vtkSlicerUnitsLogic → List Bool → Option (vtkSlicerUnitsLogic × List Bool)
  | 0, _, _ => none
  | fuel + 1, l, log =>
    if l.RestoringDefaultUnits = false then
      match l.MRMLScene with
      | none => none
      | some _ =>
        let l1 := { l with RestoringDefaultUnits := true }
        match restoreLoop (OnSelectionNodeModified delivered fuel) delivered
            l1.CachedDefaultUnits.entries 0 l1 (log ++ [false]) with
        | none => none
        | some (l2, log2) =>
          match (if delivered l1.CachedDefaultUnits.entries.length then
              OnSelectionNodeModified delivered fuel l2 log2 else some (l2, log2)) with
          | none => none
          | some (l3, log3) => some ({ l3 with RestoringDefaultUnits := false }, log3)
    else some (l, log ++ [true])

/-- A logic attached to a scene with a selection node, which it observes, where the default
unit of length was chosen and saved. -/
def savedUnitsLogic : vtkSlicerUnitsLogic :=
  { MRMLScene := some
      { UnitNodes := []
        SelectionNode := some
          { UnitNodeIDs := (∅ : UnitTable).insert "length" "vtkMRMLUnitNodeApplicationLength" } }
    SelectionNodeObservations := 1
    CachedDefaultUnits := (∅ : UnitTable).insert "length" "vtkMRMLUnitNodeApplicationLength"
    RestoringDefaultUnits := false }

/-- A node, as far as the volumes logic reads or writes it: its class, the ID given by the
scene that holds it, the display and storage references of a volume node, the colour
reference and window/level settings of a display node, and the file references, options
and observers of a storage node. The image data a read loads is not part of it. -/
structure vtkMRMLNode where
  ClassName : String := ""
  Name : Option String := none
  ID : Option String := none
  DisplayNodeID : Option String := none
  StorageNodeID : Option String := none
  ColorNodeID : Option String := none
  TensorWindowLevelDefaults : Bool := false
  CenterImage : Nat := 0
  UseOrientationFromFile : Bool := true
  SingleFile : Nat := 0
  FileName : Option String := none
  URI : Option String := none
  FileNameList : List String := []
  URIList : List String := []
  ErrorObservers : Nat := 0
  ProgressObservers : Nat := 0
deriving DecidableEq, Repr

/-- The memory of the process: the node object at every address and the first address not
yet allocated. A node pointer is an address; an address stands for the identity of the
object created there and is not given out again. -/
structure Memory where
  Object : Nat → vtkMRMLNode
  Next : Nat

/-- Write through a node pointer. -/
def Memory.modify (m : Memory) (address : Nat) (f : vtkMRMLNode → vtkMRMLNode) : Memory :=
  { m with Object := Function.update m.Object address (f (m.Object address)) }

/-- A new node object (`vtkNew`): it takes the first free address. -/
def Memory.new (m : Memory) (node : vtkMRMLNode) : Nat × Memory :=
  (m.Next, { Object := Function.update m.Object m.Next node, Next := m.Next + 1 })

/-- The MRML scene as the volumes logic sees it: its nodes (pointers) in insertion order,
the counter behind the IDs it hands out, the depth of the batch-process state, the number
of undo checkpoints, the remote cache directory of its cache manager (`none`: no cache
manager) and whether a data IO manager is set. -/
structure vtkMRMLScene where
  Nodes : List Nat := []
  UniqueIDCounter : Nat := 0
  BatchProcessDepth : Nat := 0
  UndoCheckpoints : Nat := 0
  RemoteCacheDirectory : Option String := none
  DataIOManager : Bool := false
deriving DecidableEq, Repr

/-- Modelled from the spec: insertion into the graph's node collection; the container gives
the node a unique ID, here the class name followed by the next value of the scene's
counter. -/
def vtkMRMLScene.AddNode (scene : vtkMRMLScene) (m : Memory) (node : Nat) :
    vtkMRMLScene × Memory :=
  ({ scene with
      Nodes := scene.Nodes ++ [node]
      UniqueIDCounter := scene.UniqueIDCounter + 1 },
   m.modify node (fun n =>
      { n with ID := some (n.ClassName ++ toString (scene.UniqueIDCounter + 1)) }))

/-- Modelled from the spec: removal of a node from the graph's node collection. -/
def vtkMRMLScene.RemoveNode (scene : vtkMRMLScene) (node : Nat) : vtkMRMLScene :=
  { scene with Nodes := scene.Nodes.filter (fun n => n ≠ node) }

/-- The colour logic: the IDs of the three default colour nodes. -/
structure vtkMRMLColorLogic where
  DefaultVolumeColorNodeID : Option String
  DefaultLabelMapColorNodeID : Option String
  DefaultFreeSurferLabelMapColorNodeID : Option String
deriving DecidableEq, Repr

/-- The functions of other libraries that the volumes logic calls and whose result it
uses: file-name helpers of `vtksys::SystemTools`, the unique-name generator of the scene,
the cache manager's test for remote references, and the storage read. `ReadData i` is the
outcome (success, error messages raised) of the read attempted on the node set built by
the factory at position `i` of the registry. -/
structure Collaborators where
  GetFilenameName : String → String
  GetFilenameLastExtension : String → String
  LowerCase : String → String
  GetUniqueNameByString : vtkMRMLScene → String → String
  IsRemoteReference : Option String → Bool
  ReadData : Nat → Bool × List String

/-! ## Volumes logic: node set factories -/

/-- `ArchetypeVolumeNodeSet`: the three nodes of a candidate and its label-map flag. -/
structure ArchetypeVolumeNodeSet where
  Node : Nat
  DisplayNode : Nat
  StorageNode : Nat
  LabelMap : Bool
deriving DecidableEq, Repr

/-- A node set factory (`ArchetypeVolumeNodeSetFactory`, a function pointer). All six
factories of the source create a display node, a volume node named `volumeName` and a
storage node, add them to the scene and link the volume node to the other two; the fields
are the points in which they differ: the address of the function, the classes of the volume
and display node, whether the volume node is created and added before the display node,
whether the display node gets the tensor window/level defaults, whether the storage node
is a `vtkMRMLVolumeArchetypeStorageNode` (else a `vtkMRMLNRRDStorageNode`), and the
label-map flag of the node set. -/
structure ArchetypeVolumeNodeSetFactory where
  Address : Nat
  VolumeClass : String
  DisplayClass : String
  VolumeFirst : Bool
  TensorDisplay : Bool
  ArchetypeStorage : Bool
  LabelMap : Bool
deriving DecidableEq, Repr

/-- Bit 1 of `loadingOptions` (lines 621-627). -/
def CenterImage : Nat := 2

/-- Bit 2 of `loadingOptions`. -/
def SingleFile : Nat := 4

/-- Bit 4 of `loadingOptions`. -/
def DiscardOrientation : Nat := 16

/-- The storage node a factory creates (lines 302-304, 334-338): NRRD storage takes the
centre-image option only, archetype storage also the orientation and single-file
options. -/
def ArchetypeVolumeNodeSetFactory.newStorageNode (f : ArchetypeVolumeNodeSetFactory)
    (options : Nat) : vtkMRMLNode :=
  if f.ArchetypeStorage then
    { ClassName := "vtkMRMLVolumeArchetypeStorageNode",
      CenterImage := options &&& CenterImage,
      UseOrientationFromFile := !((options &&& DiscardOrientation) != 0),
      SingleFile := options &&& SingleFile }
  else
    { ClassName := "vtkMRMLNRRDStorageNode", CenterImage := options &&& CenterImage }

/-- The volume node a factory creates, named `volumeName`. -/
def ArchetypeVolumeNodeSetFactory.newVolumeNode (f : ArchetypeVolumeNodeSetFactory)
    (volumeName : String) : vtkMRMLNode :=
  { ClassName := f.VolumeClass, Name := some volumeName }

/-- The display node a factory creates. -/
def ArchetypeVolumeNodeSetFactory.newDisplayNode (f : ArchetypeVolumeNodeSetFactory) :
    vtkMRMLNode :=
  { ClassName := f.DisplayClass, TensorWindowLevelDefaults := f.TensorDisplay }

/-- The call `(*fit)(volumeName, scene, options)` (lines 289-458): display and volume node
are created and added to the scene (in the order of the factory), the volume node is linked
to the display node, then the storage node is created, added and linked. -/
def ArchetypeVolumeNodeSetFactory.call (f : ArchetypeVolumeNodeSetFactory)
    (volumeName : String) (scene : vtkMRMLScene) (options : Nat) (m : Memory) :
    ArchetypeVolumeNodeSet × vtkMRMLScene × Memory :=
  let first := m.new (if f.VolumeFirst then f.newVolumeNode volumeName else f.newDisplayNode)
  let added1 := scene.AddNode first.2 first.1
  let second :=
    added1.2.new (if f.VolumeFirst then f.newDisplayNode else f.newVolumeNode volumeName)
  let added2 := added1.1.AddNode second.2 second.1
  let volumeNode := if f.VolumeFirst then first.1 else second.1
  let displayNode := if f.VolumeFirst then second.1 else first.1
  let m2 := added2.2.modify volumeNode
    (fun n => { n with DisplayNodeID := (added2.2.Object displayNode).ID })
  let storage := m2.new (f.newStorageNode options)
  let added3 := added2.1.AddNode storage.2 storage.1
  let m3 := added3.2.modify volumeNode
    (fun n => { n with StorageNodeID := (added3.2.Object storage.1).ID })
  ({ Node := volumeNode, DisplayNode := displayNode, StorageNode := storage.1,
     LabelMap := f.LabelMap }, added3.1, m3)

/-- `DiffusionWeightedVolumeNodeSetFactory` (lines 289-312). -/
def DiffusionWeightedVolumeNodeSetFactory : ArchetypeVolumeNodeSetFactory :=
  { Address := 0, VolumeClass := "vtkMRMLDiffusionWeightedVolumeNode",
    DisplayClass := "vtkMRMLDiffusionWeightedVolumeDisplayNode", VolumeFirst := false,
    TensorDisplay := false, ArchetypeStorage := false, LabelMap := false }

/-- `DiffusionTensorVolumeNodeSetFactory` (lines 315-346). -/
def DiffusionTensorVolumeNodeSetFactory : ArchetypeVolumeNodeSetFactory :=
  { Address := 1, VolumeClass := "vtkMRMLDiffusionTensorVolumeNode",
    DisplayClass := "vtkMRMLDiffusionTensorVolumeDisplayNode", VolumeFirst := false,
    TensorDisplay := true, ArchetypeStorage := true, LabelMap := false }

/-- `NRRDVectorVolumeNodeSetFactory` (lines 349-372). -/
def NRRDVectorVolumeNodeSetFactory : ArchetypeVolumeNodeSetFactory :=
  { Address := 2, VolumeClass := "vtkMRMLVectorVolumeNode",
    DisplayClass := "vtkMRMLVectorVolumeDisplayNode", VolumeFirst := false,
    TensorDisplay := false, ArchetypeStorage := false, LabelMap := false }

/-- `ArchetypeVectorVolumeNodeSetFactory` (lines 375-400). -/
def ArchetypeVectorVolumeNodeSetFactory : ArchetypeVolumeNodeSetFactory :=
  { Address := 3, VolumeClass := "vtkMRMLVectorVolumeNode",
    DisplayClass := "vtkMRMLVectorVolumeDisplayNode", VolumeFirst := false,
    TensorDisplay := false, ArchetypeStorage := true, LabelMap := false }

/-- `LabelMapVolumeNodeSetFactory` (lines 403-430). -/
def LabelMapVolumeNodeSetFactory : ArchetypeVolumeNodeSetFactory :=
  { Address := 4, VolumeClass := "vtkMRMLLabelMapVolumeNode",
    DisplayClass := "vtkMRMLLabelMapVolumeDisplayNode", VolumeFirst := true,
    TensorDisplay := false, ArchetypeStorage := true, LabelMap := true }

/-- `ScalarVolumeNodeSetFactory` (lines 433-458). -/
def ScalarVolumeNodeSetFactory : ArchetypeVolumeNodeSetFactory :=
  { Address := 5, VolumeClass := "vtkMRMLScalarVolumeNode",
    DisplayClass := "vtkMRMLScalarVolumeDisplayNode", VolumeFirst := true,
    TensorDisplay := false, ArchetypeStorage := true, LabelMap := false }

/-! ## Numbers: doubles, `significantDecimals` and `orderOfMagnitude` -/

/-- A `double`: a finite value, held exactly, whose zero `finite 0` is the positive zero
`0.0`; the negative zero `-0.0`; one of the two infinities; or NaN. -/
inductive Double where
  | finite (value : ℚ)
  | negZero
  | posInf
  | negInf
  | nan
deriving DecidableEq

/-- `fabs`: the sign is cleared, so both zeros give the positive zero. -/
def Double.fabs : Double → Double
  | .finite value => .finite |value|
  | .negZero => .finite 0
  | .posInf => .posInf
  | .negInf => .posInf
  | .nan => .nan

/-- Unary minus: the sign is flipped, so each zero gives the other one. -/
def Double.neg : Double → Double
  | .finite value => if value = 0 then .negZero else .finite (-value)
  | .negZero => .finite 0
  | .posInf => .negInf
  | .negInf => .posInf
  | .nan => .nan

/-- The number a double is compared as: the two zeros are the same number. -/
def Double.number : Double → Double
  | .negZero => .finite 0
  | a => a

/-- `a == b` of C++: false as soon as one side is NaN, and true of the two zeros. -/
def Double.eq : Double → Double → Bool
  | .nan, _ => false
  | _, .nan => false
  | a, b => decide (a.number = b.number)

/-- `a != b` of C++: true as soon as one side is NaN. -/
def Double.ne (a b : Double) : Bool :=
  !(Double.eq a b)

/-- `a < b` of C++: false as soon as one side is NaN; the negative zero compares as 0. -/
def Double.lt : Double → Double → Bool
  | .finite a, .finite b => decide (a < b)
  | .finite a, .negZero => decide (a < 0)
  | .negZero, .finite b => decide (0 < b)
  | .finite _, .posInf => true
  | .negZero, .posInf => true
  | .negInf, .finite _ => true
  | .negInf, .negZero => true
  | .negInf, .posInf => true
  | _, _ => false

/-- `a <= b` of C++: false as soon as one side is NaN. -/
def Double.le (a b : Double) : Bool :=
  Double.lt a b || Double.eq a b

/-- `std::numeric_limits<double>::epsilon()`, which is 2^-52. -/
def epsilon : ℚ := 1 / 2 ^ 52

/-- `INT_MIN` of a 32-bit `int`. -/
def INT_MIN : Int := -2147483648

/-- Nearest integer, a tie going to the even neighbour. -/
def roundHalfEven (q : ℚ) : Int :=
  if q - ⌊q⌋ < 1 / 2 then ⌊q⌋
  else if 1 / 2 < q - ⌊q⌋ then ⌊q⌋ + 1
  else if ⌊q⌋ % 2 = 0 then ⌊q⌋
  else ⌊q⌋ + 1

/-- What `significantDecimals` keeps of the text written by
`numberStream << std::setprecision(16) << std::fixed << value` (lines 87-95): the
characters after the decimal point, which are the sixteen decimal digits of the value
rounded at the sixteenth decimal. -/
def fixedFractional (value : ℚ) : List Char :=
  (List.range 16).map
    (fun i => Char.ofNat (48 + (roundHalfEven (|value| * 10 ^ 16)).toNat / 10 ^ (15 - i) % 10))

/-- The loop of `significantDecimals` over the fractional digits (lines 107-143), started
at index `i` with the digits from `i` on; `length` is `fractional.length()`. The end of
the list is the exit of the `for` loop, where the function returns -1. -/
def significantDecimalsLoop (length : Nat) (isUnit : Bool) (defaultDecimals : Int) :
    List Char → Nat → Char → Int → Bool → Int
  | [], _, _, _, _ => -1
  | digit :: rest, i, previous, previousRepeat, only0s =>
    let only0s := if digit ≠ '0' then false else only0s
    if digit = previous ∧ previousRepeat = 2 ∧ only0s = false then
      if digit = '0' ∨ digit = '9' then (i : Int) - previousRepeat else (i : Int)
    else if i = length - 1 then
      if previousRepeat > 2 ∧ ¬ (only0s = true ∧ isUnit = true) then (i : Int) - previousRepeat
      else if defaultDecimals ≥ 0 then defaultDecimals
      else (length : Int)
    else if previous ≠ digit then
      significantDecimalsLoop length isUnit defaultDecimals rest (i + 1) digit 1 only0s
    else
      significantDecimalsLoop length isUnit defaultDecimals rest (i + 1) previous
        (previousRepeat + 1) only0s

/-- `significantDecimals` (lines 69-145); `defaultDecimals` is -1 when the caller leaves it
out. The first two tests of the source send the zeros and the infinities to 0 and NaN to
-1. -/
def significantDecimals (value : Double) (defaultDecimals : Int) : Int :=
  match value with
  | .negZero => 0
  | .posInf => 0
  | .negInf => 0
  | .nan => -1
  | .finite value =>
    if value = 0 then 0
    else
      let fractional := fixedFractional value
      if fractional.length ≠ 16 then -1
      else
        significantDecimalsLoop fractional.length (decide (-1 < value ∧ value < 1))
          defaultDecimals fractional 0 ' ' 0 true

/-- The `while` loop of `orderOfMagnitude` (lines 175-180), run for at most `fuel` tests of
its condition: `none` when the fuel runs out before the condition fails. -/
def magnitudeLoop (value magnitudeFactor : ℚ) (magnitudeStep : Int) :
    Nat → ℚ → Int → Option Int
  | 0, _, _ => none
  | fuel + 1, magnitude, magnitudeOrder =>
    if (magnitudeStep > 0 ∧ value ≥ magnitude) ∨
        (magnitudeStep < 0 ∧ value < magnitude - epsilon) then
      magnitudeLoop value magnitudeFactor magnitudeStep fuel (magnitude * magnitudeFactor)
        (magnitudeOrder + magnitudeStep)
    else some (magnitudeOrder - magnitudeStep)

/-- `orderOfMagnitude` (lines 147-182) with at most `fuel` tests of the loop condition.
The literal `1.00000000000000001` is the double 1, and the two factors are read as the
exact 10 and 1/10. -/
def orderOfMagnitudeWithin (fuel : Nat) : Double → Option Int
  | .negZero => some INT_MIN
  | .posInf => some INT_MIN
  | .negInf => some INT_MIN
  | .nan => some INT_MIN
  | .finite value =>
    if |value| = 0 ∨ |value| < epsilon then some INT_MIN
    else if |value| < 1 then magnitudeLoop |value| (1 / 10) (-1) fuel 1 (-1)
    else magnitudeLoop |value| 10 1 fuel 1 0

/-- A number of tests of the loop condition that `orderOfMagnitude` never exceeds. -/
def orderOfMagnitudeTests : Double → Nat
  | .finite value => Nat.ceil |value| + 18
  | _ => 0

/-- `orderOfMagnitude` as a total function: the loop is given `orderOfMagnitudeTests`
tests, which is enough for it to return. -/
def orderOfMagnitude (value : Double) : Int :=
  (orderOfMagnitudeWithin (orderOfMagnitudeTests value) value).getD INT_MIN

/-! ## Volumes logic -/

/-- What `AddArchetypeVolume` does to its surroundings, in the order it does it: the state
changes of the main scene, the creation of the test scene, the factory called and the read
attempted at a position of the registry, the display of the collected errors, the nodes
added to the main scene and the events invoked at the end. -/
inductive Action where
  | StartState
  | SaveStateForUndo
  | NewTestScene
  | CallFactory (position : Nat)
  | ReadData (position : Nat)
  | DisplayErrors (errors : List String)
  | AddNode (node : Nat)
  | EndState
  | NodeAddedEvent (node : Nat)
  | Modified
deriving DecidableEq, Repr

/-- State of a `vtkSlicerVolumesLogic` and of what it works on: the main scene
(`GetMRMLScene()`, `none` for the null pointer), the active volume node, the registry of
node set factories, the colour logic, the memory that holds the node objects, and the
record of the actions taken so far (a `Modified` action for every `this->Modified()`); and
the epsilon of the geometry comparison with the number of decimals cached for it. -/
structure vtkSlicerVolumesLogic where
  MRMLScene : Option vtkMRMLScene
  ActiveVolumeNode : Option Nat
  VolumeRegistry : List ArchetypeVolumeNodeSetFactory
  ColorLogic : Option vtkMRMLColorLogic
  Memory : Memory
  Trace : List Action
  CompareVolumeGeometryEpsilon : Double
  CompareVolumeGeometryPrecision : Int

/-- `RegisterArchetypeVolumeNodeSetFactory` (lines 1474-1485). -/
def RegisterArchetypeVolumeNodeSetFactory (factory : ArchetypeVolumeNodeSetFactory)
    (l : vtkSlicerVolumesLogic) : vtkSlicerVolumesLogic :=
  match l.VolumeRegistry.find? (fun f => f = factory) with
  | none => { l with VolumeRegistry := l.VolumeRegistry ++ [factory] }
  | some _ => l

/-- `PreRegisterArchetypeVolumeNodeSetFactory` (lines 1488-1504). -/
def PreRegisterArchetypeVolumeNodeSetFactory (factory : ArchetypeVolumeNodeSetFactory)
    (l : vtkSlicerVolumesLogic) : vtkSlicerVolumesLogic :=
  match l.VolumeRegistry.find? (fun f => f = factory) with
  | none => { l with VolumeRegistry := factory :: l.VolumeRegistry }
  | some _ => { l with VolumeRegistry := factory :: l.VolumeRegistry.erase factory }

/-- `IsFreeSurferVolume` (lines 1282-1300). -/
def IsFreeSurferVolume (env : Collaborators) (filename : Option String) : Nat :=
  match filename with
  | none => 0
  | some name =>
    let extension := env.LowerCase (env.GetFilenameLastExtension name)
    if extension = ".mgz" ∨ extension = ".mgh" ∨ extension = ".mgh.gz" then 1 else 0

/-- `SetAndObserveColorToDisplayNode` (lines 522-546), as the new value of the display
node. -/
def SetAndObserveColorToDisplayNode (env : Collaborators) (colorLogic : Option vtkMRMLColorLogic)
    (displayNode : vtkMRMLNode) (labelMap : Bool) (filename : Option String) : vtkMRMLNode :=
  match colorLogic with
  | none => displayNode
  | some colorLogic =>
    if labelMap then
      if IsFreeSurferVolume env filename ≠ 0 then
        { displayNode with ColorNodeID := colorLogic.DefaultFreeSurferLabelMapColorNodeID }
      else
        { displayNode with ColorNodeID := colorLogic.DefaultLabelMapColorNodeID }
    else
      { displayNode with ColorNodeID := colorLogic.DefaultVolumeColorNodeID }

/-- `InitializeStorageNode` (lines 549-601), as the new value of the storage node.
`mrmlScene` is the scene passed, or the logic's scene when null was passed. -/
def InitializeStorageNode (env : Collaborators) (storageNode : vtkMRMLNode)
    (filename : Option String) (fileList : Option (List String))
    (mrmlScene : Option vtkMRMLScene) : vtkMRMLNode :=
  let useURI : Bool :=
    match mrmlScene with
    | none => false
    | some scene =>
      match scene.RemoteCacheDirectory with
      | none => false
      | some _ => env.IsRemoteReference filename
  let named : vtkMRMLNode :=
    if useURI then
      match fileList with
      | none => { storageNode with URI := filename }
      | some uris => { storageNode with URI := filename, URIList := uris }
    else
      match fileList with
      | none => { storageNode with FileName := filename }
      | some files => { storageNode with FileName := filename, FileNameList := files }
  { named with ProgressObservers := named.ProgressObservers + 1 }

/-- The locals of `AddArchetypeVolume` that the factory loop works on: the test scene and
the error list of the error sink, next to the memory and the record of actions. -/
structure Trial where
  testScene : vtkMRMLScene
  ErrorList : List String
  Memory : Memory
  Trace : List Action

/-- The clean-up of a rejected candidate (lines 716-725): the volume node's references are
cleared and the three nodes are removed from the test scene. -/
def cleanUp (nodeSet : ArchetypeVolumeNodeSet) (t : Trial) : Trial :=
  let m1 := t.Memory.modify nodeSet.Node (fun n => { n with DisplayNodeID := none })
  let m2 := m1.modify nodeSet.Node (fun n => { n with StorageNodeID := none })
  { t with
    Memory := m2
    testScene := ((t.testScene.RemoveNode nodeSet.DisplayNode).RemoveNode
      nodeSet.StorageNode).RemoveNode nodeSet.Node }

/-- The read attempt on a candidate whose label-map flag fits (lines 690-703): the observers
are connected, the storage node is initialised, the data is read, the observers are
disconnected. The outcome of the read is returned with the state. -/
def attemptRead (env : Collaborators) (filename : Option String)
    (fileList : Option (List String)) (position : Nat) (nodeSet : ArchetypeVolumeNodeSet)
    (t : Trial) : Bool × Trial :=
  let m1 := t.Memory.modify nodeSet.StorageNode (fun n =>
    { n with ErrorObservers := n.ErrorObservers + 1, ProgressObservers := n.ProgressObservers + 1 })
  let m2 := m1.modify nodeSet.StorageNode (fun n =>
    InitializeStorageNode env n filename fileList (some t.testScene))
  let read := env.ReadData position
  let m3 := m2.modify nodeSet.StorageNode (fun n =>
    { n with ErrorObservers := 0, ProgressObservers := 0 })
  (read.1, { t with
    Memory := m3
    ErrorList := t.ErrorList ++ read.2
    Trace := t.Trace ++ [Action.ReadData position] })

/-- The factory loop of `AddArchetypeVolume` (lines 679-726), from the factory at
`position` on: the node set of the first factory whose label-map flag fits and whose read
succeeds (the `break`), or `none` when the list is exhausted. -/
def factoryLoop (env : Collaborators) (labelMap : Bool) (volumeName : String)
    (filename : Option String) (fileList : Option (List String)) (loadingOptions : Nat) :
    List ArchetypeVolumeNodeSetFactory → Nat → Trial → Option ArchetypeVolumeNodeSet × Trial
  | [], _, t => (none, t)
  | fit :: rest, position, t =>
    let built := fit.call volumeName t.testScene loadingOptions t.Memory
    let nodeSet := built.1
    let t1 : Trial :=
      { t with
        testScene := built.2.1
        Memory := built.2.2
        Trace := t.Trace ++ [Action.CallFactory position] }
    let attempt : Bool × Trial :=
      if labelMap = nodeSet.LabelMap then attemptRead env filename fileList position nodeSet t1
      else (false, t1)
    if attempt.1 then (some nodeSet, attempt.2)
    else factoryLoop env labelMap volumeName filename fileList loadingOptions rest
      (position + 1) (cleanUp nodeSet attempt.2)

/-- The commit of the winning node set (lines 736-759): the three nodes are removed from
the test scene and added to the main scene, the volume node is linked to the IDs the main
scene gave, the display node gets its colour node and the volume node becomes the active
one. Returns the main scene, the test scene and the logic. -/
def commit (env : Collaborators) (labelMap : Bool) (filename : Option String)
    (nodeSet : ArchetypeVolumeNodeSet) (scene testScene : vtkMRMLScene)
    (l : vtkSlicerVolumesLogic) : vtkMRMLScene × vtkMRMLScene × vtkSlicerVolumesLogic :=
  let testScene1 := ((testScene.RemoveNode nodeSet.DisplayNode).RemoveNode
    nodeSet.StorageNode).RemoveNode nodeSet.Node
  let d := scene.AddNode l.Memory nodeSet.DisplayNode
  let s := d.1.AddNode d.2 nodeSet.StorageNode
  let v := s.1.AddNode s.2 nodeSet.Node
  let m1 := v.2.modify nodeSet.Node
    (fun n => { n with DisplayNodeID := (v.2.Object nodeSet.DisplayNode).ID })
  let m2 := m1.modify nodeSet.Node
    (fun n => { n with StorageNodeID := (m1.Object nodeSet.StorageNode).ID })
  let m3 := m2.modify nodeSet.DisplayNode
    (fun n => SetAndObserveColorToDisplayNode env l.ColorLogic n labelMap filename)
  (v.1, testScene1,
    { l with
      Memory := m3
      ActiveVolumeNode := some nodeSet.Node
      Trace := l.Trace ++ [Action.AddNode nodeSet.DisplayNode,
        Action.AddNode nodeSet.StorageNode, Action.AddNode nodeSet.Node] })

/-- The label-map flag of the caller (lines 640-644): bit 0 of `loadingOptions`. -/
def labelMapBit (loadingOptions : Nat) : Bool := loadingOptions &&& 1 ≠ 0

/-- How a call of `AddArchetypeVolume` ends: it returns the volume node (`none`: the null
pointer), leaving the logic and, if it got that far, the test scene in a final state; or it
runs into undefined behaviour, the construction of a `std::string` from a null pointer, in
the state given. -/
inductive CallResult where
  | returned (volumeNode : Option Nat) (logic : vtkSlicerVolumesLogic)
      (testScene : Option vtkMRMLScene)
  | undefined (logic : vtkSlicerVolumesLogic)

/-- `AddArchetypeVolume` with an explicit registry (lines 628-782). The error and debug
macros only write to the log and are left out; the application logic, which links the test
scene to its remote IO, is taken to be set. -/
def AddArchetypeVolumeWith (env : Collaborators)
    (volumeRegistry : List ArchetypeVolumeNodeSetFactory)
    (filename volname : Option String) (loadingOptions : Nat)
    (fileList : Option (List String)) (l : vtkSlicerVolumesLogic) : CallResult :=
  match l.MRMLScene with
  | none => CallResult.returned none l none
  | some scene0 =>
    let scene1 := { scene0 with BatchProcessDepth := scene0.BatchProcessDepth + 1 }
    let labelMap : Bool := labelMapBit loadingOptions
    let scene2 := { scene1 with UndoCheckpoints := scene1.UndoCheckpoints + 1 }
    let l2 := { l with
      MRMLScene := some scene2
      Trace := l.Trace ++ [Action.StartState, Action.SaveStateForUndo] }
    let baseName : Option String :=
      match volname with
      | some name => some name
      | none => filename.map env.GetFilenameName
    match baseName with
    | none => CallResult.undefined l2
    | some name =>
      let volumeName := env.GetUniqueNameByString scene2 name
      let testScene : vtkMRMLScene :=
        { RemoteCacheDirectory := some (scene2.RemoteCacheDirectory.getD ""),
          DataIOManager := true }
      let loop := factoryLoop env labelMap volumeName filename fileList loadingOptions
        volumeRegistry 0
        { testScene := testScene, ErrorList := [], Memory := l2.Memory,
          Trace := l2.Trace ++ [Action.NewTestScene] }
      let l3 := { l2 with Memory := loop.2.Memory, Trace := loop.2.Trace }
      let committed : vtkMRMLScene × vtkMRMLScene × vtkSlicerVolumesLogic :=
        match loop.1 with
        | none =>
          (scene2, loop.2.testScene,
            { l3 with Trace := l3.Trace ++ [Action.DisplayErrors loop.2.ErrorList] })
        | some nodeSet => commit env labelMap filename nodeSet scene2 loop.2.testScene l3
      let testScene2 :=
        { committed.2.1 with RemoteCacheDirectory := none, DataIOManager := false }
      let scene3 :=
        { committed.1 with BatchProcessDepth := committed.1.BatchProcessDepth - 1 }
      let l4 := { committed.2.2 with
        MRMLScene := some scene3
        Trace := committed.2.2.Trace ++ [Action.EndState] }
      match loop.1 with
      | none => CallResult.returned none l4 (some testScene2)
      | some nodeSet =>
        CallResult.returned (some nodeSet.Node)
          { l4 with Trace := l4.Trace ++ [Action.NodeAddedEvent nodeSet.Node, Action.Modified] }
          (some testScene2)

/-- `AddArchetypeVolume` (lines 604-609): the registry of the logic is used. -/
def AddArchetypeVolume (env : Collaborators) (filename volname : Option String)
    (loadingOptions : Nat) (fileList : Option (List String)) (l : vtkSlicerVolumesLogic) :
    CallResult :=
  AddArchetypeVolumeWith env l.VolumeRegistry filename volname loadingOptions fileList l

/-- `AddArchetypeScalarVolume` (lines 612-618): a registry holding the scalar factory only.
The downcast of the result is the identity on the pointer here. -/
def AddArchetypeScalarVolume (env : Collaborators) (filename volname : Option String)
    (loadingOptions : Nat) (fileList : Option (List String)) (l : vtkSlicerVolumesLogic) :
    CallResult :=
  AddArchetypeVolumeWith env [ScalarVolumeNodeSetFactory] filename volname loadingOptions
    fileList l

/-! ## Volumes logic: the constructor and the geometry of volumes -/

/-- The constructor (lines 462-474), for an object created in memory `memory`: the six
factories are registered on the empty registry, then the epsilon is assigned. The
constructor does not assign `CompareVolumeGeometryPrecision`: `precision` is the value the
member holds when the body is left, `epsilon` the one the other member holds when the body
is entered. -/
def vtkSlicerVolumesLogic.New (memory : Slicer.Memory) (epsilon : Double) (precision : Int) :
    vtkSlicerVolumesLogic :=
  let l : vtkSlicerVolumesLogic :=
    { MRMLScene := none
      ActiveVolumeNode := none
      VolumeRegistry := []
      ColorLogic := none
      Memory := memory
      Trace := []
      CompareVolumeGeometryEpsilon := epsilon
      CompareVolumeGeometryPrecision := precision }
  let l := RegisterArchetypeVolumeNodeSetFactory DiffusionWeightedVolumeNodeSetFactory l
  let l := RegisterArchetypeVolumeNodeSetFactory DiffusionTensorVolumeNodeSetFactory l
  let l := RegisterArchetypeVolumeNodeSetFactory NRRDVectorVolumeNodeSetFactory l
  let l := RegisterArchetypeVolumeNodeSetFactory ArchetypeVectorVolumeNodeSetFactory l
  let l := RegisterArchetypeVolumeNodeSetFactory LabelMapVolumeNodeSetFactory l
  let l := RegisterArchetypeVolumeNodeSetFactory ScalarVolumeNodeSetFactory l
  { l with CompareVolumeGeometryEpsilon := .finite (1 / 1000000) }

/-- `SetCompareVolumeGeometryEpsilon` (lines 1043-1064); `significantDecimals` is called
with its default second argument. -/
def SetCompareVolumeGeometryEpsilon (epsilon : Double) (l : vtkSlicerVolumesLogic) :
    vtkSlicerVolumesLogic :=
  let positiveEpsilon :=
    if Double.lt epsilon (.finite 0) = true then Double.fabs epsilon else epsilon
  if Double.ne l.CompareVolumeGeometryEpsilon positiveEpsilon = true then
    { l with
      CompareVolumeGeometryEpsilon := positiveEpsilon
      CompareVolumeGeometryPrecision := significantDecimals positiveEpsilon (-1)
      Trace := l.Trace ++ [Action.Modified] }
  else l

/-- Content of a `vtkMatrix4x4`. -/
abbrev vtkMatrix4x4 := Matrix (Fin 4) (Fin 4) ℚ

/-- The part of a `vtkImageData` that the logic reads. -/
structure vtkImageData where
  Dimensions : Fin 3 → Int
  Spacing : Fin 3 → ℚ
  Origin : Fin 3 → ℚ

/-- The geometry of a volume node: what `GetSpacing`, `GetImageData` (`none` for the null
pointer), `GetIJKToRASMatrix` and `GetRASToIJKMatrix` give. -/
structure vtkMRMLVolumeNode where
  Spacing : Fin 3 → ℚ
  ImageData : Option vtkImageData
  IJKToRASMatrix : vtkMatrix4x4
  RASToIJKMatrix : vtkMatrix4x4

/-- Modelled from the spec: the element-wise comparison of the two matrices is the
"`|a-b| <= epsilon` fuzzy comparison" (`vtkMathUtilities::FuzzyCompare` of the VTK
library). -/
def FuzzyCompare (a b : ℚ) (tolerance : Double) : Bool :=
  Double.le (.finite |a - b|) tolerance

/-- The smallest of the spacings of two nodes, as computed at lines 1106-1123. -/
def minSpacing (spacing1 spacing2 : Fin 3 → ℚ) : ℚ :=
  let m := spacing1 0
  let m := if spacing1 1 < m then spacing1 1 else m
  let m := if spacing1 2 < m then spacing1 2 else m
  let m := if spacing2 0 < m then spacing2 0 else m
  let m := if spacing2 1 < m then spacing2 1 else m
  if spacing2 2 < m then spacing2 2 else m

/-- The value of an `int` expression whose exact value is `n`, on a two's complement
target. -/
def toInt32 (n : Int) : Int :=
  (n + 2147483648) % 4294967296 - 2147483648

/-- Concatenation of the pieces written to a stream. -/
def concat (pieces : List String) : String :=
  pieces.foldr (fun piece rest => piece ++ rest) ""

/-- The advisory of lines 1127-1132; `print` is the text the stream writes for a double at
a given precision. -/
def spacingAdvisory (print : Int → Double → String) (l : vtkSlicerVolumesLogic)
    (minSpacing : ℚ) : String :=
  let logDiff := toInt32 (orderOfMagnitude (.finite minSpacing) -
    orderOfMagnitude l.CompareVolumeGeometryEpsilon)
  if logDiff < 3 ∨ logDiff > 10 then
    "(Minimum spacing for volumes of " ++
      print l.CompareVolumeGeometryPrecision (.finite minSpacing) ++
      " mismatched with epsilon " ++
      print l.CompareVolumeGeometryPrecision l.CompareVolumeGeometryEpsilon ++
      ",\ngeometry comparison may not be useful.\nTry resetting the Volumes module logic compare volume geometry epsilon variable.)\n"
  else ""

/-- One of the three tests made for a row (lines 1138-1155): `label` is the text that
opens the line. -/
def rowMismatch (print : Int → Double → String) (l : vtkSlicerVolumesLogic)
    (label : String) (row : Fin 3) (volumeValue1 volumeValue2 : ℚ) : String :=
  if volumeValue1 ≠ volumeValue2 then
    label ++ toString row.val ++ "] (" ++
      print l.CompareVolumeGeometryPrecision (.finite volumeValue1) ++ " != " ++
      print l.CompareVolumeGeometryPrecision (.finite volumeValue2) ++ ")\n"
  else ""

/-- The test made for a cell of the two IJK-to-RAS matrices (lines 1164-1175). -/
def cellMismatch (print : Int → Double → String) (l : vtkSlicerVolumesLogic)
    (row column : Fin 4) (volumeValue1 volumeValue2 : ℚ) : String :=
  if FuzzyCompare volumeValue1 volumeValue2 l.CompareVolumeGeometryEpsilon = false then
    "IJKToRAS mismatch at [" ++ toString row.val ++ ", " ++ toString column.val ++ "] (" ++
      print l.CompareVolumeGeometryPrecision (.finite volumeValue1) ++ " != " ++
      print l.CompareVolumeGeometryPrecision (.finite volumeValue2) ++ ")\n"
  else ""

/-- `CompareVolumeGeometry` (lines 1067-1182): the text of `warnings`. -/
def CompareVolumeGeometry (print : Int → Double → String) (l : vtkSlicerVolumesLogic)
    (volumeNode1 volumeNode2 : Option vtkMRMLVolumeNode) : String :=
  match volumeNode1, volumeNode2 with
  | none, _ => "Null first volume node pointer\n"
  | some _, none => "Null second volume node pointer\n"
  | some volumeNode1, some volumeNode2 =>
    match volumeNode1.ImageData, volumeNode2.ImageData with
    | none, none => "Null first image data pointer\n" ++ "Null second image data pointer\n"
    | none, some _ => "Null first image data pointer\n"
    | some _, none => "Null second image data pointer\n"
    | some volumeImage1, some volumeImage2 =>
      spacingAdvisory print l (minSpacing volumeNode1.Spacing volumeNode2.Spacing) ++
      concat ((List.finRange 3).map (fun row =>
        rowMismatch print l "Dimension mismatch at row [" row
          (volumeImage1.Dimensions row) (volumeImage2.Dimensions row) ++
        rowMismatch print l "Spacing mismatch at row [" row
          (volumeImage1.Spacing row) (volumeImage2.Spacing row) ++
        rowMismatch print l "Origin mismatch at row [" row
          (volumeImage1.Origin row) (volumeImage2.Origin row))) ++
      concat ((List.finRange 4).map (fun row =>
        concat ((List.finRange 4).map (fun column =>
          cellMismatch print l row column
            (volumeNode1.IJKToRASMatrix row column)
            (volumeNode2.IJKToRASMatrix row column)))))

/-- `vtkMatrix4x4::SetElement`. -/
def SetElement (M : vtkMatrix4x4) (i j : Fin 4) (value : ℚ) : vtkMatrix4x4 :=
  fun row column => if row = i ∧ column = j then value else M row column

/-- `ComputeTkRegVox2RASMatrix` (lines 1303-1343): the content of the matrix behind `M`
after the call, from its content before. With a null `M` there is no matrix and the
function returns at line 1316. -/
def ComputeTkRegVox2RASMatrix (VNode : Option vtkMRMLVolumeNode) (M : vtkMatrix4x4) :
    vtkMatrix4x4 :=
  match VNode with
  | none => M
  | some VNode =>
    let dC := VNode.Spacing 0
    let dR := VNode.Spacing 1
    let dS := VNode.Spacing 2
    match VNode.ImageData with
    | none => M
    | some image =>
      let Nc := (image.Dimensions 0 : ℚ) * dC
      let Nr := (image.Dimensions 1 : ℚ) * dR
      let Ns := (image.Dimensions 2 : ℚ) * dS
      let M : vtkMatrix4x4 := 0
      let M := SetElement M 0 0 (-dC)
      let M := SetElement M 0 3 (Nc / 2)
      let M := SetElement M 1 2 dS
      let M := SetElement M 1 3 (-Ns / 2)
      let M := SetElement M 2 1 (-dR)
      let M := SetElement M 2 3 (Nr / 2)
      SetElement M 3 3 1

/-- Modelled from the spec: `inverse(X)`, written by `vtkMatrix4x4::Invert(input, output)`
to `output`; a matrix without an inverse leaves `output` as it was. -/
def Invert (input output : vtkMatrix4x4) : vtkMatrix4x4 :=
  if input.det = 0 then output else (input.det)⁻¹ • input.adjugate

/-- `TranslateFreeSurferRegistrationMatrixIntoSlicerRASToRASMatrix` (lines 1390-1468):
the content of `RAS2RASMatrix` after the call (`none`: null pointer). A matrix made by
`vtkNew` is the identity, `Multiply4x4(a, b, c)` writes the product `a * b` to `c`, and
the zeros written by `Zero()` at line 1396 are overwritten by the first product. -/
def TranslateFreeSurferRegistrationMatrixIntoSlicerRASToRASMatrix
    (V1Node V2Node : Option vtkMRMLVolumeNode)
    (FSRegistrationMatrix RAS2RASMatrix : Option vtkMatrix4x4) : Option vtkMatrix4x4 :=
  match V1Node, V2Node, FSRegistrationMatrix, RAS2RASMatrix with
  | some V1Node, some V2Node, some FSRegistrationMatrix, some _ =>
    let T := ComputeTkRegVox2RASMatrix (some V1Node) 1
    let S := ComputeTkRegVox2RASMatrix (some V2Node) 1
    let Sinv := Invert S 1
    let M := V1Node.IJKToRASMatrix
    let N := V2Node.RASToIJKMatrix
    let Minv := Invert M 1
    let Ninv := Invert N 1
    let RAS2RASMatrix := T * Minv
    let RAS2RASMatrix := FSRegistrationMatrix * RAS2RASMatrix
    let RAS2RASMatrix := Sinv * RAS2RASMatrix
    let RAS2RASMatrix := Ninv * RAS2RASMatrix
    some RAS2RASMatrix
  | _, _, _, RAS2RASMatrix => RAS2RASMatrix

/-! ## Volumes logic: terms the statements use -/

/-- The node set a factory builds when the first free address is `n`: the three nodes take
`n`, `n + 1`, `n + 2` in the order of their creation. -/
def ArchetypeVolumeNodeSetFactory.nodeSetAt (f : ArchetypeVolumeNodeSetFactory) (n : Nat) :
    ArchetypeVolumeNodeSet :=
  { Node := if f.VolumeFirst then n else n + 1
    DisplayNode := if f.VolumeFirst then n + 1 else n
    StorageNode := n + 2
    LabelMap := f.LabelMap }

/-- The factory at `position` is accepted: its label-map flag equals the caller's bit and
the read attempted on its node set succeeds. -/
def accepts (env : Collaborators) (labelMap : Bool) (position : Nat)
    (f : ArchetypeVolumeNodeSetFactory) : Prop :=
  labelMap = f.LabelMap ∧ (env.ReadData position).1 = true

/-- No factory of the list, which starts at `position` of the registry, is accepted. -/
def allRejected (env : Collaborators) (labelMap : Bool) (position : Nat)
    (fs : List ArchetypeVolumeNodeSetFactory) : Prop :=
  ∀ i f, fs[i]? = some f → ¬ accepts env labelMap (position + i) f

/-- The actions of the factory loop on the factories it tries, the first of them at
`position`: each is called, and its read is attempted if its label-map flag fits. -/
def trialActions (labelMap : Bool) : Nat → List ArchetypeVolumeNodeSetFactory → List Action
  | _, [] => []
  | position, f :: fs =>
    (Action.CallFactory position ::
      (if labelMap = f.LabelMap then [Action.ReadData position] else [])) ++
    trialActions labelMap (position + 1) fs

/-- The file-name helpers and outcomes used in the examples: every read fails except the
one at position 1. -/
def exampleCollaborators : Collaborators :=
  { GetFilenameName := fun name => name
    GetFilenameLastExtension := fun _ => ""
    LowerCase := fun name => name
    GetUniqueNameByString := fun _ name => name
    IsRemoteReference := fun _ => false
    ReadData := fun position => if position = 1 then (true, []) else (false, ["read failed"]) }

/-- A logic attached to an empty scene, with the six factories of the constructor, in a
memory where nothing is allocated yet. -/
def exampleVolumesLogic : vtkSlicerVolumesLogic :=
  { MRMLScene := some {}
    ActiveVolumeNode := none
    VolumeRegistry := [DiffusionWeightedVolumeNodeSetFactory,
      DiffusionTensorVolumeNodeSetFactory, NRRDVectorVolumeNodeSetFactory,
      ArchetypeVectorVolumeNodeSetFactory, LabelMapVolumeNodeSetFactory,
      ScalarVolumeNodeSetFactory]
    ColorLogic := none
    Memory := { Object := fun _ => {}, Next := 0 }
    Trace := []
    CompareVolumeGeometryEpsilon := .finite (1 / 1000000)
    CompareVolumeGeometryPrecision := 6 }

/-- Collaborators with which every read fails. -/
def failingCollaborators : Collaborators :=
  { exampleCollaborators with ReadData := fun _ => (false, ["read failed"]) }

/-- A logic with no scene attached. -/
def detachedVolumesLogic : vtkSlicerVolumesLogic :=
  { exampleVolumesLogic with MRMLScene := none }

/-- The text written for a double in the examples. -/
def examplePrint : Int → Double → String :=
  fun _ _ => "?"

/-- A volume node with one voxel, an isotropic spacing of 2 and the matching matrices. -/
def exampleVolumeNode : vtkMRMLVolumeNode :=
  { Spacing := fun _ => 2
    ImageData := some { Dimensions := fun _ => 1, Spacing := fun _ => 1, Origin := fun _ => 0 }
    IJKToRASMatrix := Matrix.diagonal ![2, 2, 2, 1]
    RASToIJKMatrix := Matrix.diagonal ![1 / 2, 1 / 2, 1 / 2, 1] }

/-- A volume node with one voxel and an isotropic spacing of a tenth of a micrometre. -/
def fineVolumeNode : vtkMRMLVolumeNode :=
  { Spacing := fun _ => 1 / 10000
    ImageData := some { Dimensions := fun _ => 1, Spacing := fun _ => 1, Origin := fun _ => 0 }
    IJKToRASMatrix := Matrix.diagonal ![1 / 10000, 1 / 10000, 1 / 10000, 1]
    RASToIJKMatrix := Matrix.diagonal ![10000, 10000, 10000, 1] }

/-- The example node moved by 1 along the first axis. -/
def shiftedVolumeNode : vtkMRMLVolumeNode :=
  { exampleVolumeNode with
    IJKToRASMatrix := SetElement exampleVolumeNode.IJKToRASMatrix 0 3 1 }

/-- `vtksys::SystemTools::GetFilenameName`: the part of a path after its last slash. -/
def SystemTools.GetFilenameName (filename : String) : String :=
  String.mk (filename.data.reverse.takeWhile (fun c => c ≠ '/')).reverse

/-- `vtksys::SystemTools::GetFilenameLastExtension`: the part of the file name from its
last dot on, the empty string if the name has no dot. -/
def SystemTools.GetFilenameLastExtension (filename : String) : String :=
  if '.' ∈ (SystemTools.GetFilenameName filename).data then
    String.mk ('.' ::
      ((SystemTools.GetFilenameName filename).data.reverse.takeWhile (fun c => c ≠ '.')).reverse)
  else ""

/-- `vtksys::SystemTools::LowerCase`. -/
def SystemTools.LowerCase (s : String) : String :=
  String.mk (s.data.map Char.toLower)

/-- Collaborators with the three file-name helpers of `vtksys::SystemTools` in place. -/
def systemToolsCollaborators : Collaborators :=
  { exampleCollaborators with
    GetFilenameName := SystemTools.GetFilenameName
    GetFilenameLastExtension := SystemTools.GetFilenameLastExtension
    LowerCase := SystemTools.LowerCase }

/-- A colour logic with three different default colour nodes. -/
def exampleColorLogic : vtkMRMLColorLogic :=
  { DefaultVolumeColorNodeID := some "vtkMRMLColorTableNodeGrey"
    DefaultLabelMapColorNodeID := some "vtkMRMLColorTableNodeFileGenericColors.txt"
    DefaultFreeSurferLabelMapColorNodeID := some "vtkMRMLFreeSurferProceduralColorNodeLabels" }

/-- The part of a transform node that `ResampleVolumeToReferenceVolume` reads: what
`GetTransformToWorld` and `GetTransformFromWorld` give, taken linear. -/
structure vtkMRMLTransformNode where
  TransformToWorld : vtkMatrix4x4
  TransformFromWorld : vtkMatrix4x4

/-- A `vtkGeneralTransform` in post-multiply mode: the transforms concatenated so far, in
the order in which they are applied, and whether the whole stands for its inverse. -/
structure vtkGeneralTransform where
  Concatenation : List vtkMatrix4x4
  InverseFlag : Bool

/-- `vtkGeneralTransform::Concatenate` in post-multiply mode. -/
def vtkGeneralTransform.Concatenate (t : vtkGeneralTransform) (m : vtkMatrix4x4) :
    vtkGeneralTransform :=
  { t with Concatenation := t.Concatenation ++ [m] }

/-- `vtkGeneralTransform::Inverse`. -/
def vtkGeneralTransform.Inverse (t : vtkGeneralTransform) : vtkGeneralTransform :=
  { t with InverseFlag := !t.InverseFlag }

/-- `ResampleVolumeToReferenceVolume` (lines 1505-1596): the reslice transform handed to
the reslice filter, `none` when the function returns null at line 1518. `scene` tells
whether the input node is in a scene; the two transform nodes are what the scene gives for
the transform node IDs of the two volume nodes (`none`: no parent transform). The clone of
the input node and the filter are left out. -/
def ResampleVolumeToReferenceVolume (inputVolumeNode referenceVolumeNode : Option vtkMRMLVolumeNode)
    (scene : Bool)
    (inputVolumeNodeTransformNode referenceVolumeNodeTransformNode : Option vtkMRMLTransformNode) :
    Option vtkGeneralTransform :=
  match inputVolumeNode, referenceVolumeNode with
  | some inputVolumeNode, some referenceVolumeNode =>
    if scene = false ∨ inputVolumeNode.ImageData.isNone = true ∨
        referenceVolumeNode.ImageData.isNone = true then none
    else
      let outputVolumeResliceTransform : vtkGeneralTransform :=
        { Concatenation := [], InverseFlag := false }
      let outputVolumeResliceTransform :=
        outputVolumeResliceTransform.Concatenate inputVolumeNode.IJKToRASMatrix
      let outputVolumeResliceTransform :=
        match inputVolumeNodeTransformNode with
        | some node => outputVolumeResliceTransform.Concatenate node.TransformToWorld
        | none => outputVolumeResliceTransform
      let outputVolumeResliceTransform :=
        match referenceVolumeNodeTransformNode, inputVolumeNodeTransformNode with
        | some _, some node => outputVolumeResliceTransform.Concatenate node.TransformFromWorld
        | _, _ => outputVolumeResliceTransform
      let outputVolumeResliceTransform :=
        outputVolumeResliceTransform.Concatenate referenceVolumeNode.RASToIJKMatrix
      some outputVolumeResliceTransform.Inverse
  | _, _ => none

/-- A parent transform that doubles every coordinate. -/
def doublingTransformNode : vtkMRMLTransformNode :=
  { TransformToWorld := Matrix.diagonal ![2, 2, 2, 1]
    TransformFromWorld := Matrix.diagonal ![1 / 2, 1 / 2, 1 / 2, 1] }

/-- A parent transform that halves every coordinate. -/
def halvingTransformNode : vtkMRMLTransformNode :=
  { TransformToWorld := Matrix.diagonal ![1 / 2, 1 / 2, 1 / 2, 1]
    TransformFromWorld := Matrix.diagonal ![2, 2, 2, 1] }

/-- Index `i` closes the significant region of the digits `d`: it is the third of three
equal digits in a row, and some digit at an index up to `i` is not `0`. -/
def closesRun (d : List Char) (i : Nat) : Prop :=
  2 ≤ i ∧ i < d.length ∧ d.getD i ' ' = d.getD (i - 1) ' ' ∧
    d.getD (i - 1) ' ' = d.getD (i - 2) ' ' ∧ ∃ j, j ≤ i ∧ d.getD j ' ' ≠ '0'

/-! ## Units logic: lemmas -/

theorem SetDefaultUnit_eq (q : String) (id : Option String) (l : vtkSlicerUnitsLogic)
    (scene : UnitsScene) (sel : vtkMRMLSelectionNode)
    (hscene : l.MRMLScene = some scene) (hsel : scene.SelectionNode = some sel) :
    SetDefaultUnit (some q) id l =
      { l with
        MRMLScene := some { scene with SelectionNode := some (sel.SetUnitNodeID q id) }
        SelectionNodeObservations :=
          if l.SelectionNodeObservations = 0 then 1 else l.SelectionNodeObservations } := by
  unfold SetDefaultUnit
  rw [hscene]
  simp only [hsel]
  by_cases h : l.SelectionNodeObservations = 0 <;> simp [h]

theorem defaultUnit_eq (l : vtkSlicerUnitsLogic) (scene : UnitsScene)
    (sel : vtkMRMLSelectionNode)
    (hscene : l.MRMLScene = some scene) (hsel : scene.SelectionNode = some sel) (q : String) :
    defaultUnit l q = sel.UnitNodeIDs.lookup q := by
  simp [defaultUnit, hscene, hsel, vtkMRMLSelectionNode.GetUnitNodeID]

theorem lookup_SetUnitNodeID (sel : vtkMRMLSelectionNode) (q : String) (id : Option String) :
    (sel.SetUnitNodeID q id).UnitNodeIDs.lookup q = id := by
  cases id with
  | none => simp [vtkMRMLSelectionNode.SetUnitNodeID]
  | some u => simp [vtkMRMLSelectionNode.SetUnitNodeID]

theorem lookup_SetUnitNodeID_ne (sel : vtkMRMLSelectionNode) (q q' : String)
    (id : Option String) (h : q' ≠ q) :
    (sel.SetUnitNodeID q id).UnitNodeIDs.lookup q' = sel.UnitNodeIDs.lookup q' := by
  cases id with
  | none => simp [vtkMRMLSelectionNode.SetUnitNodeID, AList.lookup_erase_ne h]
  | some u => simp [vtkMRMLSelectionNode.SetUnitNodeID, AList.lookup_insert_ne h]

theorem erase_erase_self (t : UnitTable) (q : String) : (t.erase q).erase q = t.erase q := by
  apply AList.ext
  simp only [AList.erase]
  exact List.kerase_of_not_mem_keys (List.not_mem_keys_kerase q t.nodupKeys)

theorem SetUnitNodeID_twice (sel : vtkMRMLSelectionNode) (q : String) (id : Option String) :
    (sel.SetUnitNodeID q id).SetUnitNodeID q id = sel.SetUnitNodeID q id := by
  cases id with
  | none => simp [vtkMRMLSelectionNode.SetUnitNodeID, erase_erase_self]
  | some u => simp [vtkMRMLSelectionNode.SetUnitNodeID, AList.insert_insert]

theorem hasSelectionNode_SetDefaultUnit (quantity id : Option String) (l : vtkSlicerUnitsLogic)
    (h : hasSelectionNode l) : hasSelectionNode (SetDefaultUnit quantity id l) := by
  obtain ⟨scene, sel, hscene, hsel⟩ := h
  cases quantity with
  | none => exact ⟨scene, sel, by simp [SetDefaultUnit, hscene], hsel⟩
  | some q =>
    rw [SetDefaultUnit_eq q id l scene sel hscene hsel]
    exact ⟨_, _, rfl, rfl⟩

theorem defaultUnit_SetDefaultUnit (q : String) (id : Option String)
    (l : vtkSlicerUnitsLogic) (h : hasSelectionNode l) :
    defaultUnit (SetDefaultUnit (some q) id l) q = id := by
  obtain ⟨scene, sel, hscene, hsel⟩ := h
  rw [SetDefaultUnit_eq q id l scene sel hscene hsel]
  rw [defaultUnit_eq _ _ (sel.SetUnitNodeID q id) rfl rfl]
  exact lookup_SetUnitNodeID sel q id

theorem defaultUnit_SetDefaultUnit_ne (q q' : String) (id : Option String)
    (l : vtkSlicerUnitsLogic) (h : hasSelectionNode l) (hne : q' ≠ q) :
    defaultUnit (SetDefaultUnit (some q) id l) q' = defaultUnit l q' := by
  obtain ⟨scene, sel, hscene, hsel⟩ := h
  rw [SetDefaultUnit_eq q id l scene sel hscene hsel]
  rw [defaultUnit_eq _ _ (sel.SetUnitNodeID q id) rfl rfl, defaultUnit_eq l scene sel hscene hsel]
  exact lookup_SetUnitNodeID_ne sel q q' id hne

theorem observations_SetDefaultUnit_le (quantity id : Option String) (l : vtkSlicerUnitsLogic)
    (h : l.SelectionNodeObservations ≤ 1) :
    (SetDefaultUnit quantity id l).SelectionNodeObservations ≤ 1 := by
  unfold SetDefaultUnit
  split
  · exact h
  · exact h
  · split
    · exact h
    · simp only
      split <;> simp_all

theorem observations_SetDefaultUnit (q : String) (id : Option String) (l : vtkSlicerUnitsLogic)
    (hl : hasSelectionNode l) (h : l.SelectionNodeObservations ≤ 1) :
    (SetDefaultUnit (some q) id l).SelectionNodeObservations = 1 := by
  obtain ⟨scene, sel, hscene, hsel⟩ := hl
  rw [SetDefaultUnit_eq q id l scene sel hscene hsel]
  by_cases h0 : l.SelectionNodeObservations = 0
  · simp [h0]
  · simp only [h0, if_false]
    omega

theorem lookup_saveLoop (es : List (Sigma fun _ : String => String)) (hes : es.NodupKeys)
    (cache : UnitTable) (q : String) :
    (saveLoop (es.map fun e => some e.1) (es.map fun e => some e.2) cache).lookup q =
      (es.dlookup q).orElse (fun _ => cache.lookup q) := by
  induction es generalizing cache with
  | nil => simp [saveLoop]
  | cons e t ih =>
    obtain ⟨k, v⟩ := e
    have hk : k ∉ t.keys := (List.nodupKeys_cons.mp hes).1
    have ht : t.NodupKeys := (List.nodupKeys_cons.mp hes).2
    simp only [List.map_cons, saveLoop]
    rw [ih ht]
    by_cases hq : q = k
    · subst hq
      have hnone : t.dlookup q = none := List.dlookup_eq_none.mpr hk
      simp [hnone, List.dlookup_cons_eq]
    · have hq' : k ≠ q := fun h => hq h.symm
      simp [List.dlookup_cons_ne t ⟨k, v⟩ hq, AList.lookup_insert_ne hq]

theorem lookup_SaveDefaultUnits (l : vtkSlicerUnitsLogic) (scene : UnitsScene)
    (sel : vtkMRMLSelectionNode)
    (hscene : l.MRMLScene = some scene) (hsel : scene.SelectionNode = some sel) :
    ∃ saved, SaveDefaultUnits l = some saved ∧ saved.MRMLScene = l.MRMLScene ∧
      saved.SelectionNodeObservations = l.SelectionNodeObservations ∧
      ∀ q, saved.CachedDefaultUnits.lookup q = sel.UnitNodeIDs.lookup q := by
  refine ⟨{ l with
      CachedDefaultUnits := saveLoop sel.GetUnitNodeIDs.1 sel.GetUnitNodeIDs.2 ∅ },
    ?_, rfl, rfl, ?_⟩
  · simp only [SaveDefaultUnits, hscene, hsel]
  intro q
  simp only [vtkMRMLSelectionNode.GetUnitNodeIDs]
  rw [lookup_saveLoop sel.UnitNodeIDs.entries sel.UnitNodeIDs.nodupKeys]
  simp only [AList.lookup_empty]
  cases h : List.dlookup q sel.UnitNodeIDs.entries <;> simp [AList.lookup, h]

theorem defaultUnit_restoreFold (es : List (Sigma fun _ : String => String))
    (hes : es.NodupKeys) (l : vtkSlicerUnitsLogic) (hl : hasSelectionNode l) (q : String) :
    defaultUnit (es.foldl (fun acc e => SetDefaultUnit (some e.1) (some e.2) acc) l) q =
      (es.dlookup q).orElse (fun _ => defaultUnit l q) := by
  induction es generalizing l with
  | nil => simp
  | cons e t ih =>
    obtain ⟨k, v⟩ := e
    have hk : k ∉ t.keys := (List.nodupKeys_cons.mp hes).1
    have ht : t.NodupKeys := (List.nodupKeys_cons.mp hes).2
    simp only [List.foldl_cons]
    rw [ih ht _ (hasSelectionNode_SetDefaultUnit _ _ l hl)]
    by_cases hq : q = k
    · subst hq
      have hnone : t.dlookup q = none := List.dlookup_eq_none.mpr hk
      simp [hnone, List.dlookup_cons_eq, defaultUnit_SetDefaultUnit q (some v) l hl]
    · simp [List.dlookup_cons_ne t ⟨k, v⟩ hq, defaultUnit_SetDefaultUnit_ne k q (some v) l hl hq]

theorem cache_SetDefaultUnit (quantity id : Option String) (l : vtkSlicerUnitsLogic) :
    (SetDefaultUnit quantity id l).CachedDefaultUnits = l.CachedDefaultUnits ∧
      (SetDefaultUnit quantity id l).RestoringDefaultUnits = l.RestoringDefaultUnits := by
  unfold SetDefaultUnit
  split
  · exact ⟨rfl, rfl⟩
  · exact ⟨rfl, rfl⟩
  · split
    · exact ⟨rfl, rfl⟩
    · simp only
      split <;> exact ⟨rfl, rfl⟩

theorem cache_restoreFold (es : List (Sigma fun _ : String => String))
    (l : vtkSlicerUnitsLogic) :
    (es.foldl (fun acc e => SetDefaultUnit (some e.1) (some e.2) acc) l).CachedDefaultUnits =
      l.CachedDefaultUnits := by
  induction es generalizing l with
  | nil => rfl
  | cons e t ih =>
    simp only [List.foldl_cons]
    rw [ih, (cache_SetDefaultUnit _ _ l).1]

theorem hasSelectionNode_restoreFold (es : List (Sigma fun _ : String => String))
    (l : vtkSlicerUnitsLogic) (hl : hasSelectionNode l) :
    hasSelectionNode (es.foldl (fun acc e => SetDefaultUnit (some e.1) (some e.2) acc) l) := by
  induction es generalizing l with
  | nil => simpa using hl
  | cons e t ih =>
    simp only [List.foldl_cons]
    exact ih _ (hasSelectionNode_SetDefaultUnit _ _ l hl)

theorem defaultUnit_RestoreDefaultUnits (l : vtkSlicerUnitsLogic) (hl : hasSelectionNode l) :
    ∃ restored, RestoreDefaultUnits l = some restored ∧ hasSelectionNode restored ∧
      restored.RestoringDefaultUnits = false ∧
      restored.CachedDefaultUnits = l.CachedDefaultUnits ∧
      ∀ q, defaultUnit restored q =
        (l.CachedDefaultUnits.lookup q).orElse (fun _ => defaultUnit l q) := by
  have hl' : hasSelectionNode { l with RestoringDefaultUnits := true } := hl
  obtain ⟨scene, sel, hscene, hsel⟩ := hl
  refine ⟨{ (l.CachedDefaultUnits.entries.foldl
      (fun acc e => SetDefaultUnit (some e.1) (some e.2) acc)
      { l with RestoringDefaultUnits := true }) with RestoringDefaultUnits := false },
    ?_, ?_, rfl, ?_, ?_⟩
  · simp only [RestoreDefaultUnits, hscene]
  · exact hasSelectionNode_restoreFold _ _ hl'
  · exact cache_restoreFold _ _
  · intro q
    have := defaultUnit_restoreFold l.CachedDefaultUnits.entries l.CachedDefaultUnits.nodupKeys
      { l with RestoringDefaultUnits := true } hl' q
    exact this

/-! ## Units logic: the claims -/

/-- C4, as the code has it: `SetDefaultUnit(quantity, id)` changes nothing (and returns)
when the quantity is the null pointer, or no scene is attached, or the attached scene has no
selection node. -/
theorem SetDefaultUnit_noop (quantity id : Option String) (l : vtkSlicerUnitsLogic)
    (h : quantity = none ∨ l.MRMLScene = none ∨
      ∃ scene, l.MRMLScene = some scene ∧ scene.SelectionNode = none) :
    SetDefaultUnit quantity id l = l := by
  rcases h with h | h | ⟨scene, hscene, hsel⟩
  · subst h
    rfl
  · cases quantity <;> simp [SetDefaultUnit, h]
  · cases quantity <;> simp [SetDefaultUnit, hscene, hsel]

theorem SetDefaultUnit_noop_witness :
    ((none : Option String) = none ∨ freshUnitsLogic.MRMLScene = none ∨
      ∃ scene, freshUnitsLogic.MRMLScene = some scene ∧ scene.SelectionNode = none) ∧
    SetDefaultUnit none (some "vtkMRMLUnitNodeApplicationLength") freshUnitsLogic =
      freshUnitsLogic :=
  ⟨Or.inl rfl, SetDefaultUnit_noop none _ freshUnitsLogic (Or.inl rfl)⟩

/-- C4 as stated fails for the empty string: `SetDefaultUnit("", id)` on a scene with a
selection node is not guarded; it writes the entry of the empty quantity and adds the
observation of the selection node. -/
theorem SetDefaultUnit_empty_quantity_writes :
    SetDefaultUnit (some "") (some "vtkMRMLUnitNodeApplicationLength") freshUnitsLogic ≠
      freshUnitsLogic ∧
    defaultUnit freshUnitsLogic "" = none ∧
    defaultUnit
      (SetDefaultUnit (some "") (some "vtkMRMLUnitNodeApplicationLength") freshUnitsLogic) "" =
      some "vtkMRMLUnitNodeApplicationLength" ∧
    freshUnitsLogic.SelectionNodeObservations = 0 ∧
    (SetDefaultUnit (some "") (some "vtkMRMLUnitNodeApplicationLength")
      freshUnitsLogic).SelectionNodeObservations = 1 := by
  have hobs : (SetDefaultUnit (some "") (some "vtkMRMLUnitNodeApplicationLength")
      freshUnitsLogic).SelectionNodeObservations = 1 := rfl
  refine ⟨?_, rfl, ?_, rfl, hobs⟩
  · intro heq
    rw [heq] at hobs
    exact absurd hobs (by decide)
  · exact defaultUnit_SetDefaultUnit "" _ freshUnitsLogic ⟨_, _, rfl, rfl⟩

theorem Memory.modify_Next (m : Memory) (a : Nat) (f : vtkMRMLNode → vtkMRMLNode) :
    (m.modify a f).Next = m.Next := rfl

theorem Memory.modify_Object_same (m : Memory) (a : Nat) (f : vtkMRMLNode → vtkMRMLNode) :
    (m.modify a f).Object a = f (m.Object a) := by
  simp [Memory.modify]

theorem Memory.modify_Object_ne (m : Memory) (a b : Nat) (f : vtkMRMLNode → vtkMRMLNode)
    (h : b ≠ a) : (m.modify a f).Object b = m.Object b := by
  simp [Memory.modify, Function.update_noteq h]

theorem call_nodeSet (f : ArchetypeVolumeNodeSetFactory) (volumeName : String)
    (scene : vtkMRMLScene) (options : Nat) (m : Memory) :
    (f.call volumeName scene options m).1 = f.nodeSetAt m.Next := by
  cases hv : f.VolumeFirst <;>
    simp [ArchetypeVolumeNodeSetFactory.call, ArchetypeVolumeNodeSetFactory.nodeSetAt, hv,
      Memory.new, Memory.modify, vtkMRMLScene.AddNode]

theorem call_scene (f : ArchetypeVolumeNodeSetFactory) (volumeName : String)
    (scene : vtkMRMLScene) (options : Nat) (m : Memory) :
    (f.call volumeName scene options m).2.1 =
      { scene with
        Nodes := scene.Nodes ++ [m.Next, m.Next + 1, m.Next + 2]
        UniqueIDCounter := scene.UniqueIDCounter + 3 } := by
  simp [ArchetypeVolumeNodeSetFactory.call, Memory.new, Memory.modify, vtkMRMLScene.AddNode]

theorem call_Next (f : ArchetypeVolumeNodeSetFactory) (volumeName : String)
    (scene : vtkMRMLScene) (options : Nat) (m : Memory) :
    (f.call volumeName scene options m).2.2.Next = m.Next + 3 := by
  simp [ArchetypeVolumeNodeSetFactory.call, Memory.new, Memory.modify, vtkMRMLScene.AddNode]

theorem call_frame (f : ArchetypeVolumeNodeSetFactory) (volumeName : String)
    (scene : vtkMRMLScene) (options : Nat) (m : Memory) (a : Nat) (h : a < m.Next) :
    (f.call volumeName scene options m).2.2.Object a = m.Object a := by
  have h0 : a ≠ m.Next := by omega
  have h1 : a ≠ m.Next + 1 := by omega
  have h2 : a ≠ m.Next + 2 := by omega
  cases hv : f.VolumeFirst <;>
    simp [ArchetypeVolumeNodeSetFactory.call, hv, Memory.new, Memory.modify,
      vtkMRMLScene.AddNode, Function.update_noteq, h0, h1, h2]

theorem call_classes (f : ArchetypeVolumeNodeSetFactory) (volumeName : String)
    (scene : vtkMRMLScene) (options : Nat) (m : Memory) :
    ((f.call volumeName scene options m).2.2.Object (f.nodeSetAt m.Next).Node).ClassName =
        f.VolumeClass ∧
    ((f.call volumeName scene options m).2.2.Object (f.nodeSetAt m.Next).DisplayNode).ClassName =
        f.DisplayClass ∧
    ((f.call volumeName scene options m).2.2.Object (f.nodeSetAt m.Next).StorageNode).ClassName =
        (f.newStorageNode options).ClassName := by
  have h2 : m.Next ≠ m.Next + 1 + 1 := by omega
  cases hv : f.VolumeFirst <;>
    simp [ArchetypeVolumeNodeSetFactory.call, ArchetypeVolumeNodeSetFactory.nodeSetAt, hv,
      Memory.new, Memory.modify, vtkMRMLScene.AddNode, Function.update,
      ArchetypeVolumeNodeSetFactory.newVolumeNode, ArchetypeVolumeNodeSetFactory.newDisplayNode,
      h2]

theorem InitializeStorageNode_ClassName (env : Collaborators) (n : vtkMRMLNode)
    (filename : Option String) (fileList : Option (List String))
    (scene : Option vtkMRMLScene) :
    (InitializeStorageNode env n filename fileList scene).ClassName = n.ClassName := by
  unfold InitializeStorageNode
  simp only
  split <;> split <;> rfl

theorem attemptRead_fst (env : Collaborators) (filename : Option String)
    (fileList : Option (List String)) (position : Nat) (nodeSet : ArchetypeVolumeNodeSet)
    (t : Trial) :
    (attemptRead env filename fileList position nodeSet t).1 = (env.ReadData position).1 := rfl

theorem attemptRead_testScene (env : Collaborators) (filename : Option String)
    (fileList : Option (List String)) (position : Nat) (nodeSet : ArchetypeVolumeNodeSet)
    (t : Trial) :
    (attemptRead env filename fileList position nodeSet t).2.testScene = t.testScene := rfl

theorem attemptRead_Trace (env : Collaborators) (filename : Option String)
    (fileList : Option (List String)) (position : Nat) (nodeSet : ArchetypeVolumeNodeSet)
    (t : Trial) :
    (attemptRead env filename fileList position nodeSet t).2.Trace =
      t.Trace ++ [Action.ReadData position] := rfl

theorem attemptRead_Next (env : Collaborators) (filename : Option String)
    (fileList : Option (List String)) (position : Nat) (nodeSet : ArchetypeVolumeNodeSet)
    (t : Trial) :
    (attemptRead env filename fileList position nodeSet t).2.Memory.Next = t.Memory.Next := rfl

theorem attemptRead_Object_ne (env : Collaborators) (filename : Option String)
    (fileList : Option (List String)) (position : Nat) (nodeSet : ArchetypeVolumeNodeSet)
    (t : Trial) (a : Nat) (h : a ≠ nodeSet.StorageNode) :
    (attemptRead env filename fileList position nodeSet t).2.Memory.Object a =
      t.Memory.Object a := by
  simp [attemptRead, Memory.modify, Function.update_noteq h]

theorem attemptRead_ClassName (env : Collaborators) (filename : Option String)
    (fileList : Option (List String)) (position : Nat) (nodeSet : ArchetypeVolumeNodeSet)
    (t : Trial) (a : Nat) :
    ((attemptRead env filename fileList position nodeSet t).2.Memory.Object a).ClassName =
      (t.Memory.Object a).ClassName := by
  by_cases h : a = nodeSet.StorageNode
  · subst h
    simp [attemptRead, Memory.modify, InitializeStorageNode_ClassName]
  · rw [attemptRead_Object_ne _ _ _ _ _ _ _ h]

theorem cleanUp_Next (nodeSet : ArchetypeVolumeNodeSet) (t : Trial) :
    (cleanUp nodeSet t).Memory.Next = t.Memory.Next := rfl

theorem cleanUp_Trace (nodeSet : ArchetypeVolumeNodeSet) (t : Trial) :
    (cleanUp nodeSet t).Trace = t.Trace := rfl

theorem cleanUp_ErrorList (nodeSet : ArchetypeVolumeNodeSet) (t : Trial) :
    (cleanUp nodeSet t).ErrorList = t.ErrorList := rfl

theorem cleanUp_Object_ne (nodeSet : ArchetypeVolumeNodeSet) (t : Trial) (a : Nat)
    (h : a ≠ nodeSet.Node) : (cleanUp nodeSet t).Memory.Object a = t.Memory.Object a := by
  simp [cleanUp, Memory.modify, Function.update_noteq h]

theorem cleanUp_Nodes (f : ArchetypeVolumeNodeSetFactory) (n : Nat) (t : Trial)
    (h : t.testScene.Nodes = [n, n + 1, n + 2]) :
    (cleanUp (f.nodeSetAt n) t).testScene.Nodes = [] := by
  cases hv : f.VolumeFirst <;>
    simp [cleanUp, vtkMRMLScene.RemoveNode, ArchetypeVolumeNodeSetFactory.nodeSetAt, hv, h,
      List.filter]

theorem nodeSetAt_ge (f : ArchetypeVolumeNodeSetFactory) (n : Nat) :
    n ≤ (f.nodeSetAt n).Node ∧ n ≤ (f.nodeSetAt n).DisplayNode ∧
      n ≤ (f.nodeSetAt n).StorageNode := by
  cases hv : f.VolumeFirst <;> simp [ArchetypeVolumeNodeSetFactory.nodeSetAt, hv]

theorem nodeSetAt_lt (f : ArchetypeVolumeNodeSetFactory) (n : Nat) :
    (f.nodeSetAt n).Node < n + 3 ∧ (f.nodeSetAt n).DisplayNode < n + 3 ∧
      (f.nodeSetAt n).StorageNode < n + 3 := by
  cases hv : f.VolumeFirst <;> simp [ArchetypeVolumeNodeSetFactory.nodeSetAt, hv]

theorem nodeSetAt_distinct (f : ArchetypeVolumeNodeSetFactory) (n : Nat) :
    (f.nodeSetAt n).Node ≠ (f.nodeSetAt n).DisplayNode ∧
    (f.nodeSetAt n).Node ≠ (f.nodeSetAt n).StorageNode ∧
    (f.nodeSetAt n).DisplayNode ≠ (f.nodeSetAt n).StorageNode := by
  cases hv : f.VolumeFirst <;> simp [ArchetypeVolumeNodeSetFactory.nodeSetAt, hv]

/-- One turn of the factory loop on a factory that is not accepted: what is left when the
next turn starts. -/
theorem rejected_turn (env : Collaborators) (labelMap : Bool) (volumeName : String)
    (filename : Option String) (fileList : Option (List String)) (loadingOptions : Nat)
    (fit : ArchetypeVolumeNodeSetFactory) (rest : List ArchetypeVolumeNodeSetFactory)
    (position : Nat) (t : Trial) (ht : t.testScene.Nodes = [])
    (hrej : ¬ accepts env labelMap position fit) :
    ∃ t2, factoryLoop env labelMap volumeName filename fileList loadingOptions (fit :: rest)
        position t =
      factoryLoop env labelMap volumeName filename fileList loadingOptions rest
        (position + 1) t2 ∧
      t2.testScene.Nodes = [] ∧
      t2.Memory.Next = t.Memory.Next + 3 ∧
      (∀ a, a < t.Memory.Next → t2.Memory.Object a = t.Memory.Object a) ∧
      t2.Trace = t.Trace ++ (Action.CallFactory position ::
        (if labelMap = fit.LabelMap then [Action.ReadData position] else [])) := by
  have hns := call_nodeSet fit volumeName t.testScene loadingOptions t.Memory
  have hsc := call_scene fit volumeName t.testScene loadingOptions t.Memory
  have hnx := call_Next fit volumeName t.testScene loadingOptions t.Memory
  have hfr := call_frame fit volumeName t.testScene loadingOptions t.Memory
  have hge := nodeSetAt_ge fit t.Memory.Next
  by_cases hlm : labelMap = fit.LabelMap
  · have hread : (env.ReadData position).1 = false := by
      cases h : (env.ReadData position).1
      · rfl
      · exact absurd ⟨hlm, h⟩ hrej
    refine ⟨cleanUp (fit.nodeSetAt t.Memory.Next)
      (attemptRead env filename fileList position (fit.nodeSetAt t.Memory.Next)
        { t with
          testScene := (fit.call volumeName t.testScene loadingOptions t.Memory).2.1
          Memory := (fit.call volumeName t.testScene loadingOptions t.Memory).2.2
          Trace := t.Trace ++ [Action.CallFactory position] }).2, ?_, ?_, ?_, ?_, ?_⟩
    · rw [factoryLoop]
      simp only [hns, ArchetypeVolumeNodeSetFactory.nodeSetAt, hlm, if_true, attemptRead_fst,
        hread, Bool.false_eq_true, if_false]
    · apply cleanUp_Nodes
      rw [attemptRead_testScene]
      simp [hsc, ht]
    · rw [cleanUp_Next, attemptRead_Next]
      exact hnx
    · intro a ha
      rw [cleanUp_Object_ne _ _ _ (by omega), attemptRead_Object_ne _ _ _ _ _ _ _ (by omega)]
      exact hfr a ha
    · rw [cleanUp_Trace, attemptRead_Trace]
      simp [hlm]
  · refine ⟨cleanUp (fit.nodeSetAt t.Memory.Next)
      { t with
        testScene := (fit.call volumeName t.testScene loadingOptions t.Memory).2.1
        Memory := (fit.call volumeName t.testScene loadingOptions t.Memory).2.2
        Trace := t.Trace ++ [Action.CallFactory position] }, ?_, ?_, ?_, ?_, ?_⟩
    · rw [factoryLoop]
      simp only [hns, ArchetypeVolumeNodeSetFactory.nodeSetAt, hlm, if_false,
        Bool.false_eq_true]
    · apply cleanUp_Nodes
      simp [hsc, ht]
    · rw [cleanUp_Next]
      exact hnx
    · intro a ha
      rw [cleanUp_Object_ne _ _ _ (by omega)]
      exact hfr a ha
    · rw [cleanUp_Trace]
      simp [hlm]

/-- One turn of the factory loop on a factory that is accepted: the loop ends with the node
set of this factory, its three nodes being the nodes of the test scene. -/
theorem accepted_turn (env : Collaborators) (labelMap : Bool) (volumeName : String)
    (filename : Option String) (fileList : Option (List String)) (loadingOptions : Nat)
    (fit : ArchetypeVolumeNodeSetFactory) (rest : List ArchetypeVolumeNodeSetFactory)
    (position : Nat) (t : Trial) (ht : t.testScene.Nodes = [])
    (hacc : accepts env labelMap position fit) :
    ∃ t2, factoryLoop env labelMap volumeName filename fileList loadingOptions (fit :: rest)
        position t = (some (fit.nodeSetAt t.Memory.Next), t2) ∧
      t2.testScene.Nodes = [t.Memory.Next, t.Memory.Next + 1, t.Memory.Next + 2] ∧
      t2.Memory.Next = t.Memory.Next + 3 ∧
      (∀ a, a < t.Memory.Next → t2.Memory.Object a = t.Memory.Object a) ∧
      (t2.Memory.Object (fit.nodeSetAt t.Memory.Next).Node).ClassName = fit.VolumeClass ∧
      (t2.Memory.Object (fit.nodeSetAt t.Memory.Next).DisplayNode).ClassName =
        fit.DisplayClass ∧
      (t2.Memory.Object (fit.nodeSetAt t.Memory.Next).StorageNode).ClassName =
        (fit.newStorageNode loadingOptions).ClassName ∧
      t2.Trace = t.Trace ++ [Action.CallFactory position, Action.ReadData position] := by
  have hns := call_nodeSet fit volumeName t.testScene loadingOptions t.Memory
  have hsc := call_scene fit volumeName t.testScene loadingOptions t.Memory
  have hnx := call_Next fit volumeName t.testScene loadingOptions t.Memory
  have hfr := call_frame fit volumeName t.testScene loadingOptions t.Memory
  have hcl := call_classes fit volumeName t.testScene loadingOptions t.Memory
  have hge := nodeSetAt_ge fit t.Memory.Next
  obtain ⟨hlm, hread⟩ := hacc
  refine ⟨(attemptRead env filename fileList position (fit.nodeSetAt t.Memory.Next)
      { t with
        testScene := (fit.call volumeName t.testScene loadingOptions t.Memory).2.1
        Memory := (fit.call volumeName t.testScene loadingOptions t.Memory).2.2
        Trace := t.Trace ++ [Action.CallFactory position] }).2, ?_, ?_, ?_, ?_, ?_, ?_, ?_, ?_⟩
  · rw [factoryLoop]
    simp only [hns, ArchetypeVolumeNodeSetFactory.nodeSetAt, hlm, if_true, attemptRead_fst,
      hread]
  · rw [attemptRead_testScene]
    simp [hsc, ht]
  · rw [attemptRead_Next]
    exact hnx
  · intro a ha
    rw [attemptRead_Object_ne _ _ _ _ _ _ _ (by omega)]
    exact hfr a ha
  · rw [attemptRead_ClassName]
    exact hcl.1
  · rw [attemptRead_ClassName]
    exact hcl.2.1
  · rw [attemptRead_ClassName]
    exact hcl.2.2
  · rw [attemptRead_Trace]
    simp

theorem allRejected_cons (env : Collaborators) (labelMap : Bool) (position : Nat)
    (fit : ArchetypeVolumeNodeSetFactory) (rest : List ArchetypeVolumeNodeSetFactory)
    (h : allRejected env labelMap position (fit :: rest)) :
    ¬ accepts env labelMap position fit ∧ allRejected env labelMap (position + 1) rest := by
  constructor
  · exact h 0 fit (by simp)
  · intro i f hi
    have := h (i + 1) f (by simpa using hi)
    rwa [show position + 1 + i = position + (i + 1) by omega]

theorem factoryLoop_rejected (env : Collaborators) (labelMap : Bool) (volumeName : String)
    (filename : Option String) (fileList : Option (List String)) (loadingOptions : Nat)
    (fs : List ArchetypeVolumeNodeSetFactory) (position : Nat) (t : Trial)
    (ht : t.testScene.Nodes = []) (hrej : allRejected env labelMap position fs) :
    ∃ t2, factoryLoop env labelMap volumeName filename fileList loadingOptions fs position t =
        (none, t2) ∧
      t2.testScene.Nodes = [] ∧
      t2.Memory.Next = t.Memory.Next + 3 * fs.length ∧
      (∀ a, a < t.Memory.Next → t2.Memory.Object a = t.Memory.Object a) ∧
      t2.Trace = t.Trace ++ trialActions labelMap position fs := by
  induction fs generalizing position t with
  | nil => exact ⟨t, by rw [factoryLoop], ht, by simp, fun _ _ => rfl, by simp [trialActions]⟩
  | cons fit rest ih =>
    obtain ⟨hfit, hrest⟩ := allRejected_cons env labelMap position fit rest hrej
    obtain ⟨t1, hloop, hnodes, hnext, hframe, htrace⟩ :=
      rejected_turn env labelMap volumeName filename fileList loadingOptions fit rest
        position t ht hfit
    obtain ⟨t2, hloop2, hnodes2, hnext2, hframe2, htrace2⟩ := ih (position + 1) t1 hnodes hrest
    refine ⟨t2, by rw [hloop, hloop2], hnodes2, ?_, ?_, ?_⟩
    · rw [hnext2, hnext]
      simp only [List.length_cons]
      omega
    · intro a ha
      rw [hframe2 a (by omega), hframe a ha]
    · rw [htrace2, htrace]
      simp [trialActions]

theorem factoryLoop_accepted (env : Collaborators) (labelMap : Bool) (volumeName : String)
    (filename : Option String) (fileList : Option (List String)) (loadingOptions : Nat)
    (pre : List ArchetypeVolumeNodeSetFactory) (f : ArchetypeVolumeNodeSetFactory)
    (post : List ArchetypeVolumeNodeSetFactory) (position : Nat) (t : Trial)
    (ht : t.testScene.Nodes = []) (hrej : allRejected env labelMap position pre)
    (hacc : accepts env labelMap (position + pre.length) f) :
    ∃ t2, factoryLoop env labelMap volumeName filename fileList loadingOptions
        (pre ++ f :: post) position t =
        (some (f.nodeSetAt (t.Memory.Next + 3 * pre.length)), t2) ∧
      t2.testScene.Nodes = [t.Memory.Next + 3 * pre.length, t.Memory.Next + 3 * pre.length + 1,
        t.Memory.Next + 3 * pre.length + 2] ∧
      t2.Memory.Next = t.Memory.Next + 3 * pre.length + 3 ∧
      (∀ a, a < t.Memory.Next → t2.Memory.Object a = t.Memory.Object a) ∧
      (t2.Memory.Object (f.nodeSetAt (t.Memory.Next + 3 * pre.length)).Node).ClassName =
        f.VolumeClass ∧
      (t2.Memory.Object (f.nodeSetAt (t.Memory.Next + 3 * pre.length)).DisplayNode).ClassName =
        f.DisplayClass ∧
      (t2.Memory.Object (f.nodeSetAt (t.Memory.Next + 3 * pre.length)).StorageNode).ClassName =
        (f.newStorageNode loadingOptions).ClassName ∧
      t2.Trace = t.Trace ++ trialActions labelMap position (pre ++ [f]) := by
  induction pre generalizing position t with
  | nil =>
    obtain ⟨t2, h1, h2, h3, h4, h5, h6, h7, h8⟩ :=
      accepted_turn env labelMap volumeName filename fileList loadingOptions f post
        position t ht (by simpa using hacc)
    refine ⟨t2, by simpa using h1, by simpa using h2, by simpa using h3, h4,
      by simpa using h5, by simpa using h6, by simpa using h7, ?_⟩
    rw [h8]
    simp [trialActions, hacc.1]
  | cons fit rest ih =>
    obtain ⟨hfit, hrest⟩ := allRejected_cons env labelMap position fit rest hrej
    obtain ⟨t1, hloop, hnodes, hnext, hframe, htrace⟩ :=
      rejected_turn env labelMap volumeName filename fileList loadingOptions fit
        (rest ++ f :: post) position t ht hfit
    have hacc1 : accepts env labelMap (position + 1 + rest.length) f := by
      have : position + 1 + rest.length = position + (fit :: rest).length := by
        simp only [List.length_cons]; omega
      rw [this]; exact hacc
    obtain ⟨t2, h1, h2, h3, h4, h5, h6, h7, h8⟩ := ih (position + 1) t1 hnodes hrest hacc1
    have hbase : t1.Memory.Next + 3 * rest.length = t.Memory.Next + 3 * (fit :: rest).length := by
      rw [hnext]; simp only [List.length_cons]; omega
    rw [hbase] at h1 h2 h3 h5 h6 h7
    refine ⟨t2, ?_, h2, h3, ?_, h5, h6, h7, ?_⟩
    · rw [List.cons_append, hloop, h1]
    · intro a ha
      rw [h4 a (by omega), hframe a ha]
    · rw [h8, htrace]
      simp [trialActions]

theorem baseName_isSome (env : Collaborators) (filename volname : Option String)
    (hname : volname ≠ none ∨ filename ≠ none) :
    ∃ name, (match volname with
      | some name => some name
      | none => filename.map env.GetFilenameName) = some name := by
  cases volname with
  | some v => exact ⟨v, rfl⟩
  | none =>
    cases filename with
    | some f => exact ⟨env.GetFilenameName f, rfl⟩
    | none => simp at hname

theorem AddArchetypeVolumeWith_rejected (env : Collaborators)
    (volumeRegistry : List ArchetypeVolumeNodeSetFactory) (filename volname : Option String)
    (loadingOptions : Nat) (fileList : Option (List String)) (l : vtkSlicerVolumesLogic)
    (scene : vtkMRMLScene) (hscene : l.MRMLScene = some scene)
    (hname : volname ≠ none ∨ filename ≠ none)
    (hrej : allRejected env (labelMapBit loadingOptions) 0 volumeRegistry) :
    ∃ l1 testScene errors,
      AddArchetypeVolumeWith env volumeRegistry filename volname loadingOptions fileList l =
        CallResult.returned none l1 (some testScene) ∧
      l1.MRMLScene = some { scene with UndoCheckpoints := scene.UndoCheckpoints + 1 } ∧
      l1.ActiveVolumeNode = l.ActiveVolumeNode ∧
      l1.VolumeRegistry = l.VolumeRegistry ∧
      l1.ColorLogic = l.ColorLogic ∧
      l1.Memory.Next = l.Memory.Next + 3 * volumeRegistry.length ∧
      (∀ a, a < l.Memory.Next → l1.Memory.Object a = l.Memory.Object a) ∧
      testScene.Nodes = [] ∧
      l1.Trace = l.Trace ++ [Action.StartState, Action.SaveStateForUndo, Action.NewTestScene] ++
        trialActions (labelMapBit loadingOptions) 0 volumeRegistry ++
        [Action.DisplayErrors errors, Action.EndState] := by
  obtain ⟨name, hbase⟩ := baseName_isSome env filename volname hname
  obtain ⟨t2, hloop, hnodes, hnext, hframe, htrace⟩ :=
    factoryLoop_rejected env (labelMapBit loadingOptions)
      (env.GetUniqueNameByString
        { scene with
          BatchProcessDepth := scene.BatchProcessDepth + 1
          UndoCheckpoints := scene.UndoCheckpoints + 1 } name)
      filename fileList loadingOptions volumeRegistry 0
      { testScene :=
          { RemoteCacheDirectory := some (scene.RemoteCacheDirectory.getD ""),
            DataIOManager := true }
        ErrorList := []
        Memory := l.Memory
        Trace := l.Trace ++ [Action.StartState, Action.SaveStateForUndo] ++
          [Action.NewTestScene] } rfl hrej
  refine ⟨{ l with
      MRMLScene := some { scene with UndoCheckpoints := scene.UndoCheckpoints + 1 }
      Memory := t2.Memory
      Trace := t2.Trace ++ [Action.DisplayErrors t2.ErrorList] ++ [Action.EndState] },
    { t2.testScene with RemoteCacheDirectory := none, DataIOManager := false },
    t2.ErrorList, ?_, rfl, rfl, rfl, rfl, hnext, hframe, hnodes, ?_⟩
  · unfold AddArchetypeVolumeWith
    simp only [hscene, hbase]
    simp only [hloop, Nat.add_sub_cancel]
  · simp [htrace]

theorem SetAndObserveColorToDisplayNode_keeps (env : Collaborators)
    (colorLogic : Option vtkMRMLColorLogic) (n : vtkMRMLNode) (labelMap : Bool)
    (filename : Option String) :
    (SetAndObserveColorToDisplayNode env colorLogic n labelMap filename).ClassName =
        n.ClassName ∧
    (SetAndObserveColorToDisplayNode env colorLogic n labelMap filename).ID = n.ID := by
  unfold SetAndObserveColorToDisplayNode
  split
  · exact ⟨rfl, rfl⟩
  · split
    · split <;> exact ⟨rfl, rfl⟩
    · exact ⟨rfl, rfl⟩

theorem commit_scene (env : Collaborators) (labelMap : Bool) (filename : Option String)
    (nodeSet : ArchetypeVolumeNodeSet) (scene testScene : vtkMRMLScene)
    (l : vtkSlicerVolumesLogic) :
    (commit env labelMap filename nodeSet scene testScene l).1 =
      { scene with
        Nodes := scene.Nodes ++ [nodeSet.DisplayNode, nodeSet.StorageNode, nodeSet.Node]
        UniqueIDCounter := scene.UniqueIDCounter + 3 } := by
  simp [commit, vtkMRMLScene.AddNode]

theorem commit_testScene (env : Collaborators) (labelMap : Bool) (filename : Option String)
    (f : ArchetypeVolumeNodeSetFactory) (n : Nat) (scene testScene : vtkMRMLScene)
    (l : vtkSlicerVolumesLogic) (h : testScene.Nodes = [n, n + 1, n + 2]) :
    (commit env labelMap filename (f.nodeSetAt n) scene testScene l).2.1.Nodes = [] := by
  cases hv : f.VolumeFirst <;>
    simp [commit, vtkMRMLScene.RemoveNode, ArchetypeVolumeNodeSetFactory.nodeSetAt, hv, h,
      List.filter]

theorem commit_logic (env : Collaborators) (labelMap : Bool) (filename : Option String)
    (nodeSet : ArchetypeVolumeNodeSet) (scene testScene : vtkMRMLScene)
    (l : vtkSlicerVolumesLogic) :
    (commit env labelMap filename nodeSet scene testScene l).2.2.MRMLScene = l.MRMLScene ∧
    (commit env labelMap filename nodeSet scene testScene l).2.2.ActiveVolumeNode =
      some nodeSet.Node ∧
    (commit env labelMap filename nodeSet scene testScene l).2.2.VolumeRegistry =
      l.VolumeRegistry ∧
    (commit env labelMap filename nodeSet scene testScene l).2.2.ColorLogic = l.ColorLogic ∧
    (commit env labelMap filename nodeSet scene testScene l).2.2.Memory.Next = l.Memory.Next ∧
    (commit env labelMap filename nodeSet scene testScene l).2.2.Trace =
      l.Trace ++ [Action.AddNode nodeSet.DisplayNode, Action.AddNode nodeSet.StorageNode,
        Action.AddNode nodeSet.Node] :=
  ⟨rfl, rfl, rfl, rfl, rfl, rfl⟩

theorem commit_frame (env : Collaborators) (labelMap : Bool) (filename : Option String)
    (nodeSet : ArchetypeVolumeNodeSet) (scene testScene : vtkMRMLScene)
    (l : vtkSlicerVolumesLogic) (a : Nat) (hd : a ≠ nodeSet.DisplayNode)
    (hs : a ≠ nodeSet.StorageNode) (hv : a ≠ nodeSet.Node) :
    (commit env labelMap filename nodeSet scene testScene l).2.2.Memory.Object a =
      l.Memory.Object a := by
  simp [commit, vtkMRMLScene.AddNode, Memory.modify, Function.update_noteq, hd, hs, hv]

theorem Memory.modify_ClassName (m : Memory) (a b : Nat) (f : vtkMRMLNode → vtkMRMLNode)
    (hf : ∀ n, (f n).ClassName = n.ClassName) :
    ((m.modify a f).Object b).ClassName = (m.Object b).ClassName := by
  by_cases h : b = a
  · subst h
    rw [Memory.modify_Object_same, hf]
  · rw [Memory.modify_Object_ne _ _ _ _ h]

theorem commit_ClassName (env : Collaborators) (labelMap : Bool) (filename : Option String)
    (nodeSet : ArchetypeVolumeNodeSet) (scene testScene : vtkMRMLScene)
    (l : vtkSlicerVolumesLogic) (a : Nat) :
    ((commit env labelMap filename nodeSet scene testScene l).2.2.Memory.Object a).ClassName =
      (l.Memory.Object a).ClassName := by
  simp only [commit, vtkMRMLScene.AddNode]
  refine (Memory.modify_ClassName _ _ _ _ ?_).trans ?_
  · intro n
    exact (SetAndObserveColorToDisplayNode_keeps env _ n _ _).1
  refine (Memory.modify_ClassName _ _ _ _ ?_).trans ?_
  · intro n
    rfl
  refine (Memory.modify_ClassName _ _ _ _ ?_).trans ?_
  · intro n
    rfl
  refine (Memory.modify_ClassName _ _ _ _ ?_).trans ?_
  · intro n
    rfl
  refine (Memory.modify_ClassName _ _ _ _ ?_).trans ?_
  · intro n
    rfl
  refine Memory.modify_ClassName _ _ _ _ ?_
  intro n
  rfl

theorem commit_links (env : Collaborators) (labelMap : Bool) (filename : Option String)
    (nodeSet : ArchetypeVolumeNodeSet) (scene testScene : vtkMRMLScene)
    (l : vtkSlicerVolumesLogic) (hvd : nodeSet.Node ≠ nodeSet.DisplayNode)
    (hvs : nodeSet.Node ≠ nodeSet.StorageNode)
    (hds : nodeSet.DisplayNode ≠ nodeSet.StorageNode) :
    ((commit env labelMap filename nodeSet scene testScene l).2.2.Memory.Object
        nodeSet.DisplayNode).ID =
      some ((l.Memory.Object nodeSet.DisplayNode).ClassName ++
        toString (scene.UniqueIDCounter + 1)) ∧
    ((commit env labelMap filename nodeSet scene testScene l).2.2.Memory.Object
        nodeSet.StorageNode).ID =
      some ((l.Memory.Object nodeSet.StorageNode).ClassName ++
        toString (scene.UniqueIDCounter + 2)) ∧
    ((commit env labelMap filename nodeSet scene testScene l).2.2.Memory.Object
        nodeSet.Node).ID =
      some ((l.Memory.Object nodeSet.Node).ClassName ++
        toString (scene.UniqueIDCounter + 3)) ∧
    ((commit env labelMap filename nodeSet scene testScene l).2.2.Memory.Object
        nodeSet.Node).DisplayNodeID =
      ((commit env labelMap filename nodeSet scene testScene l).2.2.Memory.Object
        nodeSet.DisplayNode).ID ∧
    ((commit env labelMap filename nodeSet scene testScene l).2.2.Memory.Object
        nodeSet.Node).StorageNodeID =
      ((commit env labelMap filename nodeSet scene testScene l).2.2.Memory.Object
        nodeSet.StorageNode).ID := by
  have hdv := hvd.symm
  have hsv := hvs.symm
  have hsd := hds.symm
  simp only [commit, vtkMRMLScene.AddNode, Memory.modify_Object_same,
    Memory.modify_Object_ne _ _ _ _ hvd, Memory.modify_Object_ne _ _ _ _ hvs,
    Memory.modify_Object_ne _ _ _ _ hds, Memory.modify_Object_ne _ _ _ _ hdv,
    Memory.modify_Object_ne _ _ _ _ hsv, Memory.modify_Object_ne _ _ _ _ hsd,
    (SetAndObserveColorToDisplayNode_keeps env _ _ _ _).2, and_self, and_true, true_and]

theorem AddArchetypeVolumeWith_accepted (env : Collaborators)
    (pre : List ArchetypeVolumeNodeSetFactory) (f : ArchetypeVolumeNodeSetFactory)
    (post : List ArchetypeVolumeNodeSetFactory) (filename volname : Option String)
    (loadingOptions : Nat) (fileList : Option (List String)) (l : vtkSlicerVolumesLogic)
    (scene : vtkMRMLScene) (hscene : l.MRMLScene = some scene)
    (hname : volname ≠ none ∨ filename ≠ none)
    (hrej : allRejected env (labelMapBit loadingOptions) 0 pre)
    (hacc : accepts env (labelMapBit loadingOptions) pre.length f) :
    ∃ l1 testScene,
      AddArchetypeVolumeWith env (pre ++ f :: post) filename volname loadingOptions
          fileList l =
        CallResult.returned (some (f.nodeSetAt (l.Memory.Next + 3 * pre.length)).Node) l1
          (some testScene) ∧
      l1.MRMLScene = some
        { scene with
          Nodes := scene.Nodes ++
            [(f.nodeSetAt (l.Memory.Next + 3 * pre.length)).DisplayNode,
             (f.nodeSetAt (l.Memory.Next + 3 * pre.length)).StorageNode,
             (f.nodeSetAt (l.Memory.Next + 3 * pre.length)).Node]
          UniqueIDCounter := scene.UniqueIDCounter + 3
          UndoCheckpoints := scene.UndoCheckpoints + 1 } ∧
      l1.ActiveVolumeNode = some (f.nodeSetAt (l.Memory.Next + 3 * pre.length)).Node ∧
      l1.VolumeRegistry = l.VolumeRegistry ∧
      l1.ColorLogic = l.ColorLogic ∧
      l1.Memory.Next = l.Memory.Next + 3 * pre.length + 3 ∧
      (∀ a, a < l.Memory.Next → l1.Memory.Object a = l.Memory.Object a) ∧
      (l1.Memory.Object (f.nodeSetAt (l.Memory.Next + 3 * pre.length)).Node).ClassName =
        f.VolumeClass ∧
      (l1.Memory.Object (f.nodeSetAt (l.Memory.Next + 3 * pre.length)).DisplayNode).ClassName =
        f.DisplayClass ∧
      (l1.Memory.Object (f.nodeSetAt (l.Memory.Next + 3 * pre.length)).StorageNode).ClassName =
        (f.newStorageNode loadingOptions).ClassName ∧
      (l1.Memory.Object (f.nodeSetAt (l.Memory.Next + 3 * pre.length)).DisplayNode).ID =
        some (f.DisplayClass ++ toString (scene.UniqueIDCounter + 1)) ∧
      (l1.Memory.Object (f.nodeSetAt (l.Memory.Next + 3 * pre.length)).StorageNode).ID =
        some ((f.newStorageNode loadingOptions).ClassName ++
          toString (scene.UniqueIDCounter + 2)) ∧
      (l1.Memory.Object (f.nodeSetAt (l.Memory.Next + 3 * pre.length)).Node).ID =
        some (f.VolumeClass ++ toString (scene.UniqueIDCounter + 3)) ∧
      (l1.Memory.Object (f.nodeSetAt (l.Memory.Next + 3 * pre.length)).Node).DisplayNodeID =
        (l1.Memory.Object (f.nodeSetAt (l.Memory.Next + 3 * pre.length)).DisplayNode).ID ∧
      (l1.Memory.Object (f.nodeSetAt (l.Memory.Next + 3 * pre.length)).Node).StorageNodeID =
        (l1.Memory.Object (f.nodeSetAt (l.Memory.Next + 3 * pre.length)).StorageNode).ID ∧
      testScene.Nodes = [] ∧
      l1.Trace = l.Trace ++ [Action.StartState, Action.SaveStateForUndo, Action.NewTestScene] ++
        trialActions (labelMapBit loadingOptions) 0 (pre ++ [f]) ++
        [Action.AddNode (f.nodeSetAt (l.Memory.Next + 3 * pre.length)).DisplayNode,
         Action.AddNode (f.nodeSetAt (l.Memory.Next + 3 * pre.length)).StorageNode,
         Action.AddNode (f.nodeSetAt (l.Memory.Next + 3 * pre.length)).Node,
         Action.EndState,
         Action.NodeAddedEvent (f.nodeSetAt (l.Memory.Next + 3 * pre.length)).Node,
         Action.Modified] := by
  obtain ⟨name, hbase⟩ := baseName_isSome env filename volname hname
  obtain ⟨t2, hloop, hnodes, hnext, hframe, hcv, hcd, hcs, htrace⟩ :=
    factoryLoop_accepted env (labelMapBit loadingOptions)
      (env.GetUniqueNameByString
        { scene with
          BatchProcessDepth := scene.BatchProcessDepth + 1
          UndoCheckpoints := scene.UndoCheckpoints + 1 } name)
      filename fileList loadingOptions pre f post 0
      { testScene :=
          { RemoteCacheDirectory := some (scene.RemoteCacheDirectory.getD ""),
            DataIOManager := true }
        ErrorList := []
        Memory := l.Memory
        Trace := l.Trace ++ [Action.StartState, Action.SaveStateForUndo] ++
          [Action.NewTestScene] } rfl hrej (by simpa using hacc)
  simp only at hloop hnodes hnext hframe hcv hcd hcs htrace
  generalize hns : f.nodeSetAt (l.Memory.Next + 3 * pre.length) = ns at *
  have hdist := nodeSetAt_distinct f (l.Memory.Next + 3 * pre.length)
  have hge := nodeSetAt_ge f (l.Memory.Next + 3 * pre.length)
  rw [hns] at hdist hge
  generalize hc : commit env (labelMapBit loadingOptions) filename ns
    { scene with
      BatchProcessDepth := scene.BatchProcessDepth + 1
      UndoCheckpoints := scene.UndoCheckpoints + 1 } t2.testScene
    { l with
      MRMLScene := some
        { scene with
          BatchProcessDepth := scene.BatchProcessDepth + 1
          UndoCheckpoints := scene.UndoCheckpoints + 1 }
      Memory := t2.Memory
      Trace := t2.Trace } = c
  have hcscene := commit_scene env (labelMapBit loadingOptions) filename ns
    { scene with
      BatchProcessDepth := scene.BatchProcessDepth + 1
      UndoCheckpoints := scene.UndoCheckpoints + 1 } t2.testScene
    { l with
      MRMLScene := some
        { scene with
          BatchProcessDepth := scene.BatchProcessDepth + 1
          UndoCheckpoints := scene.UndoCheckpoints + 1 }
      Memory := t2.Memory
      Trace := t2.Trace }
  have hctest := commit_testScene env (labelMapBit loadingOptions) filename f
    (l.Memory.Next + 3 * pre.length)
    { scene with
      BatchProcessDepth := scene.BatchProcessDepth + 1
      UndoCheckpoints := scene.UndoCheckpoints + 1 } t2.testScene
    { l with
      MRMLScene := some
        { scene with
          BatchProcessDepth := scene.BatchProcessDepth + 1
          UndoCheckpoints := scene.UndoCheckpoints + 1 }
      Memory := t2.Memory
      Trace := t2.Trace } hnodes
  have hclogic := commit_logic env (labelMapBit loadingOptions) filename ns
    { scene with
      BatchProcessDepth := scene.BatchProcessDepth + 1
      UndoCheckpoints := scene.UndoCheckpoints + 1 } t2.testScene
    { l with
      MRMLScene := some
        { scene with
          BatchProcessDepth := scene.BatchProcessDepth + 1
          UndoCheckpoints := scene.UndoCheckpoints + 1 }
      Memory := t2.Memory
      Trace := t2.Trace }
  have hcframe := commit_frame env (labelMapBit loadingOptions) filename ns
    { scene with
      BatchProcessDepth := scene.BatchProcessDepth + 1
      UndoCheckpoints := scene.UndoCheckpoints + 1 } t2.testScene
    { l with
      MRMLScene := some
        { scene with
          BatchProcessDepth := scene.BatchProcessDepth + 1
          UndoCheckpoints := scene.UndoCheckpoints + 1 }
      Memory := t2.Memory
      Trace := t2.Trace }
  have hcclass := commit_ClassName env (labelMapBit loadingOptions) filename ns
    { scene with
      BatchProcessDepth := scene.BatchProcessDepth + 1
      UndoCheckpoints := scene.UndoCheckpoints + 1 } t2.testScene
    { l with
      MRMLScene := some
        { scene with
          BatchProcessDepth := scene.BatchProcessDepth + 1
          UndoCheckpoints := scene.UndoCheckpoints + 1 }
      Memory := t2.Memory
      Trace := t2.Trace }
  have hclinks := commit_links env (labelMapBit loadingOptions) filename ns
    { scene with
      BatchProcessDepth := scene.BatchProcessDepth + 1
      UndoCheckpoints := scene.UndoCheckpoints + 1 } t2.testScene
    { l with
      MRMLScene := some
        { scene with
          BatchProcessDepth := scene.BatchProcessDepth + 1
          UndoCheckpoints := scene.UndoCheckpoints + 1 }
      Memory := t2.Memory
      Trace := t2.Trace } hdist.1 hdist.2.1 hdist.2.2
  rw [hns] at hctest
  rw [hc] at hcscene hctest hclogic hcframe hcclass hclinks
  simp only at hclogic hclinks hcclass hcframe
  obtain ⟨_, hcactive, hcreg, hccolor, hcnext, hctrace⟩ := hclogic
  obtain ⟨hid, his, hiv, hld, hls⟩ := hclinks
  refine ⟨{ c.2.2 with
      MRMLScene := some { c.1 with BatchProcessDepth := c.1.BatchProcessDepth - 1 }
      Trace := c.2.2.Trace ++ [Action.EndState] ++
        [Action.NodeAddedEvent ns.Node, Action.Modified] },
    { c.2.1 with RemoteCacheDirectory := none, DataIOManager := false },
    ?_, ?_, hcactive, hcreg, hccolor, ?_, ?_, ?_, ?_, ?_, ?_, ?_, ?_, hld, hls, hctest, ?_⟩
  · unfold AddArchetypeVolumeWith
    simp only [hscene, hbase]
    simp only [hloop, hc]
  · simp [hcscene]
  · simp only [hcnext, hnext]
  · intro a ha
    simp only
    rw [hcframe a (by omega) (by omega) (by omega)]
    exact hframe a ha
  · simp only [hcclass, hcv]
  · simp only [hcclass, hcd]
  · simp only [hcclass, hcs]
  · simp only [hid, hcd]
  · simp only [his, hcs]
  · simp only [hiv, hcv]
  · simp [hctrace, htrace]

theorem CallFactory_mem_trialActions (labelMap : Bool)
    (fs : List ArchetypeVolumeNodeSetFactory) (position i : Nat) :
    Action.CallFactory i ∈ trialActions labelMap position fs ↔
      position ≤ i ∧ i < position + fs.length := by
  induction fs generalizing position with
  | nil => simp [trialActions]
  | cons f rest ih =>
    simp only [trialActions, List.mem_append, List.mem_cons, Action.CallFactory.injEq, ih,
      List.length_cons]
    by_cases hlm : labelMap = f.LabelMap <;> simp [hlm] <;> omega

theorem ReadData_mem_trialActions (labelMap : Bool)
    (fs : List ArchetypeVolumeNodeSetFactory) (position i : Nat) :
    Action.ReadData i ∈ trialActions labelMap position fs ↔
      ∃ g, position ≤ i ∧ fs[i - position]? = some g ∧ labelMap = g.LabelMap := by
  induction fs generalizing position with
  | nil => simp [trialActions]
  | cons f rest ih =>
    simp only [trialActions, List.mem_append, List.mem_cons, ih]
    constructor
    · rintro (h | ⟨g, hp, hg, hlm⟩)
      · by_cases hlm : labelMap = f.LabelMap
        · simp only [hlm, if_true, List.mem_singleton, Action.ReadData.injEq, reduceCtorEq,
            false_or] at h
          subst h
          exact ⟨f, le_refl _, by simp, hlm⟩
        · simp [hlm] at h
      · refine ⟨g, by omega, ?_, hlm⟩
        have : i - position = (i - (position + 1)) + 1 := by omega
        rw [this]
        simpa using hg
    · rintro ⟨g, hp, hg, hlm⟩
      by_cases hi : i = position
      · subst hi
        simp only [Nat.sub_self, List.getElem?_cons_zero, Option.some.injEq] at hg
        subst hg
        left
        simp [hlm]
      · right
        refine ⟨g, by omega, ?_, hlm⟩
        have : i - position = (i - (position + 1)) + 1 := by omega
        rw [this] at hg
        simpa using hg

theorem allRejected_nil (env : Collaborators) (labelMap : Bool) (position : Nat) :
    allRejected env labelMap position [] := by
  intro i f h
  simp at h

theorem allRejected_cons_of (env : Collaborators) (labelMap : Bool) (position : Nat)
    (fit : ArchetypeVolumeNodeSetFactory) (rest : List ArchetypeVolumeNodeSetFactory)
    (h1 : ¬ accepts env labelMap position fit)
    (h2 : allRejected env labelMap (position + 1) rest) :
    allRejected env labelMap position (fit :: rest) := by
  intro i f hi
  cases i with
  | zero =>
    simp only [List.getElem?_cons_zero, Option.some.injEq] at hi
    subst hi
    simpa using h1
  | succ j =>
    have := h2 j f (by simpa using hi)
    rwa [show position + 1 + j = position + (j + 1) by omega] at this

theorem first_accepted_or_allRejected (env : Collaborators) (labelMap : Bool)
    (fs : List ArchetypeVolumeNodeSetFactory) (position : Nat) :
    allRejected env labelMap position fs ∨
      ∃ pre f post, fs = pre ++ f :: post ∧ allRejected env labelMap position pre ∧
        accepts env labelMap (position + pre.length) f := by
  induction fs generalizing position with
  | nil => exact Or.inl (allRejected_nil env labelMap position)
  | cons g rest ih =>
    by_cases hg : accepts env labelMap position g
    · exact Or.inr ⟨[], g, rest, rfl, allRejected_nil env labelMap position, by simpa using hg⟩
    · rcases ih (position + 1) with h | ⟨pre, f, post, heq, hpre, hf⟩
      · exact Or.inl (allRejected_cons_of env labelMap position g rest hg h)
      · refine Or.inr ⟨g :: pre, f, post, by rw [heq]; rfl,
          allRejected_cons_of env labelMap position g pre hg hpre, ?_⟩
        rwa [show position + (g :: pre).length = position + 1 + pre.length by
          simp only [List.length_cons]; omega]

theorem allRejected_of_reads_fail (env : Collaborators) (labelMap : Bool) (position : Nat)
    (fs : List ArchetypeVolumeNodeSetFactory) (h : ∀ i, (env.ReadData i).1 = false) :
    allRejected env labelMap position fs := by
  intro i f _ hacc
  have := hacc.2
  rw [h] at this
  exact Bool.noConfusion this

theorem allRejected_of_flags_differ (env : Collaborators) (labelMap : Bool) (position : Nat)
    (fs : List ArchetypeVolumeNodeSetFactory) (h : ∀ f ∈ fs, labelMap ≠ f.LabelMap) :
    allRejected env labelMap position fs := by
  intro i f hi hacc
  exact h f (List.getElem?_mem hi) hacc.1

theorem mem_trialActions (labelMap : Bool) (fs : List ArchetypeVolumeNodeSetFactory)
    (position : Nat) (a : Action) (h : a ∈ trialActions labelMap position fs) :
    ∃ i, a = Action.CallFactory i ∨ a = Action.ReadData i := by
  induction fs generalizing position with
  | nil => simp [trialActions] at h
  | cons f rest ih =>
    simp only [trialActions, List.mem_append, List.mem_cons] at h
    rcases h with (h | h) | h
    · exact ⟨position, Or.inl h⟩
    · by_cases hlm : labelMap = f.LabelMap
      · simp only [hlm, if_true, List.mem_singleton] at h
        exact ⟨position, Or.inr h⟩
      · simp [hlm] at h
    · exact ih (position + 1) h

/-! ## Volumes logic: the claims -/

/-- C5: ordered trial dispatch of `AddArchetypeVolume`. Whatever the registry and the
outcomes of the reads, either no factory is accepted or the registry splits at its first
accepted factory (label-map flag equal to bit 0 of `loadingOptions`, read succeeds). In the
second case the call returns the volume node of the node set that this factory built, the
main scene gains the three nodes of that node set, of the classes of that factory; the
factories called are those up to the accepted one and no later one, and a read is
attempted exactly on those of them whose label-map flag fits. -/
theorem AddArchetypeVolume_first_accepted_wins (env : Collaborators)
    (volumeRegistry : List ArchetypeVolumeNodeSetFactory) (filename volname : Option String)
    (loadingOptions : Nat) (fileList : Option (List String)) (l : vtkSlicerVolumesLogic)
    (scene : vtkMRMLScene) (hscene : l.MRMLScene = some scene)
    (hname : volname ≠ none ∨ filename ≠ none) :
    (allRejected env (labelMapBit loadingOptions) 0 volumeRegistry ∨
      ∃ pre f post, volumeRegistry = pre ++ f :: post ∧
        allRejected env (labelMapBit loadingOptions) 0 pre ∧
        accepts env (labelMapBit loadingOptions) pre.length f) ∧
    ∀ pre f post, volumeRegistry = pre ++ f :: post →
      allRejected env (labelMapBit loadingOptions) 0 pre →
      accepts env (labelMapBit loadingOptions) pre.length f →
      ∃ l1 scene1 testScene new,
        AddArchetypeVolumeWith env volumeRegistry filename volname loadingOptions fileList l =
          CallResult.returned (some (f.nodeSetAt (l.Memory.Next + 3 * pre.length)).Node) l1
            (some testScene) ∧
        (∀ (volumeName : String) (testScene0 : vtkMRMLScene) (m : Memory),
          m.Next = l.Memory.Next + 3 * pre.length →
          (f.call volumeName testScene0 loadingOptions m).1 =
            f.nodeSetAt (l.Memory.Next + 3 * pre.length)) ∧
        l1.MRMLScene = some scene1 ∧
        scene1.Nodes = scene.Nodes ++
          [(f.nodeSetAt (l.Memory.Next + 3 * pre.length)).DisplayNode,
           (f.nodeSetAt (l.Memory.Next + 3 * pre.length)).StorageNode,
           (f.nodeSetAt (l.Memory.Next + 3 * pre.length)).Node] ∧
        (l1.Memory.Object (f.nodeSetAt (l.Memory.Next + 3 * pre.length)).Node).ClassName =
          f.VolumeClass ∧
        (l1.Memory.Object (f.nodeSetAt (l.Memory.Next + 3 * pre.length)).DisplayNode).ClassName =
          f.DisplayClass ∧
        (l1.Memory.Object (f.nodeSetAt (l.Memory.Next + 3 * pre.length)).StorageNode).ClassName =
          (f.newStorageNode loadingOptions).ClassName ∧
        l1.ActiveVolumeNode = some (f.nodeSetAt (l.Memory.Next + 3 * pre.length)).Node ∧
        l1.Trace = l.Trace ++ new ∧
        (∀ i, Action.CallFactory i ∈ new ↔ i ≤ pre.length) ∧
        (∀ i, Action.ReadData i ∈ new ↔
          ∃ g, (pre ++ [f])[i]? = some g ∧ labelMapBit loadingOptions = g.LabelMap) := by
  refine ⟨first_accepted_or_allRejected env _ volumeRegistry 0 |>.imp id
    (fun ⟨pre, f, post, h1, h2, h3⟩ => ⟨pre, f, post, h1, h2, by simpa using h3⟩), ?_⟩
  intro pre f post heq hrej hacc
  subst heq
  obtain ⟨l1, testScene, hres, hsc, hactive, _, _, _, _, hcv, hcd, hcs, _, _, _, _, _, _,
    htrace⟩ := AddArchetypeVolumeWith_accepted env pre f post filename volname loadingOptions
      fileList l scene hscene hname hrej hacc
  refine ⟨l1, _, testScene,
    [Action.StartState, Action.SaveStateForUndo, Action.NewTestScene] ++
      trialActions (labelMapBit loadingOptions) 0 (pre ++ [f]) ++
      [Action.AddNode (f.nodeSetAt (l.Memory.Next + 3 * pre.length)).DisplayNode,
       Action.AddNode (f.nodeSetAt (l.Memory.Next + 3 * pre.length)).StorageNode,
       Action.AddNode (f.nodeSetAt (l.Memory.Next + 3 * pre.length)).Node,
       Action.EndState,
       Action.NodeAddedEvent (f.nodeSetAt (l.Memory.Next + 3 * pre.length)).Node,
       Action.Modified],
    hres, ?_, hsc, rfl, hcv, hcd, hcs, hactive, ?_, ?_, ?_⟩
  · intro volumeName testScene0 m hm
    rw [call_nodeSet, hm]
  · rw [htrace]
    simp only [List.append_assoc]
  · intro i
    simp only [List.mem_append, List.mem_cons, CallFactory_mem_trialActions, reduceCtorEq,
      List.mem_singleton, List.length_append, List.length_cons, List.length_nil,
      List.not_mem_nil, or_false, false_or]
    omega
  · intro i
    simp only [List.mem_append, List.mem_cons, ReadData_mem_trialActions, reduceCtorEq,
      List.not_mem_nil, or_false, false_or, Nat.zero_le, true_and, Nat.sub_zero]

theorem AddArchetypeVolume_first_accepted_wins_witness :
    exampleVolumesLogic.MRMLScene = some {} ∧
    ((none : Option String) ≠ none ∨ some "brain.nrrd" ≠ none) ∧
    ∃ l1 testScene,
      AddArchetypeVolumeWith exampleCollaborators
          [LabelMapVolumeNodeSetFactory, ScalarVolumeNodeSetFactory]
          (some "brain.nrrd") none 0 none exampleVolumesLogic =
        CallResult.returned (some 3) l1 (some testScene) ∧
      (l1.Memory.Object 3).ClassName = "vtkMRMLScalarVolumeNode" :=
  ⟨rfl, Or.inr (by simp),
    match (AddArchetypeVolume_first_accepted_wins exampleCollaborators
        [LabelMapVolumeNodeSetFactory, ScalarVolumeNodeSetFactory]
        (some "brain.nrrd") none 0 none exampleVolumesLogic {} rfl (Or.inr (by simp))).2
      [LabelMapVolumeNodeSetFactory] ScalarVolumeNodeSetFactory [] rfl
      (allRejected_of_flags_differ _ _ _ _ (by decide))
      ⟨rfl, rfl⟩ with
    | ⟨l1, _, testScene, _, h, _, _, _, hclass, _⟩ => ⟨l1, testScene, h, hclass⟩⟩

/-- C6: a failed ingestion is atomic. When no factory of the registry is accepted (the
empty registry included) and a name for the volume can be computed, `AddArchetypeVolume`
returns null; the main scene has the nodes it had, in the same order, and is out of the
batch state again; no node object that existed before the call is written to; the active
volume node is the same; and the test scene holds no node when the loop ends. -/
theorem AddArchetypeVolume_failure_is_atomic (env : Collaborators)
    (volumeRegistry : List ArchetypeVolumeNodeSetFactory) (filename volname : Option String)
    (loadingOptions : Nat) (fileList : Option (List String)) (l : vtkSlicerVolumesLogic)
    (scene : vtkMRMLScene) (hscene : l.MRMLScene = some scene)
    (hname : volname ≠ none ∨ filename ≠ none)
    (hrej : allRejected env (labelMapBit loadingOptions) 0 volumeRegistry) :
    ∃ l1 scene1 testScene,
      AddArchetypeVolumeWith env volumeRegistry filename volname loadingOptions fileList l =
        CallResult.returned none l1 (some testScene) ∧
      l1.MRMLScene = some scene1 ∧
      scene1.Nodes = scene.Nodes ∧
      scene1.BatchProcessDepth = scene.BatchProcessDepth ∧
      (∀ a, a < l.Memory.Next → l1.Memory.Object a = l.Memory.Object a) ∧
      l1.ActiveVolumeNode = l.ActiveVolumeNode ∧
      (∀ node, Action.AddNode node ∉ l1.Trace.drop l.Trace.length) ∧
      testScene.Nodes = [] := by
  obtain ⟨l1, testScene, errors, hres, hsc, hactive, _, _, _, hframe, hnodes, htrace⟩ :=
    AddArchetypeVolumeWith_rejected env volumeRegistry filename volname loadingOptions
      fileList l scene hscene hname hrej
  refine ⟨l1, _, testScene, hres, hsc, rfl, rfl, hframe, hactive, ?_, hnodes⟩
  intro node
  rw [htrace]
  simp only [List.append_assoc, List.drop_left, List.mem_append, List.mem_cons,
    reduceCtorEq, List.not_mem_nil, or_false, false_or]
  intro h
  obtain ⟨i, hi | hi⟩ := mem_trialActions _ _ _ _ h <;> exact Action.noConfusion hi

theorem AddArchetypeVolume_failure_is_atomic_witness :
    exampleVolumesLogic.MRMLScene = some {} ∧
    ((none : Option String) ≠ none ∨ some "brain.nrrd" ≠ none) ∧
    allRejected failingCollaborators (labelMapBit 0) 0 exampleVolumesLogic.VolumeRegistry ∧
    ∃ l1 scene1 testScene,
      AddArchetypeVolumeWith failingCollaborators exampleVolumesLogic.VolumeRegistry
          (some "brain.nrrd") none 0 none exampleVolumesLogic =
        CallResult.returned none l1 (some testScene) ∧
      l1.MRMLScene = some scene1 ∧ scene1.Nodes = [] ∧ testScene.Nodes = [] :=
  ⟨rfl, Or.inr (by simp), allRejected_of_reads_fail _ _ _ _ (fun _ => rfl),
    match AddArchetypeVolume_failure_is_atomic failingCollaborators
        exampleVolumesLogic.VolumeRegistry (some "brain.nrrd") none 0 none
        exampleVolumesLogic {} rfl (Or.inr (by simp))
        (allRejected_of_reads_fail _ _ _ _ (fun _ => rfl)) with
    | ⟨l1, scene1, testScene, h, hsc, hnodes, _, _, _, _, hts⟩ =>
      ⟨l1, scene1, testScene, h, hsc, hnodes, hts⟩⟩

/-- C7: a successful ingestion commits exactly one node set. When the first factory fits the
label-map flag but fails its read and the second is accepted, and the nodes of the main
scene were allocated before the call, then the call returns the second factory's volume
node; the main scene has its old nodes followed by the display, storage and volume node
of the second factory, three more than before; these have the classes of that factory and
IDs given by the main scene, and the volume node refers to the display and the storage node
by these IDs; none of the three nodes the first factory built is in the main scene or in
the test scene; and the test scene holds no node. -/
theorem AddArchetypeVolume_commits_one_node_set (env : Collaborators)
    (f1 f2 : ArchetypeVolumeNodeSetFactory) (post : List ArchetypeVolumeNodeSetFactory)
    (filename volname : Option String) (loadingOptions : Nat)
    (fileList : Option (List String)) (l : vtkSlicerVolumesLogic) (scene : vtkMRMLScene)
    (hscene : l.MRMLScene = some scene) (hname : volname ≠ none ∨ filename ≠ none)
    (hfresh : ∀ a ∈ scene.Nodes, a < l.Memory.Next)
    (hflag : labelMapBit loadingOptions = f1.LabelMap)
    (hread : (env.ReadData 0).1 = false)
    (hacc : accepts env (labelMapBit loadingOptions) 1 f2) :
    ∃ l1 scene1 testScene,
      AddArchetypeVolumeWith env (f1 :: f2 :: post) filename volname loadingOptions
          fileList l =
        CallResult.returned (some (f2.nodeSetAt (l.Memory.Next + 3)).Node) l1
          (some testScene) ∧
      (∀ (volumeName : String) (testScene0 : vtkMRMLScene) (m : Memory),
        (f1.call volumeName testScene0 loadingOptions m).1 = f1.nodeSetAt m.Next ∧
        (f2.call volumeName testScene0 loadingOptions m).1 = f2.nodeSetAt m.Next ∧
        (f1.call volumeName testScene0 loadingOptions m).2.2.Next = m.Next + 3) ∧
      l1.MRMLScene = some scene1 ∧
      scene1.Nodes = scene.Nodes ++
        [(f2.nodeSetAt (l.Memory.Next + 3)).DisplayNode,
         (f2.nodeSetAt (l.Memory.Next + 3)).StorageNode,
         (f2.nodeSetAt (l.Memory.Next + 3)).Node] ∧
      scene1.Nodes.length = scene.Nodes.length + 3 ∧
      (l1.Memory.Object (f2.nodeSetAt (l.Memory.Next + 3)).Node).ClassName = f2.VolumeClass ∧
      (l1.Memory.Object (f2.nodeSetAt (l.Memory.Next + 3)).DisplayNode).ClassName =
        f2.DisplayClass ∧
      (l1.Memory.Object (f2.nodeSetAt (l.Memory.Next + 3)).StorageNode).ClassName =
        (f2.newStorageNode loadingOptions).ClassName ∧
      (l1.Memory.Object (f2.nodeSetAt (l.Memory.Next + 3)).DisplayNode).ID =
        some (f2.DisplayClass ++ toString (scene.UniqueIDCounter + 1)) ∧
      (l1.Memory.Object (f2.nodeSetAt (l.Memory.Next + 3)).StorageNode).ID =
        some ((f2.newStorageNode loadingOptions).ClassName ++
          toString (scene.UniqueIDCounter + 2)) ∧
      (l1.Memory.Object (f2.nodeSetAt (l.Memory.Next + 3)).Node).DisplayNodeID =
        (l1.Memory.Object (f2.nodeSetAt (l.Memory.Next + 3)).DisplayNode).ID ∧
      (l1.Memory.Object (f2.nodeSetAt (l.Memory.Next + 3)).Node).StorageNodeID =
        (l1.Memory.Object (f2.nodeSetAt (l.Memory.Next + 3)).StorageNode).ID ∧
      (∀ a ∈ [(f1.nodeSetAt l.Memory.Next).DisplayNode, (f1.nodeSetAt l.Memory.Next).StorageNode,
          (f1.nodeSetAt l.Memory.Next).Node], a ∉ scene1.Nodes ∧ a ∉ testScene.Nodes) ∧
      testScene.Nodes = [] ∧
      l1.Trace = l.Trace ++
        [Action.StartState, Action.SaveStateForUndo, Action.NewTestScene,
         Action.CallFactory 0, Action.ReadData 0, Action.CallFactory 1, Action.ReadData 1,
         Action.AddNode (f2.nodeSetAt (l.Memory.Next + 3)).DisplayNode,
         Action.AddNode (f2.nodeSetAt (l.Memory.Next + 3)).StorageNode,
         Action.AddNode (f2.nodeSetAt (l.Memory.Next + 3)).Node,
         Action.EndState,
         Action.NodeAddedEvent (f2.nodeSetAt (l.Memory.Next + 3)).Node,
         Action.Modified] := by
  have hrej : allRejected env (labelMapBit loadingOptions) 0 [f1] := by
    intro i f hi hacc1
    have := hacc1.2
    cases i with
    | zero => rw [hread] at this; exact Bool.noConfusion this
    | succ j => simp at hi
  obtain ⟨l1, testScene, hres, hsc, _, _, _, _, _, hcv, hcd, hcs, hid, his, _, hld, hls,
    hnodes, htrace⟩ := AddArchetypeVolumeWith_accepted env [f1] f2 post filename volname
      loadingOptions fileList l scene hscene hname hrej (by simpa using hacc)
  simp only [List.length_singleton, Nat.mul_one] at hres hsc hcv hcd hcs hid his hld hls
  simp only [List.length_singleton, Nat.mul_one] at htrace
  have hge2 := nodeSetAt_ge f2 (l.Memory.Next + 3)
  have hlt1 := nodeSetAt_lt f1 l.Memory.Next
  have hge1 := nodeSetAt_ge f1 l.Memory.Next
  refine ⟨l1, _, testScene, by simpa using hres, ?_, hsc, rfl, by simp, hcv, hcd, hcs, hid,
    his, hld, hls, ?_, hnodes, ?_⟩
  · intro volumeName testScene0 m
    exact ⟨call_nodeSet _ _ _ _ _, call_nodeSet _ _ _ _ _, call_Next _ _ _ _ _⟩
  · intro a ha
    have hrange : l.Memory.Next ≤ a ∧ a < l.Memory.Next + 3 := by
      simp only [List.mem_cons, List.mem_singleton, List.not_mem_nil, or_false] at ha
      rcases ha with h | h | h <;> subst h <;> omega
    refine ⟨?_, by simp [hnodes]⟩
    simp only [List.mem_append, List.mem_cons, List.not_mem_nil, or_false, not_or]
    refine ⟨fun hmem => ?_, by omega, by omega, by omega⟩
    have := hfresh a hmem
    omega
  · rw [htrace]
    simp only [List.singleton_append, trialActions, if_pos hflag, if_pos hacc.1,
      List.cons_append, List.nil_append, List.append_nil, List.append_assoc, Nat.zero_add]

theorem AddArchetypeVolume_commits_one_node_set_witness :
    exampleVolumesLogic.MRMLScene = some {} ∧
    labelMapBit 0 = DiffusionWeightedVolumeNodeSetFactory.LabelMap ∧
    (exampleCollaborators.ReadData 0).1 = false ∧
    accepts exampleCollaborators (labelMapBit 0) 1 DiffusionTensorVolumeNodeSetFactory ∧
    ∃ l1 scene1 testScene,
      AddArchetypeVolumeWith exampleCollaborators exampleVolumesLogic.VolumeRegistry
          (some "dti.nhdr") none 0 none exampleVolumesLogic =
        CallResult.returned (some 4) l1 (some testScene) ∧
      l1.MRMLScene = some scene1 ∧ scene1.Nodes = [3, 5, 4] ∧ testScene.Nodes = [] :=
  ⟨rfl, rfl, rfl, ⟨rfl, rfl⟩,
    match AddArchetypeVolume_commits_one_node_set exampleCollaborators
        DiffusionWeightedVolumeNodeSetFactory DiffusionTensorVolumeNodeSetFactory
        [NRRDVectorVolumeNodeSetFactory, ArchetypeVectorVolumeNodeSetFactory,
          LabelMapVolumeNodeSetFactory, ScalarVolumeNodeSetFactory]
        (some "dti.nhdr") none 0 none exampleVolumesLogic {} rfl (Or.inr (by simp))
        (fun _ h => nomatch h) rfl rfl ⟨rfl, rfl⟩ with
    | ⟨l1, scene1, testScene, h, _, hsc, hnodes, _, _, _, _, _, _, _, _, _, hts, _⟩ =>
      ⟨l1, scene1, testScene, h, hsc, hnodes, hts⟩⟩

/-- C8: `AddArchetypeVolume` with no scene attached returns null at once: the logic and
everything it works on are as before, so no batch state was entered, no undo checkpoint
saved, no test scene created and no factory called. -/
theorem AddArchetypeVolume_without_scene (env : Collaborators)
    (volumeRegistry : List ArchetypeVolumeNodeSetFactory) (filename volname : Option String)
    (loadingOptions : Nat) (fileList : Option (List String)) (l : vtkSlicerVolumesLogic)
    (h : l.MRMLScene = none) :
    AddArchetypeVolumeWith env volumeRegistry filename volname loadingOptions fileList l =
      CallResult.returned none l none ∧
    AddArchetypeVolume env filename volname loadingOptions fileList l =
      CallResult.returned none l none := by
  simp [AddArchetypeVolume, AddArchetypeVolumeWith, h]

theorem AddArchetypeVolume_without_scene_witness :
    detachedVolumesLogic.MRMLScene = none ∧
    AddArchetypeVolume exampleCollaborators (some "brain.nrrd") none 0 none
        detachedVolumesLogic =
      CallResult.returned none detachedVolumesLogic none :=
  ⟨rfl, (AddArchetypeVolume_without_scene exampleCollaborators
    detachedVolumesLogic.VolumeRegistry (some "brain.nrrd") none 0 none
    detachedVolumesLogic rfl).2⟩

/-- C9: what `AddArchetypeVolume` does with a null filename, which it does not check.
With a null volume name as well it has entered the batch state and saved an undo
checkpoint when it builds a `std::string` from the null pointer; with a volume name it goes
on to create the test scene and to call the factories, each fitting one reading the null
file name, and returns null only when the registry is exhausted. -/
theorem AddArchetypeVolume_null_filename :
    AddArchetypeVolume failingCollaborators none none 0 none exampleVolumesLogic =
      CallResult.undefined
        { exampleVolumesLogic with
          MRMLScene := some { BatchProcessDepth := 1, UndoCheckpoints := 1 }
          Trace := [Action.StartState, Action.SaveStateForUndo] } ∧
    ∃ l1 testScene errors,
      AddArchetypeVolume failingCollaborators none (some "volume") 0 none
          exampleVolumesLogic =
        CallResult.returned none l1 (some testScene) ∧
      l1.Trace =
        [Action.StartState, Action.SaveStateForUndo, Action.NewTestScene,
         Action.CallFactory 0, Action.ReadData 0, Action.CallFactory 1, Action.ReadData 1,
         Action.CallFactory 2, Action.ReadData 2, Action.CallFactory 3, Action.ReadData 3,
         Action.CallFactory 4, Action.CallFactory 5, Action.ReadData 5,
         Action.DisplayErrors errors, Action.EndState] := by
  refine ⟨rfl, ?_⟩
  obtain ⟨l1, testScene, errors, hres, _, _, _, _, _, _, _, htrace⟩ :=
    AddArchetypeVolumeWith_rejected failingCollaborators exampleVolumesLogic.VolumeRegistry
      none (some "volume") 0 none exampleVolumesLogic {} rfl (Or.inl (by simp))
      (allRejected_of_reads_fail _ _ _ _ (fun _ => rfl))
  refine ⟨l1, testScene, errors, hres, ?_⟩
  rw [htrace]
  rfl

/-- C10: `RegisterArchetypeVolumeNodeSetFactory(f)` appends `f` to the registry when it is
not in it, and changes nothing, the registry included, when it is. -/
theorem RegisterArchetypeVolumeNodeSetFactory_appends_if_absent
    (factory : ArchetypeVolumeNodeSetFactory) (l : vtkSlicerVolumesLogic) :
    (factory ∉ l.VolumeRegistry →
      RegisterArchetypeVolumeNodeSetFactory factory l =
        { l with VolumeRegistry := l.VolumeRegistry ++ [factory] }) ∧
    (factory ∈ l.VolumeRegistry → RegisterArchetypeVolumeNodeSetFactory factory l = l) := by
  constructor
  · intro h
    have : l.VolumeRegistry.find? (fun f => f = factory) = none := by
      rw [List.find?_eq_none]
      intro x hx hxf
      simp only [decide_eq_true_eq] at hxf
      exact h (hxf ▸ hx)
    simp [RegisterArchetypeVolumeNodeSetFactory, this]
  · intro h
    cases hfind : l.VolumeRegistry.find? (fun f => f = factory) with
    | none =>
      rw [List.find?_eq_none] at hfind
      exact absurd (by simp) (hfind factory h)
    | some g => simp [RegisterArchetypeVolumeNodeSetFactory, hfind]

theorem RegisterArchetypeVolumeNodeSetFactory_appends_if_absent_witness :
    (RegisterArchetypeVolumeNodeSetFactory ScalarVolumeNodeSetFactory
      { exampleVolumesLogic with
        VolumeRegistry := [LabelMapVolumeNodeSetFactory] }).VolumeRegistry =
      [LabelMapVolumeNodeSetFactory, ScalarVolumeNodeSetFactory] ∧
    RegisterArchetypeVolumeNodeSetFactory ScalarVolumeNodeSetFactory exampleVolumesLogic =
      exampleVolumesLogic :=
  ⟨congrArg vtkSlicerVolumesLogic.VolumeRegistry
      ((RegisterArchetypeVolumeNodeSetFactory_appends_if_absent ScalarVolumeNodeSetFactory
        { exampleVolumesLogic with VolumeRegistry := [LabelMapVolumeNodeSetFactory] }).1
        (by decide)),
    (RegisterArchetypeVolumeNodeSetFactory_appends_if_absent ScalarVolumeNodeSetFactory
      exampleVolumesLogic).2 (by decide)⟩

/-! ## Volumes logic: the registry of factories -/

theorem PreRegisterArchetypeVolumeNodeSetFactory_registry
    (f : ArchetypeVolumeNodeSetFactory) (l : vtkSlicerVolumesLogic) :
    PreRegisterArchetypeVolumeNodeSetFactory f l =
      { l with VolumeRegistry := f :: l.VolumeRegistry.erase f } := by
  unfold PreRegisterArchetypeVolumeNodeSetFactory
  cases h : l.VolumeRegistry.find? (fun g => g = f) with
  | none =>
    have hmem : f ∉ l.VolumeRegistry := by
      intro hf
      have := List.find?_eq_none.mp h f hf
      simp at this
    simp only [List.erase_of_not_mem hmem]
  | some g => rfl

/-- C11: `PreRegisterArchetypeVolumeNodeSetFactory f` on a duplicate-free registry `L`
gives `f` followed by `L` with `f` removed: `f` is at the front, the other factories are
the same and in the same order, the length grows by one exactly when `f` was absent, the
result has no duplicates, and nothing but the registry changes. -/
theorem PreRegisterArchetypeVolumeNodeSetFactory_moves_to_front
    (f : ArchetypeVolumeNodeSetFactory) (l : vtkSlicerVolumesLogic)
    (hnodup : l.VolumeRegistry.Nodup) :
    (PreRegisterArchetypeVolumeNodeSetFactory f l).VolumeRegistry =
        f :: l.VolumeRegistry.filter (fun g => g ≠ f) ∧
      (PreRegisterArchetypeVolumeNodeSetFactory f l).VolumeRegistry.head? = some f ∧
      (PreRegisterArchetypeVolumeNodeSetFactory f l).VolumeRegistry.filter (fun g => g ≠ f) =
        l.VolumeRegistry.filter (fun g => g ≠ f) ∧
      ((PreRegisterArchetypeVolumeNodeSetFactory f l).VolumeRegistry.length =
        l.VolumeRegistry.length + 1 ↔ f ∉ l.VolumeRegistry) ∧
      (PreRegisterArchetypeVolumeNodeSetFactory f l).VolumeRegistry.Nodup ∧
      PreRegisterArchetypeVolumeNodeSetFactory f l =
        { l with VolumeRegistry := f :: l.VolumeRegistry.filter (fun g => g ≠ f) } := by
  have herase : l.VolumeRegistry.erase f = l.VolumeRegistry.filter (fun g => g ≠ f) := by
    rw [hnodup.erase_eq_filter]
    congr 1
    funext g
    by_cases hg : g = f <;> simp [hg]
  rw [PreRegisterArchetypeVolumeNodeSetFactory_registry]
  simp only [herase]
  refine ⟨?_, ?_, ?_, ?_, ?_, ?_⟩
  · trivial
  · rfl
  · simp [List.filter_filter]
  · rw [← herase]
    constructor
    · intro hlen hmem
      rw [List.length_cons, List.length_erase_of_mem hmem] at hlen
      have hpos : 0 < l.VolumeRegistry.length := List.length_pos_of_mem hmem
      omega
    · intro hmem
      rw [List.erase_of_not_mem hmem, List.length_cons]
  · rw [List.nodup_cons]
    exact ⟨by simp, hnodup.filter _⟩
  · trivial

theorem PreRegisterArchetypeVolumeNodeSetFactory_moves_to_front_witness :
    (PreRegisterArchetypeVolumeNodeSetFactory LabelMapVolumeNodeSetFactory
        exampleVolumesLogic).VolumeRegistry =
      [LabelMapVolumeNodeSetFactory, DiffusionWeightedVolumeNodeSetFactory,
        DiffusionTensorVolumeNodeSetFactory, NRRDVectorVolumeNodeSetFactory,
        ArchetypeVectorVolumeNodeSetFactory, ScalarVolumeNodeSetFactory] ∧
      exampleVolumesLogic.VolumeRegistry.Nodup ∧
      ((PreRegisterArchetypeVolumeNodeSetFactory LabelMapVolumeNodeSetFactory
        exampleVolumesLogic).VolumeRegistry.length =
        exampleVolumesLogic.VolumeRegistry.length + 1 ↔
        LabelMapVolumeNodeSetFactory ∉ exampleVolumesLogic.VolumeRegistry) :=
  ⟨by decide, by decide,
    (PreRegisterArchetypeVolumeNodeSetFactory_moves_to_front LabelMapVolumeNodeSetFactory
      exampleVolumesLogic (by decide)).2.2.2.1⟩

/-- C12: a freshly constructed volumes logic holds exactly six factories, without
duplicates, in the order diffusion-weighted, diffusion-tensor, NRRD vector, archetype
vector, label map, scalar. -/
theorem New_VolumeRegistry (memory : Memory) (epsilon : Double) (precision : Int) :
    (vtkSlicerVolumesLogic.New memory epsilon precision).VolumeRegistry =
        [DiffusionWeightedVolumeNodeSetFactory, DiffusionTensorVolumeNodeSetFactory,
          NRRDVectorVolumeNodeSetFactory, ArchetypeVectorVolumeNodeSetFactory,
          LabelMapVolumeNodeSetFactory, ScalarVolumeNodeSetFactory] ∧
      (vtkSlicerVolumesLogic.New memory epsilon precision).VolumeRegistry.length = 6 ∧
      (vtkSlicerVolumesLogic.New memory epsilon precision).VolumeRegistry.Nodup := by
  have h : (vtkSlicerVolumesLogic.New memory epsilon precision).VolumeRegistry =
        [DiffusionWeightedVolumeNodeSetFactory, DiffusionTensorVolumeNodeSetFactory,
          NRRDVectorVolumeNodeSetFactory, ArchetypeVectorVolumeNodeSetFactory,
          LabelMapVolumeNodeSetFactory, ScalarVolumeNodeSetFactory] := by
    rfl
  rw [h]
  exact ⟨rfl, rfl, by decide⟩

/-! ## Numbers: the loop of `orderOfMagnitude` -/

theorem epsilon_pos : 0 < epsilon := by
  unfold epsilon; positivity

theorem epsilon_gt : (1 / 10 : ℚ) ^ 16 < epsilon := by
  unfold epsilon; norm_num

theorem magnitudeLoop_add (v factor : ℚ) (step : Int) (e : Int) (n : Nat) :
    ∀ (fuel : Nat) (m : ℚ) (o : Int), magnitudeLoop v factor step fuel m o = some e →
      magnitudeLoop v factor step (fuel + n) m o = some e := by
  intro fuel
  induction fuel with
  | zero => intro m o h; simp [magnitudeLoop] at h
  | succ fuel ih =>
    intro m o h
    rw [Nat.add_right_comm]
    simp only [magnitudeLoop] at h ⊢
    split
    · rename_i hc
      rw [if_pos hc] at h
      exact ih _ _ h
    · rename_i hc
      rw [if_neg hc] at h
      exact h

theorem magnitudeLoop_le (v factor : ℚ) (step : Int) (e : Int) (fuel fuel2 : Nat) (m : ℚ)
    (o : Int) (h : magnitudeLoop v factor step fuel m o = some e) (hle : fuel ≤ fuel2) :
    magnitudeLoop v factor step fuel2 m o = some e := by
  obtain ⟨n, rfl⟩ := Nat.exists_eq_add_of_le hle
  exact magnitudeLoop_add v factor step e n fuel m o h

theorem magnitudeLoop_down (v : ℚ) (n : Nat) : ∀ (j : Nat),
    (∀ i, j ≤ i → i < j + n → v < (1 / 10 : ℚ) ^ i - epsilon) →
    (1 / 10 : ℚ) ^ (j + n) - epsilon ≤ v →
    magnitudeLoop v (1 / 10) (-1) (n + 1) ((1 / 10) ^ j) (-1 - (j : Int)) =
      some (-((j + n : Nat) : Int)) := by
  induction n with
  | zero =>
    intro j _ hle
    simp only [magnitudeLoop]
    rw [if_neg]
    · congr 1; push_cast; ring
    · rintro (⟨h, _⟩ | ⟨_, h⟩)
      · omega
      · simp only [Nat.add_zero] at hle; linarith
  | succ n ih =>
    intro j hlt hle
    rw [magnitudeLoop]
    rw [if_pos (Or.inr ⟨by norm_num, hlt j (le_refl j) (by omega)⟩)]
    have h := ih (j + 1) (fun i hi1 hi2 => hlt i (by omega) (by omega))
      (by rw [show j + 1 + n = j + (n + 1) by omega]; exact hle)
    rw [pow_succ] at h
    rw [show (-1 - (j : Int) + -1) = -1 - ((j + 1 : Nat) : Int) by push_cast; ring]
    rw [h]
    congr 2
    omega

theorem magnitudeLoop_up (v : ℚ) (n : Nat) : ∀ (j : Nat),
    (∀ i, j ≤ i → i < j + n → (10 : ℚ) ^ i ≤ v) →
    v < (10 : ℚ) ^ (j + n) →
    magnitudeLoop v 10 1 (n + 1) (10 ^ j) (j : Int) = some (((j + n : Nat) : Int) - 1) := by
  induction n with
  | zero =>
    intro j _ hlt
    simp only [magnitudeLoop]
    rw [if_neg]
    · rfl
    · rintro (⟨_, h⟩ | ⟨h, _⟩)
      · simp only [Nat.add_zero] at hlt; linarith
      · omega
  | succ n ih =>
    intro j hle hlt
    rw [magnitudeLoop]
    rw [if_pos (Or.inl ⟨by norm_num, hle j (le_refl j) (by omega)⟩)]
    have h := ih (j + 1) (fun i hi1 hi2 => hle i (by omega) (by omega))
      (by rw [show j + 1 + n = j + (n + 1) by omega]; exact hlt)
    rw [pow_succ] at h
    rw [show ((j : Int) + 1) = ((j + 1 : Nat) : Int) by push_cast; ring]
    rw [h]
    congr 2
    omega

theorem magnitudeLoop_below_one (v : ℚ) (hε : epsilon ≤ v) :
    ∃ k : Nat, k ≤ 16 ∧ (1 / 10 : ℚ) ^ k - epsilon ≤ v ∧
      (∀ i, i < k → v < (1 / 10 : ℚ) ^ i - epsilon) ∧
      ∀ fuel, 17 ≤ fuel → magnitudeLoop v (1 / 10) (-1) fuel 1 (-1) = some (-(k : Int)) := by
  have h16 : (1 / 10 : ℚ) ^ 16 - epsilon ≤ v := by
    have h1 := epsilon_gt
    have h2 := epsilon_pos
    linarith
  have hex : ∃ k : Nat, (1 / 10 : ℚ) ^ k - epsilon ≤ v := ⟨16, h16⟩
  have hk16 : Nat.find hex ≤ 16 := Nat.find_min' hex h16
  have hmin : ∀ i, i < Nat.find hex → v < (1 / 10 : ℚ) ^ i - epsilon :=
    fun i hi => not_le.mp (Nat.find_min hex hi)
  refine ⟨Nat.find hex, hk16, Nat.find_spec hex, hmin, ?_⟩
  intro fuel hfuel
  have h := magnitudeLoop_down v (Nat.find hex) 0
    (fun i _ hi => hmin i (by omega)) (by rw [Nat.zero_add]; exact Nat.find_spec hex)
  simp only [pow_zero, Nat.cast_zero, sub_zero, Nat.zero_add] at h
  exact magnitudeLoop_le _ _ _ _ _ _ _ _ h (by omega)

theorem magnitudeLoop_above_one (v : ℚ) (h1 : 1 ≤ v) :
    ∃ k : Nat, (10 : ℚ) ^ k ≤ v ∧ v < (10 : ℚ) ^ (k + 1) ∧
      ∀ fuel, Nat.ceil v + 18 ≤ fuel → magnitudeLoop v 10 1 fuel 1 0 = some (k : Int) := by
  obtain ⟨k, hk1, hk2⟩ := exists_nat_pow_near h1 (by norm_num : (1 : ℚ) < 10)
  refine ⟨k, hk1, hk2, ?_⟩
  intro fuel hfuel
  have h := magnitudeLoop_up v (k + 1) 0
    (fun i _ hi => le_trans (pow_le_pow_right₀ (by norm_num) (by omega)) hk1)
    (by rw [Nat.zero_add]; exact hk2)
  simp only [pow_zero, Nat.cast_zero, Nat.zero_add] at h
  have hk : k < Nat.ceil v := by
    rw [Nat.lt_ceil]
    have h10 : (k : ℚ) < (10 : ℚ) ^ k := by
      exact_mod_cast Nat.lt_pow_self (by norm_num : 1 < 10) k
    linarith
  have h2 := magnitudeLoop_le _ _ _ _ _ fuel _ _ h (by omega)
  rw [h2]
  congr 1
  push_cast
  ring

theorem orderOfMagnitudeWithin_finite (q : ℚ) (h : epsilon ≤ |q|) :
    ∃ e : Int, -16 ≤ e ∧
      (1 ≤ |q| → (10 : ℚ) ^ e ≤ |q| ∧ |q| < (10 : ℚ) ^ (e + 1)) ∧
      (|q| < 1 → (10 : ℚ) ^ e - epsilon ≤ |q| ∧ |q| < (10 : ℚ) ^ (e + 1) - epsilon) ∧
      ∀ fuel, orderOfMagnitudeTests (.finite q) ≤ fuel →
        orderOfMagnitudeWithin fuel (.finite q) = some e := by
  have hpos := epsilon_pos
  have hne : ¬ (|q| = 0 ∨ |q| < epsilon) := by
    rintro (h0 | h0) <;> linarith
  by_cases h1 : |q| < 1
  · obtain ⟨k, hk16, hk, hmin, hloop⟩ := magnitudeLoop_below_one |q| h
    have hz : (10 : ℚ) ^ (-(k : Int)) = (1 / 10 : ℚ) ^ k := by
      rw [zpow_neg, zpow_natCast, one_div, inv_pow]
    refine ⟨-(k : Int), by omega, fun h2 => absurd h1 (not_lt.mpr h2), fun _ => ⟨?_, ?_⟩, ?_⟩
    · rw [hz]; exact hk
    · cases k with
      | zero =>
        have : (10 : ℚ) ^ (-((0 : Nat) : Int) + 1) = 10 := by norm_num
        rw [this]
        have h3 := epsilon_gt
        have h4 : (1 / 10 : ℚ) ^ 16 < 1 := by norm_num
        linarith
      | succ k =>
        have hz2 : (10 : ℚ) ^ (-((k + 1 : Nat) : Int) + 1) = (1 / 10 : ℚ) ^ k := by
          rw [show (-((k + 1 : Nat) : Int) + 1) = -(k : Int) by push_cast; ring]
          rw [zpow_neg, zpow_natCast, one_div, inv_pow]
        rw [hz2]
        exact hmin k (by omega)
    · intro fuel hfuel
      simp only [orderOfMagnitudeWithin, if_neg hne, if_pos h1]
      exact hloop fuel (by simp only [orderOfMagnitudeTests] at hfuel; omega)
  · have h1 : 1 ≤ |q| := not_lt.mp h1
    obtain ⟨k, hk1, hk2, hloop⟩ := magnitudeLoop_above_one |q| h1
    refine ⟨(k : Int), by omega, fun _ => ⟨?_, ?_⟩, fun h2 => absurd h2 (not_lt.mpr h1), ?_⟩
    · rw [zpow_natCast]; exact hk1
    · rw [show ((k : Int) + 1) = ((k + 1 : Nat) : Int) by push_cast; ring, zpow_natCast]
      exact hk2
    · intro fuel hfuel
      simp only [orderOfMagnitudeWithin, if_neg hne, if_neg (not_lt.mpr h1)]
      exact hloop fuel (by simp only [orderOfMagnitudeTests] at hfuel; exact hfuel)

theorem orderOfMagnitude_eq_of_within (value : Double) (e : Int) (fuel : Nat)
    (h : orderOfMagnitudeWithin fuel value = some e) (hfuel : fuel ≤ 18) :
    orderOfMagnitude value = e := by
  cases value with
  | finite q =>
    unfold orderOfMagnitude
    have h2 : orderOfMagnitudeWithin (orderOfMagnitudeTests (.finite q)) (.finite q) =
        some e := by
      simp only [orderOfMagnitudeWithin] at h ⊢
      split
      · rename_i hc; rw [if_pos hc] at h; exact h
      · rename_i hc
        rw [if_neg hc] at h
        split
        · rename_i hc2
          rw [if_pos hc2] at h
          exact magnitudeLoop_le _ _ _ _ _ _ _ _ h
            (by simp only [orderOfMagnitudeTests]; omega)
        · rename_i hc2
          rw [if_neg hc2] at h
          exact magnitudeLoop_le _ _ _ _ _ _ _ _ h
            (by simp only [orderOfMagnitudeTests]; omega)
    rw [h2]; rfl
  | negZero =>
    simp only [orderOfMagnitudeWithin, Option.some.injEq] at h
    rw [← h]; rfl
  | posInf =>
    simp only [orderOfMagnitudeWithin, Option.some.injEq] at h
    rw [← h]; rfl
  | negInf =>
    simp only [orderOfMagnitudeWithin, Option.some.injEq] at h
    rw [← h]; rfl
  | nan =>
    simp only [orderOfMagnitudeWithin, Option.some.injEq] at h
    rw [← h]; rfl


theorem orderOfMagnitude_999 : orderOfMagnitude (.finite 999) = 2 :=
  orderOfMagnitude_eq_of_within _ _ 4
    (by norm_num [orderOfMagnitudeWithin, magnitudeLoop, epsilon]) (by norm_num)

theorem orderOfMagnitude_1000 : orderOfMagnitude (.finite 1000) = 3 :=
  orderOfMagnitude_eq_of_within _ _ 5
    (by norm_num [orderOfMagnitudeWithin, magnitudeLoop, epsilon]) (by norm_num)

theorem orderOfMagnitude_005 : orderOfMagnitude (.finite (5 / 100)) = -2 :=
  orderOfMagnitude_eq_of_within _ _ 3
    (by norm_num [orderOfMagnitudeWithin, magnitudeLoop, epsilon, abs_of_pos]) (by norm_num)

theorem orderOfMagnitude_millionth : orderOfMagnitude (.finite (1 / 1000000)) = -6 :=
  orderOfMagnitude_eq_of_within _ _ 7
    (by norm_num [orderOfMagnitudeWithin, magnitudeLoop, epsilon, abs_of_pos]) (by norm_num)


/-! ## Numbers: the claims on `orderOfMagnitude` -/

/-- C13, as stated, fails just below a power of ten: for the double 1 - 2^-53, which is
not smaller than machine epsilon, `orderOfMagnitude` returns 0 after one test of the loop
condition, although 10^0 is larger than the value. -/
theorem orderOfMagnitude_just_below_one :
    epsilon ≤ |(1 - 1 / 2 ^ 53 : ℚ)| ∧
      orderOfMagnitudeWithin 1 (.finite (1 - 1 / 2 ^ 53)) = some 0 ∧
      orderOfMagnitude (.finite (1 - 1 / 2 ^ 53)) = 0 ∧
      ¬ ((10 : ℚ) ^ (0 : Int) ≤ |(1 - 1 / 2 ^ 53 : ℚ)|) := by
  have h : orderOfMagnitudeWithin 1 (.finite (1 - 1 / 2 ^ 53)) = some 0 := by
    norm_num [orderOfMagnitudeWithin, magnitudeLoop, epsilon, abs_of_pos]
  refine ⟨?_, h, orderOfMagnitude_eq_of_within _ _ 1 h (by norm_num), ?_⟩
  · norm_num [epsilon, abs_of_pos]
  · norm_num [abs_of_pos]

/-- C13, amended: for a finite value whose absolute value is at least machine epsilon
(2^-52), the loop of `orderOfMagnitude` ends and the function returns an integer `e` such
that 10^e <= |value| < 10^(e+1) when |value| >= 1, and such that
10^e - epsilon <= |value| < 10^(e+1) - epsilon when |value| < 1 (exact arithmetic, factors
10 and 1/10). In particular 999 gives 2, 1000 gives 3 and 0.05 gives -2. -/
theorem orderOfMagnitude_bracket (value : ℚ) (h : epsilon ≤ |value|) :
    (∃ e : Int,
      (∀ fuel, orderOfMagnitudeTests (.finite value) ≤ fuel →
        orderOfMagnitudeWithin fuel (.finite value) = some e) ∧
      orderOfMagnitude (.finite value) = e ∧
      (1 ≤ |value| → (10 : ℚ) ^ e ≤ |value| ∧ |value| < (10 : ℚ) ^ (e + 1)) ∧
      (|value| < 1 →
        (10 : ℚ) ^ e - epsilon ≤ |value| ∧ |value| < (10 : ℚ) ^ (e + 1) - epsilon)) ∧
      orderOfMagnitude (.finite 999) = 2 ∧
      orderOfMagnitude (.finite 1000) = 3 ∧
      orderOfMagnitude (.finite (5 / 100)) = -2 := by
  obtain ⟨e, _, hup, hdown, hfuel⟩ := orderOfMagnitudeWithin_finite value h
  refine ⟨⟨e, hfuel, ?_, hup, hdown⟩, orderOfMagnitude_999, orderOfMagnitude_1000,
    orderOfMagnitude_005⟩
  unfold orderOfMagnitude
  rw [hfuel _ (le_refl _)]
  rfl

theorem orderOfMagnitude_bracket_witness :
    epsilon ≤ |(999 : ℚ)| ∧
      ∃ e : Int,
        (∀ fuel, orderOfMagnitudeTests (.finite 999) ≤ fuel →
          orderOfMagnitudeWithin fuel (.finite 999) = some e) ∧
        orderOfMagnitude (.finite 999) = e ∧
        (1 ≤ |(999 : ℚ)| → (10 : ℚ) ^ e ≤ |(999 : ℚ)| ∧ |(999 : ℚ)| < (10 : ℚ) ^ (e + 1)) ∧
        (|(999 : ℚ)| < 1 →
          (10 : ℚ) ^ e - epsilon ≤ |(999 : ℚ)| ∧
            |(999 : ℚ)| < (10 : ℚ) ^ (e + 1) - epsilon) :=
  ⟨by norm_num [epsilon], (orderOfMagnitude_bracket 999 (by norm_num [epsilon])).1⟩

/-- C14: `orderOfMagnitude` returns `INT_MIN` exactly when its argument is zero (of either
sign), infinite, NaN or smaller in absolute value than machine epsilon; for every other argument the loop
ends and the value returned is greater than `INT_MIN`. -/
theorem orderOfMagnitude_INT_MIN_iff (value : Double) :
    ∃ e : Int,
      (∀ fuel, orderOfMagnitudeTests value ≤ fuel →
        orderOfMagnitudeWithin fuel value = some e) ∧
      orderOfMagnitude value = e ∧
      (e = INT_MIN ↔
        (value = .finite 0 ∨ value = .negZero ∨ value = .posInf ∨ value = .negInf ∨
          value = .nan ∨ ∃ q, value = .finite q ∧ |q| < epsilon)) ∧
      (e ≠ INT_MIN → INT_MIN < e) := by
  cases value with
  | finite q =>
    by_cases hq : |q| = 0 ∨ |q| < epsilon
    · refine ⟨INT_MIN, ?_, ?_, ?_, fun h => absurd rfl h⟩
      · intro fuel _
        simp only [orderOfMagnitudeWithin, if_pos hq]
      · simp only [orderOfMagnitude, orderOfMagnitudeWithin, if_pos hq, Option.getD_some]
      · refine ⟨fun _ => ?_, fun _ => rfl⟩
        rcases hq with h0 | h0
        · exact Or.inl (by rw [abs_eq_zero.mp h0])
        · exact Or.inr (Or.inr (Or.inr (Or.inr (Or.inr ⟨q, rfl, h0⟩))))
    · have hq1 : ¬ |q| = 0 := fun h => hq (Or.inl h)
      have hq2 : epsilon ≤ |q| := not_lt.mp (fun h => hq (Or.inr h))
      obtain ⟨e, he, _, _, hfuel⟩ := orderOfMagnitudeWithin_finite q hq2
      have hne : e ≠ INT_MIN := by
        unfold INT_MIN; omega
      refine ⟨e, hfuel, ?_, ?_, fun _ => by unfold INT_MIN; omega⟩
      · unfold orderOfMagnitude
        rw [hfuel _ (le_refl _)]
        rfl
      · refine ⟨fun h => absurd h hne, ?_⟩
        rintro (h | h | h | h | h | ⟨p, h, hp⟩)
        · injection h with h
          exact absurd (by rw [h, abs_zero]) hq1
        · cases h
        · cases h
        · cases h
        · cases h
        · injection h with h
          rw [← h] at hp
          exact absurd hp (not_lt.mpr hq2)
  | negZero =>
    exact ⟨INT_MIN, fun _ _ => rfl, rfl, ⟨fun _ => Or.inr (Or.inl rfl), fun _ => rfl⟩,
      fun h => absurd rfl h⟩
  | posInf =>
    exact ⟨INT_MIN, fun _ _ => rfl, rfl, ⟨fun _ => Or.inr (Or.inr (Or.inl rfl)), fun _ => rfl⟩,
      fun h => absurd rfl h⟩
  | negInf =>
    exact ⟨INT_MIN, fun _ _ => rfl, rfl,
      ⟨fun _ => Or.inr (Or.inr (Or.inr (Or.inl rfl))), fun _ => rfl⟩, fun h => absurd rfl h⟩
  | nan =>
    exact ⟨INT_MIN, fun _ _ => rfl, rfl,
      ⟨fun _ => Or.inr (Or.inr (Or.inr (Or.inr (Or.inl rfl)))), fun _ => rfl⟩,
      fun h => absurd rfl h⟩

/-! ## Numbers: `significantDecimals` -/

theorem roundHalfEven_eq (q : ℚ) (n : Int) (h1 : (n : ℚ) ≤ q) (h2 : q - n < 1 / 2) :
    roundHalfEven q = n := by
  have hfloor : ⌊q⌋ = n := by
    rw [Int.floor_eq_iff]
    constructor
    · exact h1
    · linarith
  unfold roundHalfEven
  rw [hfloor, if_pos h2]

theorem fixedFractional_length (value : ℚ) : (fixedFractional value).length = 16 := by
  simp [fixedFractional]

theorem fixedFractional_third :
    fixedFractional (1 / 3) =
      ['3', '3', '3', '3', '3', '3', '3', '3', '3', '3', '3', '3', '3', '3', '3', '3'] := by
  unfold fixedFractional
  rw [roundHalfEven_eq _ 3333333333333333 (by norm_num [abs_of_pos])
    (by norm_num [abs_of_pos])]
  decide

/-- The double nearest to one third is 6004799503160661 / 2^54. -/
theorem fixedFractional_third_double :
    fixedFractional (6004799503160661 / 2 ^ 54) =
      ['3', '3', '3', '3', '3', '3', '3', '3', '3', '3', '3', '3', '3', '3', '3', '3'] := by
  unfold fixedFractional
  rw [roundHalfEven_eq _ 3333333333333333 (by norm_num [abs_of_pos])
    (by norm_num [abs_of_pos])]
  decide

theorem significantDecimalsLoop_range (length : Nat) (isUnit : Bool) :
    ∀ (digits : List Char) (i : Nat) (previous : Char) (previousRepeat : Int)
      (only0s : Bool), previousRepeat ≤ i → 0 ≤ previousRepeat →
      i + digits.length = length →
      -1 ≤ significantDecimalsLoop length isUnit (-1) digits i previous previousRepeat
          only0s ∧
        significantDecimalsLoop length isUnit (-1) digits i previous previousRepeat
          only0s ≤ length := by
  intro digits
  induction digits with
  | nil =>
    intro i previous previousRepeat only0s _ _ _
    simp only [significantDecimalsLoop]
    omega
  | cons digit rest ih =>
    intro i previous previousRepeat only0s h1 h0 hlen
    simp only [List.length_cons] at hlen
    simp only [significantDecimalsLoop]
    split_ifs
    all_goals first
      | omega
      | exact ih _ _ _ _ (by push_cast; omega) (by omega) (by omega)

theorem significantDecimals_range (value : Double) :
    -1 ≤ significantDecimals value (-1) ∧ significantDecimals value (-1) ≤ 16 := by
  cases value with
  | finite q =>
    simp only [significantDecimals]
    split_ifs with h0 hlen
    · omega
    · omega
    · have h := significantDecimalsLoop_range (fixedFractional q).length
        (decide (-1 < q ∧ q < 1)) (fixedFractional q) 0 ' ' 0 true (by norm_num)
        (le_refl _) (by omega)
      rw [fixedFractional_length] at h ⊢
      exact h
  | negZero => simp [significantDecimals]
  | posInf => simp [significantDecimals]
  | negInf => simp [significantDecimals]
  | nan => simp [significantDecimals]

theorem significantDecimals_third : significantDecimals (.finite (1 / 3)) (-1) = 2 := by
  simp only [significantDecimals]
  rw [if_neg (by norm_num), if_neg (by simp [fixedFractional_length])]
  rw [fixedFractional_third]
  rw [show decide (-1 < (1 / 3 : ℚ) ∧ (1 / 3 : ℚ) < 1) = true from
    decide_eq_true (by norm_num)]
  decide

theorem significantDecimals_third_double :
    significantDecimals (.finite (6004799503160661 / 2 ^ 54)) (-1) = 2 := by
  simp only [significantDecimals]
  rw [if_neg (by norm_num), if_neg (by simp [fixedFractional_length])]
  rw [fixedFractional_third_double]
  rw [show decide (-1 < (6004799503160661 / 2 ^ 54 : ℚ) ∧
      (6004799503160661 / 2 ^ 54 : ℚ) < 1) = true from decide_eq_true (by norm_num)]
  decide

/-- C15: `significantDecimals` returns 0 for zero and for the two infinities and -1 for
NaN; for one third, whose sixteen fractional digits are all 3, it returns 2, which is at
least 1; and with the default second argument its result always lies between -1 and 16. -/
theorem significantDecimals_special_values :
    (∀ defaultDecimals, significantDecimals (.finite 0) defaultDecimals = 0) ∧
      (∀ defaultDecimals, significantDecimals .posInf defaultDecimals = 0) ∧
      (∀ defaultDecimals, significantDecimals .negInf defaultDecimals = 0) ∧
      (∀ defaultDecimals, significantDecimals .nan defaultDecimals = -1) ∧
      fixedFractional (6004799503160661 / 2 ^ 54) = List.replicate 16 '3' ∧
      significantDecimals (.finite (6004799503160661 / 2 ^ 54)) (-1) = 2 ∧
      fixedFractional (1 / 3) = List.replicate 16 '3' ∧
      significantDecimals (.finite (1 / 3)) (-1) = 2 ∧
      1 ≤ significantDecimals (.finite (1 / 3)) (-1) ∧
      ∀ value : Double,
        -1 ≤ significantDecimals value (-1) ∧ significantDecimals value (-1) ≤ 16 := by
  refine ⟨fun _ => by simp [significantDecimals], fun _ => rfl, fun _ => rfl, fun _ => rfl,
    fixedFractional_third_double,
    significantDecimals_third_double, fixedFractional_third, significantDecimals_third, ?_,
    significantDecimals_range⟩
  rw [significantDecimals_third]
  norm_num

/-! ## Volumes logic: the epsilon of the geometry comparison -/

theorem Double.fabs_of_lt_zero (e : Double) (he : e ≠ .negZero) :
    (if Double.lt e (.finite 0) = true then Double.fabs e else e) = Double.fabs e := by
  cases e with
  | finite q =>
    simp only [Double.lt, Double.fabs, decide_eq_true_eq]
    split_ifs with h
    · rfl
    · rw [abs_of_nonneg (not_lt.mp h)]
  | negZero => exact absurd rfl he
  | posInf => rfl
  | negInf => rfl
  | nan => rfl

theorem Double.negZero_not_lt_zero :
    (if Double.lt .negZero (.finite 0) = true then Double.fabs .negZero else .negZero) =
      Double.negZero := by
  simp [Double.lt]

theorem Double.number_eq_of_eq (a b : Double) (h : Double.eq a b = true) :
    a.number = b.number := by
  cases a <;> cases b <;> simp_all [Double.eq, Double.number]

theorem Double.eq_of_number_eq (a b : Double) (ha : a ≠ .nan) (hb : b ≠ .nan)
    (h : a.number = b.number) : Double.eq a b = true := by
  cases a <;> cases b <;> simp_all [Double.eq, Double.number]

theorem Double.ne_eq_true_iff (a b : Double) (ha : a ≠ .nan) (hb : b ≠ .nan) :
    Double.ne a b = true ↔ a.number ≠ b.number := by
  cases a <;> cases b <;> simp_all [Double.ne, Double.eq, Double.number]

theorem Double.ne_eq_not_eq (a b : Double) : Double.ne a b = !Double.eq a b := rfl

theorem Double.ne_nan_left (b : Double) : Double.ne .nan b = true := by
  cases b <;> rfl

theorem Double.ne_nan_right (a : Double) : Double.ne a .nan = true := by
  cases a <;> rfl

theorem Double.ne_negZero (a : Double) : Double.ne a .negZero = Double.ne a (.finite 0) := by
  cases a <;> simp [Double.ne, Double.eq, Double.number]

theorem Double.fabs_ne_nan (e : Double) (he : e ≠ .nan) : Double.fabs e ≠ .nan := by
  cases e <;> simp_all [Double.fabs]

theorem Double.fabs_ne_negZero (e : Double) : Double.fabs e ≠ .negZero := by
  cases e <;> simp [Double.fabs]

theorem Double.number_fabs (e : Double) : (Double.fabs e).number = Double.fabs e := by
  cases e <;> simp [Double.fabs, Double.number]

theorem Double.number_of_ne_negZero (a : Double) (h : a ≠ .negZero) : a.number = a := by
  cases a <;> simp_all [Double.number]

theorem Double.fabs_neg (e : Double) : Double.fabs (Double.neg e) = Double.fabs e := by
  cases e with
  | finite q =>
    by_cases hq : q = 0
    · simp [Double.fabs, Double.neg, hq]
    · simp [Double.fabs, Double.neg, hq]
  | negZero => simp [Double.fabs, Double.neg]
  | posInf => simp [Double.fabs, Double.neg]
  | negInf => simp [Double.fabs, Double.neg]
  | nan => simp [Double.fabs, Double.neg]

theorem Double.neg_ne_negZero (e : Double) (he : e ≠ .finite 0) :
    Double.neg e ≠ .negZero := by
  cases e with
  | finite q =>
    have hq : q ≠ 0 := fun h => he (by rw [h])
    simp [Double.neg, hq]
  | negZero => simp [Double.neg]
  | posInf => simp [Double.neg]
  | negInf => simp [Double.neg]
  | nan => simp [Double.neg]

theorem Double.zero_le_fabs (e : Double) (he : e ≠ .nan) :
    Double.le (.finite 0) (Double.fabs e) = true := by
  cases e with
  | finite q =>
    simp only [Double.le, Double.lt, Double.eq, Double.number, Double.fabs, Bool.or_eq_true,
      decide_eq_true_eq]
    rcases (abs_nonneg q).lt_or_eq with h | h
    · exact Or.inl h
    · exact Or.inr (by rw [← h])
  | negZero => simp [Double.le, Double.lt, Double.eq, Double.number, Double.fabs]
  | posInf => rfl
  | negInf => rfl
  | nan => exact absurd rfl he

theorem Double.zero_le_number (x : Double) :
    Double.le (.finite 0) x = Double.le (.finite 0) x.number := by
  cases x <;> simp [Double.le, Double.lt, Double.eq, Double.number]

theorem SetCompareVolumeGeometryEpsilon_eq (epsilon : Double) (l : vtkSlicerVolumesLogic)
    (he : epsilon ≠ .negZero) :
    SetCompareVolumeGeometryEpsilon epsilon l =
      if Double.ne l.CompareVolumeGeometryEpsilon (Double.fabs epsilon) = true then
        { l with
          CompareVolumeGeometryEpsilon := Double.fabs epsilon
          CompareVolumeGeometryPrecision := significantDecimals (Double.fabs epsilon) (-1)
          Trace := l.Trace ++ [Action.Modified] }
      else l := by
  unfold SetCompareVolumeGeometryEpsilon
  simp only [Double.fabs_of_lt_zero epsilon he]

theorem SetCompareVolumeGeometryEpsilon_negZero (l : vtkSlicerVolumesLogic) :
    SetCompareVolumeGeometryEpsilon .negZero l =
      if Double.ne l.CompareVolumeGeometryEpsilon (.finite 0) = true then
        { l with
          CompareVolumeGeometryEpsilon := .negZero
          CompareVolumeGeometryPrecision := 0
          Trace := l.Trace ++ [Action.Modified] }
      else l := by
  unfold SetCompareVolumeGeometryEpsilon
  simp only [Double.negZero_not_lt_zero, Double.ne_negZero]
  rfl

theorem SetCompareVolumeGeometryEpsilon_changed (epsilon : Double)
    (l : vtkSlicerVolumesLogic) (he : epsilon ≠ .negZero)
    (h : Double.ne l.CompareVolumeGeometryEpsilon (Double.fabs epsilon) = true) :
    SetCompareVolumeGeometryEpsilon epsilon l =
      { l with
        CompareVolumeGeometryEpsilon := Double.fabs epsilon
        CompareVolumeGeometryPrecision := significantDecimals (Double.fabs epsilon) (-1)
        Trace := l.Trace ++ [Action.Modified] } := by
  rw [SetCompareVolumeGeometryEpsilon_eq epsilon l he, if_pos h]

theorem SetCompareVolumeGeometryEpsilon_unchanged (epsilon : Double)
    (l : vtkSlicerVolumesLogic) (he : epsilon ≠ .negZero)
    (h : Double.ne l.CompareVolumeGeometryEpsilon (Double.fabs epsilon) = false) :
    SetCompareVolumeGeometryEpsilon epsilon l = l := by
  rw [SetCompareVolumeGeometryEpsilon_eq epsilon l he, if_neg (by rw [h]; decide)]

/-- What a call stores, whatever the argument: the number of the stored epsilon is the
absolute value of the argument. -/
theorem SetCompareVolumeGeometryEpsilon_number (e : Double) (l : vtkSlicerVolumesLogic)
    (he : e ≠ .nan) :
    (SetCompareVolumeGeometryEpsilon e l).CompareVolumeGeometryEpsilon.number =
      Double.fabs e := by
  by_cases hz : e = .negZero
  · subst hz
    rw [SetCompareVolumeGeometryEpsilon_negZero]
    split_ifs with h
    · rfl
    · have h2 : Double.eq l.CompareVolumeGeometryEpsilon (.finite 0) = true := by
        rw [Double.ne_eq_not_eq] at h
        simpa using h
      exact Double.number_eq_of_eq _ _ h2
  · rw [SetCompareVolumeGeometryEpsilon_eq e l hz]
    split_ifs with h
    · exact Double.number_fabs e
    · have h2 : Double.eq l.CompareVolumeGeometryEpsilon (Double.fabs e) = true := by
        rw [Double.ne_eq_not_eq] at h
        simpa using h
      rw [Double.number_eq_of_eq _ _ h2, Double.number_fabs]

/-- C18, as stated, fails for NaN and for the zeros. On a logic whose stored epsilon is NaN
(the state left by a first call with NaN), a second call with NaN finds the stored epsilon
identical to the absolute value of its argument and still writes the fields (the precision
is -1) and raises `Modified`; and the epsilon it stores does not compare equal to the
absolute value of the argument. And `0.0` and `-0.0` do not give the same state: the test
`positiveEpsilon < 0.0` lets `-0.0` through, so each call stores the zero it was given. -/
theorem SetCompareVolumeGeometryEpsilon_nan :
    (SetCompareVolumeGeometryEpsilon .nan exampleVolumesLogic).CompareVolumeGeometryEpsilon =
        Double.fabs .nan ∧
      SetCompareVolumeGeometryEpsilon .nan
          (SetCompareVolumeGeometryEpsilon .nan exampleVolumesLogic) ≠
        SetCompareVolumeGeometryEpsilon .nan exampleVolumesLogic ∧
      (SetCompareVolumeGeometryEpsilon .nan
          (SetCompareVolumeGeometryEpsilon .nan exampleVolumesLogic)).Trace =
        (SetCompareVolumeGeometryEpsilon .nan exampleVolumesLogic).Trace ++
          [Action.Modified] ∧
      (SetCompareVolumeGeometryEpsilon .nan
          (SetCompareVolumeGeometryEpsilon .nan
            exampleVolumesLogic)).CompareVolumeGeometryPrecision = -1 ∧
      Double.eq
        (SetCompareVolumeGeometryEpsilon .nan exampleVolumesLogic).CompareVolumeGeometryEpsilon
        (Double.fabs .nan) = false ∧
      (SetCompareVolumeGeometryEpsilon (.finite 0)
        exampleVolumesLogic).CompareVolumeGeometryEpsilon = .finite 0 ∧
      (SetCompareVolumeGeometryEpsilon (Double.neg (.finite 0))
        exampleVolumesLogic).CompareVolumeGeometryEpsilon = .negZero ∧
      SetCompareVolumeGeometryEpsilon (Double.neg (.finite 0)) exampleVolumesLogic ≠
        SetCompareVolumeGeometryEpsilon (.finite 0) exampleVolumesLogic := by
  have hne : Double.ne exampleVolumesLogic.CompareVolumeGeometryEpsilon (.finite 0) = true := by
    have heps : exampleVolumesLogic.CompareVolumeGeometryEpsilon = .finite (1 / 1000000) := rfl
    rw [heps]
    simp [Double.ne, Double.eq, Double.number]
  have hzero : (SetCompareVolumeGeometryEpsilon (.finite 0)
      exampleVolumesLogic).CompareVolumeGeometryEpsilon = .finite 0 := by
    rw [SetCompareVolumeGeometryEpsilon_changed (.finite 0) exampleVolumesLogic
      (fun h => Double.noConfusion h) (by simpa [Double.fabs] using hne)]
    simp [Double.fabs]
  have hneg : (SetCompareVolumeGeometryEpsilon (Double.neg (.finite 0))
      exampleVolumesLogic).CompareVolumeGeometryEpsilon = .negZero := by
    have hn : Double.neg (.finite 0) = .negZero := by simp [Double.neg]
    rw [hn, SetCompareVolumeGeometryEpsilon_negZero, if_pos hne]
  refine ⟨rfl, ?_, rfl, rfl, rfl, hzero, hneg, ?_⟩
  · intro h
    have h2 := congrArg (fun l => l.Trace.length) h
    revert h2
    decide
  · intro h
    have h2 := congrArg (fun l => l.CompareVolumeGeometryEpsilon) h
    simp only [hzero, hneg] at h2
    exact Double.noConfusion h2

/-- C18, amended. For every `e` other than NaN, `SetCompareVolumeGeometryEpsilon e` stores
the absolute value of `e`: afterwards the stored epsilon compares equal to `|e|` (and is
`|e|` itself unless `e` or the epsilon stored before is the negative zero) and is not below
zero; if the epsilon stored before does not compare equal to `|e|`, the call stores `|e|`
(the negative zero itself for `e = -0.0`), sets the cached precision to
`significantDecimals |e|`, raises one `Modified` and writes no other field; for `e` other
than the two zeros, `e` and `-e` give the same state; and a call made when the stored
epsilon compares equal to `|e|` changes nothing. With NaN every call stores NaN, sets the
precision to -1 and raises `Modified`. On a stored epsilon that is not zero, `0.0` stores
the positive and `-0.0` the negative zero. -/
theorem SetCompareVolumeGeometryEpsilon_stores_abs (e : Double)
    (l : vtkSlicerVolumesLogic) (he : e ≠ .nan) :
    Double.eq (SetCompareVolumeGeometryEpsilon e l).CompareVolumeGeometryEpsilon
        (Double.fabs e) = true ∧
      (e ≠ .negZero → l.CompareVolumeGeometryEpsilon ≠ .negZero →
        (SetCompareVolumeGeometryEpsilon e l).CompareVolumeGeometryEpsilon = Double.fabs e) ∧
      Double.le (.finite 0)
        (SetCompareVolumeGeometryEpsilon e l).CompareVolumeGeometryEpsilon = true ∧
      (Double.eq l.CompareVolumeGeometryEpsilon (Double.fabs e) = false →
        SetCompareVolumeGeometryEpsilon e l =
          { l with
            CompareVolumeGeometryEpsilon := if e = .negZero then .negZero else Double.fabs e
            CompareVolumeGeometryPrecision := significantDecimals (Double.fabs e) (-1)
            Trace := l.Trace ++ [Action.Modified] }) ∧
      (e ≠ .finite 0 → e ≠ .negZero →
        SetCompareVolumeGeometryEpsilon (Double.neg e) l =
          SetCompareVolumeGeometryEpsilon e l) ∧
      (Double.eq l.CompareVolumeGeometryEpsilon (Double.fabs e) = true →
        SetCompareVolumeGeometryEpsilon e l = l) ∧
      SetCompareVolumeGeometryEpsilon .nan l =
        { l with
          CompareVolumeGeometryEpsilon := .nan
          CompareVolumeGeometryPrecision := -1
          Trace := l.Trace ++ [Action.Modified] } ∧
      (Double.eq l.CompareVolumeGeometryEpsilon (.finite 0) = false →
        (SetCompareVolumeGeometryEpsilon (.finite 0) l).CompareVolumeGeometryEpsilon =
          .finite 0 ∧
        (SetCompareVolumeGeometryEpsilon (Double.neg (.finite 0))
          l).CompareVolumeGeometryEpsilon = .negZero) := by
  have hfabs := Double.fabs_ne_nan e he
  have hnum := SetCompareVolumeGeometryEpsilon_number e l he
  have hstored_ne : (SetCompareVolumeGeometryEpsilon e l).CompareVolumeGeometryEpsilon ≠
      .nan := by
    intro h
    rw [h] at hnum
    exact hfabs hnum.symm
  have hne_of : ∀ x : Double, Double.eq l.CompareVolumeGeometryEpsilon x = false →
      Double.ne l.CompareVolumeGeometryEpsilon x = true := by
    intro x hx
    rw [Double.ne_eq_not_eq, hx]
    rfl
  have heq_of : ∀ x : Double, Double.eq l.CompareVolumeGeometryEpsilon x = true →
      Double.ne l.CompareVolumeGeometryEpsilon x = false := by
    intro x hx
    rw [Double.ne_eq_not_eq, hx]
    rfl
  refine ⟨?_, ?_, ?_, ?_, ?_, ?_, ?_, ?_⟩
  · exact Double.eq_of_number_eq _ _ hstored_ne hfabs (by rw [hnum, Double.number_fabs])
  · intro hz hl
    rw [SetCompareVolumeGeometryEpsilon_eq e l hz]
    split_ifs with h
    · rfl
    · have h2 : Double.eq l.CompareVolumeGeometryEpsilon (Double.fabs e) = true := by
        rw [Double.ne_eq_not_eq] at h
        simpa using h
      have h3 := Double.number_eq_of_eq _ _ h2
      rw [Double.number_fabs, Double.number_of_ne_negZero _ hl] at h3
      exact h3
  · rw [Double.zero_le_number, hnum]
    exact Double.zero_le_fabs e he
  · intro hdiff
    by_cases hz : e = .negZero
    · subst hz
      rw [SetCompareVolumeGeometryEpsilon_negZero, if_pos (hne_of (.finite 0) hdiff)]
      rfl
    · rw [SetCompareVolumeGeometryEpsilon_changed e l hz (hne_of _ hdiff), if_neg hz]
  · intro h0 hz
    rw [SetCompareVolumeGeometryEpsilon_eq (Double.neg e) l (Double.neg_ne_negZero e h0),
      SetCompareVolumeGeometryEpsilon_eq e l hz, Double.fabs_neg]
  · intro hsame
    by_cases hz : e = .negZero
    · subst hz
      rw [SetCompareVolumeGeometryEpsilon_negZero,
        if_neg (by rw [heq_of (.finite 0) hsame]; decide)]
    · exact SetCompareVolumeGeometryEpsilon_unchanged e l hz (heq_of _ hsame)
  · rw [SetCompareVolumeGeometryEpsilon_changed .nan l (fun h => Double.noConfusion h)
      (Double.ne_nan_right _)]
    rfl
  · intro hdiff
    constructor
    · rw [SetCompareVolumeGeometryEpsilon_changed (.finite 0) l
        (fun h => Double.noConfusion h) (by simpa [Double.fabs] using hne_of _ hdiff)]
      simp [Double.fabs]
    · have hn : Double.neg (.finite 0) = .negZero := by simp [Double.neg]
      rw [hn, SetCompareVolumeGeometryEpsilon_negZero, if_pos (hne_of _ hdiff)]

theorem SetCompareVolumeGeometryEpsilon_stores_abs_witness :
    (Double.finite (-1 / 1000) ≠ Double.nan) ∧
      (SetCompareVolumeGeometryEpsilon (.finite (-1 / 1000))
        exampleVolumesLogic).CompareVolumeGeometryEpsilon =
        Double.fabs (.finite (-1 / 1000)) ∧
      SetCompareVolumeGeometryEpsilon .nan exampleVolumesLogic =
        { exampleVolumesLogic with
          CompareVolumeGeometryEpsilon := .nan
          CompareVolumeGeometryPrecision := -1
          Trace := exampleVolumesLogic.Trace ++ [Action.Modified] } :=
  ⟨fun h => Double.noConfusion h,
    (SetCompareVolumeGeometryEpsilon_stores_abs (.finite (-1 / 1000)) exampleVolumesLogic
      (fun h => Double.noConfusion h)).2.1 (fun h => Double.noConfusion h)
      (fun h => Double.noConfusion h),
    (SetCompareVolumeGeometryEpsilon_stores_abs (.finite (-1 / 1000)) exampleVolumesLogic
      (fun h => Double.noConfusion h)).2.2.2.2.2.2.1⟩

/-! ## Volumes logic: the report of the geometry comparison -/

theorem append_eq_empty (s t : String) : s ++ t = "" ↔ s = "" ∧ t = "" := by
  constructor
  · intro h
    have hd := congrArg String.data h
    rw [String.data_append] at hd
    have hd2 := List.append_eq_nil.mp hd
    exact ⟨String.ext hd2.1, String.ext hd2.2⟩
  · rintro ⟨rfl, rfl⟩
    rfl

theorem concat_nil : concat [] = "" := rfl

theorem concat_cons (p : String) (ps : List String) : concat (p :: ps) = p ++ concat ps := rfl

theorem concat_eq_empty (ps : List String) : concat ps = "" ↔ ∀ p, p ∈ ps → p = "" := by
  induction ps with
  | nil => simp [concat_nil]
  | cons p ps ih =>
    rw [concat_cons, append_eq_empty, ih]
    simp

theorem concat_split (ps : List String) (p : String) (h : p ∈ ps) :
    ∃ before after, concat ps = before ++ p ++ after := by
  induction ps with
  | nil => cases h
  | cons q qs ih =>
    rcases List.mem_cons.mp h with rfl | hmem
    · exact ⟨"", concat qs, by rw [concat_cons, String.empty_append]⟩
    · obtain ⟨before, after, heq⟩ := ih hmem
      exact ⟨q ++ before, after, by
        rw [concat_cons, heq, String.append_assoc, String.append_assoc, String.append_assoc]⟩

theorem Double.le_finite (a b : ℚ) :
    Double.le (.finite a) (.finite b) = true ↔ a ≤ b := by
  simp only [Double.le, Double.lt, Double.eq, Double.number, Bool.or_eq_true,
    decide_eq_true_eq]
  constructor
  · rintro (h | h)
    · exact le_of_lt h
    · injection h with h; exact le_of_eq h
  · intro h
    rcases h.lt_or_eq with h | h
    · exact Or.inl h
    · exact Or.inr (by rw [h])

theorem rowMismatch_eq_empty (print : Int → Double → String) (l : vtkSlicerVolumesLogic)
    (label : String) (row : Fin 3) (v1 v2 : ℚ) (hlabel : label ≠ "") :
    rowMismatch print l label row v1 v2 = "" ↔ v1 = v2 := by
  unfold rowMismatch
  constructor
  · intro h
    by_contra hne
    rw [if_pos hne] at h
    simp only [String.append_assoc] at h
    exact hlabel ((append_eq_empty _ _).mp h).1
  · intro h
    rw [if_neg (not_not.mpr h)]

theorem cellMismatch_eq_empty (print : Int → Double → String) (l : vtkSlicerVolumesLogic)
    (row column : Fin 4) (v1 v2 : ℚ) :
    cellMismatch print l row column v1 v2 = "" ↔
      FuzzyCompare v1 v2 l.CompareVolumeGeometryEpsilon = true := by
  unfold cellMismatch
  constructor
  · intro h
    by_contra hne
    rw [if_pos (by simpa using hne)] at h
    simp only [String.append_assoc] at h
    have h2 := ((append_eq_empty _ _).mp h).1
    exact absurd h2 (by decide)
  · intro h
    rw [if_neg (by rw [h]; decide)]

theorem spacingAdvisory_eq_empty (print : Int → Double → String) (l : vtkSlicerVolumesLogic)
    (m : ℚ) :
    spacingAdvisory print l m = "" ↔
      3 ≤ toInt32 (orderOfMagnitude (.finite m) -
          orderOfMagnitude l.CompareVolumeGeometryEpsilon) ∧
        toInt32 (orderOfMagnitude (.finite m) -
          orderOfMagnitude l.CompareVolumeGeometryEpsilon) ≤ 10 := by
  unfold spacingAdvisory
  simp only
  constructor
  · intro h
    by_contra hne
    rw [if_pos (by omega)] at h
    simp only [String.append_assoc] at h
    have h2 := ((append_eq_empty _ _).mp h).1
    exact absurd h2 (by decide)
  · intro h
    rw [if_neg (by omega)]

/-- The report for two nodes that both have image data. -/
theorem CompareVolumeGeometry_images (print : Int → Double → String)
    (l : vtkSlicerVolumesLogic) (n1 n2 : vtkMRMLVolumeNode) (im1 im2 : vtkImageData)
    (h1 : n1.ImageData = some im1) (h2 : n2.ImageData = some im2) :
    CompareVolumeGeometry print l (some n1) (some n2) =
      spacingAdvisory print l (minSpacing n1.Spacing n2.Spacing) ++
      concat ((List.finRange 3).map (fun row =>
        rowMismatch print l "Dimension mismatch at row [" row
          (im1.Dimensions row) (im2.Dimensions row) ++
        rowMismatch print l "Spacing mismatch at row [" row
          (im1.Spacing row) (im2.Spacing row) ++
        rowMismatch print l "Origin mismatch at row [" row
          (im1.Origin row) (im2.Origin row))) ++
      concat ((List.finRange 4).map (fun row =>
        concat ((List.finRange 4).map (fun column =>
          cellMismatch print l row column
            (n1.IJKToRASMatrix row column) (n2.IJKToRASMatrix row column))))) := by
  simp only [CompareVolumeGeometry, h1, h2]

theorem CompareVolumeGeometry_eq_empty (print : Int → Double → String)
    (l : vtkSlicerVolumesLogic) (n1 n2 : vtkMRMLVolumeNode) (im1 im2 : vtkImageData)
    (h1 : n1.ImageData = some im1) (h2 : n2.ImageData = some im2) :
    CompareVolumeGeometry print l (some n1) (some n2) = "" ↔
      (3 ≤ toInt32 (orderOfMagnitude (.finite (minSpacing n1.Spacing n2.Spacing)) -
          orderOfMagnitude l.CompareVolumeGeometryEpsilon) ∧
        toInt32 (orderOfMagnitude (.finite (minSpacing n1.Spacing n2.Spacing)) -
          orderOfMagnitude l.CompareVolumeGeometryEpsilon) ≤ 10) ∧
      (∀ row, im1.Dimensions row = im2.Dimensions row ∧ im1.Spacing row = im2.Spacing row ∧
        im1.Origin row = im2.Origin row) ∧
      ∀ row column, FuzzyCompare (n1.IJKToRASMatrix row column)
        (n2.IJKToRASMatrix row column) l.CompareVolumeGeometryEpsilon = true := by
  rw [CompareVolumeGeometry_images print l n1 n2 im1 im2 h1 h2]
  rw [append_eq_empty, append_eq_empty, spacingAdvisory_eq_empty, concat_eq_empty,
    concat_eq_empty]
  simp only [List.mem_map, List.mem_finRange, true_and, forall_exists_index,
    forall_apply_eq_imp_iff, append_eq_empty, concat_eq_empty, and_assoc]
  simp only [rowMismatch_eq_empty _ _ _ _ _ _ (by decide : "Dimension mismatch at row [" ≠ ""),
    rowMismatch_eq_empty _ _ _ _ _ _ (by decide : "Spacing mismatch at row [" ≠ ""),
    rowMismatch_eq_empty _ _ _ _ _ _ (by decide : "Origin mismatch at row [" ≠ ""),
    cellMismatch_eq_empty, Int.cast_inj]


theorem orderOfMagnitude_finite (q : ℚ) (h : epsilon ≤ |q|) :
    -16 ≤ orderOfMagnitude (.finite q) ∧
      (1 ≤ |q| → (10 : ℚ) ^ orderOfMagnitude (.finite q) ≤ |q| ∧
        |q| < (10 : ℚ) ^ (orderOfMagnitude (.finite q) + 1)) ∧
      (|q| < 1 → (10 : ℚ) ^ orderOfMagnitude (.finite q) - epsilon ≤ |q| ∧
        |q| < (10 : ℚ) ^ (orderOfMagnitude (.finite q) + 1) - epsilon) := by
  obtain ⟨e, he, hup, hdown, hfuel⟩ := orderOfMagnitudeWithin_finite q h
  have heq : orderOfMagnitude (.finite q) = e := by
    unfold orderOfMagnitude
    rw [hfuel _ (le_refl _)]
    rfl
  rw [heq]
  exact ⟨he, hup, hdown⟩

theorem orderOfMagnitude_range (m : ℚ) (h1 : 1 / 1000 ≤ m) (h2 : m < 100000) :
    -3 ≤ orderOfMagnitude (.finite m) ∧ orderOfMagnitude (.finite m) ≤ 4 := by
  have hpos : 0 < m := by linarith
  have habs : |m| = m := abs_of_pos hpos
  have hε : epsilon ≤ |m| := by
    rw [habs]; unfold epsilon; norm_num; linarith
  have hεpos := epsilon_pos
  have hε1 : epsilon < 1 := by unfold epsilon; norm_num
  obtain ⟨_, hup, hdown⟩ := orderOfMagnitude_finite m hε
  rw [habs] at hup hdown
  have h10 : (1 : ℚ) < 10 := by norm_num
  by_cases hm : 1 ≤ m
  · obtain ⟨hlo, hhi⟩ := hup hm
    constructor
    · by_contra hc
      have hle : (10 : ℚ) ^ (orderOfMagnitude (.finite m) + 1) ≤ (10 : ℚ) ^ (0 : Int) :=
        zpow_le_zpow_right₀ (le_of_lt h10) (by omega)
      rw [zpow_zero] at hle
      linarith
    · by_contra hc
      have hle : (10 : ℚ) ^ (5 : Int) ≤ (10 : ℚ) ^ orderOfMagnitude (.finite m) :=
        zpow_le_zpow_right₀ (le_of_lt h10) (by omega)
      have h5 : (10 : ℚ) ^ (5 : Int) = 100000 := by norm_num
      rw [h5] at hle
      linarith
  · obtain ⟨hlo, hhi⟩ := hdown (not_le.mp hm)
    constructor
    · by_contra hc
      have hle : (10 : ℚ) ^ (orderOfMagnitude (.finite m) + 1) ≤ (10 : ℚ) ^ (-3 : Int) :=
        zpow_le_zpow_right₀ (le_of_lt h10) (by omega)
      have h3 : (10 : ℚ) ^ (-3 : Int) = 1 / 1000 := by norm_num
      rw [h3] at hle
      linarith
    · by_contra hc
      have hle : (10 : ℚ) ^ (1 : Int) ≤ (10 : ℚ) ^ orderOfMagnitude (.finite m) :=
        zpow_le_zpow_right₀ (le_of_lt h10) (by omega)
      rw [zpow_one] at hle
      linarith [not_le.mp hm]

theorem toInt32_eq (n : Int) (h1 : -2147483648 ≤ n) (h2 : n < 2147483648) : toInt32 n = n := by
  unfold toInt32
  omega

theorem FuzzyCompare_finite (a b e : ℚ) :
    FuzzyCompare a b (.finite e) = true ↔ |a - b| ≤ e := by
  unfold FuzzyCompare
  exact Double.le_finite _ _

theorem minSpacing_example :
    minSpacing exampleVolumeNode.Spacing exampleVolumeNode.Spacing = 2 := by
  simp [minSpacing, exampleVolumeNode]

theorem minSpacing_fine :
    minSpacing fineVolumeNode.Spacing fineVolumeNode.Spacing = 1 / 10000 := by
  simp [minSpacing, fineVolumeNode]

theorem orderOfMagnitude_two : orderOfMagnitude (.finite 2) = 0 :=
  orderOfMagnitude_eq_of_within _ _ 2
    (by norm_num [orderOfMagnitudeWithin, magnitudeLoop, epsilon]) (by norm_num)

theorem orderOfMagnitude_fine : orderOfMagnitude (.finite (1 / 10000)) = -4 :=
  orderOfMagnitude_eq_of_within _ _ 5
    (by norm_num [orderOfMagnitudeWithin, magnitudeLoop, epsilon, abs_of_pos]) (by norm_num)

/-- Two copies of the example node compare equal at the epsilon of the constructor. -/
theorem CompareVolumeGeometry_example :
    CompareVolumeGeometry examplePrint exampleVolumesLogic (some exampleVolumeNode)
      (some exampleVolumeNode) = "" := by
  rw [CompareVolumeGeometry_eq_empty examplePrint exampleVolumesLogic exampleVolumeNode
    exampleVolumeNode _ _ rfl rfl]
  rw [minSpacing_example, orderOfMagnitude_two]
  have heps : exampleVolumesLogic.CompareVolumeGeometryEpsilon = .finite (1 / 1000000) := rfl
  rw [heps, orderOfMagnitude_millionth]
  refine ⟨by decide, fun _ => ⟨rfl, rfl, rfl⟩, fun row column => ?_⟩
  rw [FuzzyCompare_finite]
  norm_num

theorem cellMismatch_line (print : Int → Double → String) (l : vtkSlicerVolumesLogic)
    (row column : Fin 4) (v1 v2 : ℚ)
    (h : FuzzyCompare v1 v2 l.CompareVolumeGeometryEpsilon = false) :
    cellMismatch print l row column v1 v2 =
      "IJKToRAS mismatch at [" ++ toString row.val ++ ", " ++ toString column.val ++ "] (" ++
        print l.CompareVolumeGeometryPrecision (.finite v1) ++ " != " ++
        print l.CompareVolumeGeometryPrecision (.finite v2) ++ ")\n" := by
  unfold cellMismatch
  rw [if_pos h]

theorem append_split (advisory rows b2 b1 line a1 a2 : String) :
    advisory ++ rows ++ (b2 ++ (b1 ++ line ++ a1) ++ a2) =
      (advisory ++ rows ++ b2 ++ b1) ++ line ++ (a1 ++ a2) := by
  simp only [String.append_assoc]

/-- A cell that fails the fuzzy comparison has its line in the report. -/
theorem CompareVolumeGeometry_cell (print : Int → Double → String)
    (l : vtkSlicerVolumesLogic) (n1 n2 : vtkMRMLVolumeNode) (im1 im2 : vtkImageData)
    (h1 : n1.ImageData = some im1) (h2 : n2.ImageData = some im2) (row column : Fin 4)
    (h : FuzzyCompare (n1.IJKToRASMatrix row column) (n2.IJKToRASMatrix row column)
      l.CompareVolumeGeometryEpsilon = false) :
    ∃ before after, CompareVolumeGeometry print l (some n1) (some n2) =
      before ++
        ("IJKToRAS mismatch at [" ++ toString row.val ++ ", " ++ toString column.val ++
          "] (" ++
          print l.CompareVolumeGeometryPrecision (.finite (n1.IJKToRASMatrix row column)) ++
          " != " ++
          print l.CompareVolumeGeometryPrecision (.finite (n2.IJKToRASMatrix row column)) ++
          ")\n") ++ after := by
  rw [CompareVolumeGeometry_images print l n1 n2 im1 im2 h1 h2]
  obtain ⟨b1, a1, hinner⟩ := concat_split
    ((List.finRange 4).map (fun column =>
      cellMismatch print l row column (n1.IJKToRASMatrix row column)
        (n2.IJKToRASMatrix row column)))
    (cellMismatch print l row column (n1.IJKToRASMatrix row column)
      (n2.IJKToRASMatrix row column))
    (List.mem_map.mpr ⟨column, List.mem_finRange column, rfl⟩)
  obtain ⟨b2, a2, houter⟩ := concat_split
    ((List.finRange 4).map (fun row =>
      concat ((List.finRange 4).map (fun column =>
        cellMismatch print l row column (n1.IJKToRASMatrix row column)
          (n2.IJKToRASMatrix row column)))))
    (concat ((List.finRange 4).map (fun column =>
      cellMismatch print l row column (n1.IJKToRASMatrix row column)
        (n2.IJKToRASMatrix row column))))
    (List.mem_map.mpr ⟨row, List.mem_finRange row, rfl⟩)
  rw [houter, hinner, cellMismatch_line print l row column _ _ h]
  exact ⟨_, _, append_split _ _ b2 b1 _ a1 a2⟩

theorem ne_empty_of_split (report before line after : String)
    (h : report = before ++ line ++ after) (hline : line ≠ "") : report ≠ "" := by
  intro he
  rw [he] at h
  have h2 := (append_eq_empty _ _).mp h.symm
  exact hline ((append_eq_empty _ _).mp h2.1).2

theorem spacingAdvisory_text (print : Int → Double → String) (l : vtkSlicerVolumesLogic)
    (m : ℚ)
    (h : toInt32 (orderOfMagnitude (.finite m) -
          orderOfMagnitude l.CompareVolumeGeometryEpsilon) < 3 ∨
        toInt32 (orderOfMagnitude (.finite m) -
          orderOfMagnitude l.CompareVolumeGeometryEpsilon) > 10) :
    spacingAdvisory print l m =
      "(Minimum spacing for volumes of " ++
        print l.CompareVolumeGeometryPrecision (.finite m) ++
        " mismatched with epsilon " ++
        print l.CompareVolumeGeometryPrecision l.CompareVolumeGeometryEpsilon ++
        ",\ngeometry comparison may not be useful.\nTry resetting the Volumes module logic compare volume geometry epsilon variable.)\n" := by
  unfold spacingAdvisory
  simp only
  rw [if_pos h]

/-- A report that starts with a text that is not empty is not empty. -/
theorem ne_empty_of_start (report text rest : String) (h : report = text ++ rest)
    (htext : text ≠ "") : report ≠ "" := by
  intro he
  rw [he] at h
  exact htext ((append_eq_empty _ _).mp h.symm).1

theorem orderOfMagnitude_small (m : ℚ) (h : |m| < 1 / 1000 - epsilon) :
    orderOfMagnitude (.finite m) = INT_MIN ∨
      (-16 ≤ orderOfMagnitude (.finite m) ∧ orderOfMagnitude (.finite m) ≤ -4) := by
  by_cases hq : |m| = 0 ∨ |m| < epsilon
  · left
    simp only [orderOfMagnitude, orderOfMagnitudeWithin, if_pos hq, Option.getD_some]
  · right
    have hε : epsilon ≤ |m| := not_lt.mp (fun h => hq (Or.inr h))
    have hεpos := epsilon_pos
    obtain ⟨h16, _, hdown⟩ := orderOfMagnitude_finite m hε
    have h1 : |m| < 1 := by linarith
    obtain ⟨hlo, _⟩ := hdown h1
    refine ⟨h16, ?_⟩
    by_contra hc
    have hle : (10 : ℚ) ^ (-3 : Int) ≤ (10 : ℚ) ^ orderOfMagnitude (.finite m) :=
      zpow_le_zpow_right₀ (by norm_num) (by omega)
    have h3 : (10 : ℚ) ^ (-3 : Int) = 1 / 1000 := by norm_num
    rw [h3] at hle
    linarith

theorem orderOfMagnitude_large (m : ℚ) (h1 : 100000 ≤ |m|) (h2 : |m| < 10 ^ 308) :
    5 ≤ orderOfMagnitude (.finite m) ∧ orderOfMagnitude (.finite m) ≤ 307 := by
  have hε : epsilon ≤ |m| := by
    unfold epsilon; norm_num; linarith
  obtain ⟨_, hup, _⟩ := orderOfMagnitude_finite m hε
  obtain ⟨hlo, hhi⟩ := hup (by linarith)
  constructor
  · by_contra hc
    have hle : (10 : ℚ) ^ (orderOfMagnitude (.finite m) + 1) ≤ (10 : ℚ) ^ (5 : Int) :=
      zpow_le_zpow_right₀ (by norm_num) (by omega)
    have h5 : (10 : ℚ) ^ (5 : Int) = 100000 := by norm_num
    rw [h5] at hle
    linarith
  · by_contra hc
    have hle : (10 : ℚ) ^ (308 : Int) ≤ (10 : ℚ) ^ orderOfMagnitude (.finite m) :=
      zpow_le_zpow_right₀ (by norm_num) (by omega)
    have h308 : (10 : ℚ) ^ (308 : Int) = (10 : ℚ) ^ (308 : Nat) := by
      rw [← zpow_natCast]
      rfl
    rw [h308] at hle
    linarith

/-- The report for two nodes with image data starts with the advisory when the difference of
the orders of magnitude is below 3 or above 10. -/
theorem CompareVolumeGeometry_advisory (print : Int → Double → String)
    (l : vtkSlicerVolumesLogic) (n1 n2 : vtkMRMLVolumeNode) (im1 im2 : vtkImageData)
    (h1 : n1.ImageData = some im1) (h2 : n2.ImageData = some im2)
    (h : toInt32 (orderOfMagnitude (.finite (minSpacing n1.Spacing n2.Spacing)) -
          orderOfMagnitude l.CompareVolumeGeometryEpsilon) < 3 ∨
        toInt32 (orderOfMagnitude (.finite (minSpacing n1.Spacing n2.Spacing)) -
          orderOfMagnitude l.CompareVolumeGeometryEpsilon) > 10) :
    CompareVolumeGeometry print l (some n1) (some n2) ≠ "" ∧
    ∃ rest, CompareVolumeGeometry print l (some n1) (some n2) =
      ("(Minimum spacing for volumes of " ++
        print l.CompareVolumeGeometryPrecision
          (.finite (minSpacing n1.Spacing n2.Spacing)) ++
        " mismatched with epsilon " ++
        print l.CompareVolumeGeometryPrecision l.CompareVolumeGeometryEpsilon ++
        ",\ngeometry comparison may not be useful.\nTry resetting the Volumes module logic compare volume geometry epsilon variable.)\n") ++
        rest := by
  have hrep : ∃ rest, CompareVolumeGeometry print l (some n1) (some n2) =
      ("(Minimum spacing for volumes of " ++
        print l.CompareVolumeGeometryPrecision
          (.finite (minSpacing n1.Spacing n2.Spacing)) ++
        " mismatched with epsilon " ++
        print l.CompareVolumeGeometryPrecision l.CompareVolumeGeometryEpsilon ++
        ",\ngeometry comparison may not be useful.\nTry resetting the Volumes module logic compare volume geometry epsilon variable.)\n") ++
        rest := by
    rw [CompareVolumeGeometry_images print l n1 n2 im1 im2 h1 h2,
      spacingAdvisory_text print l _ h]
    exact ⟨_, String.append_assoc _ _ _⟩
  obtain ⟨rest, hrest⟩ := hrep
  refine ⟨ne_empty_of_start _ _ rest hrest ?_, rest, hrest⟩
  intro he
  simp only [String.append_assoc] at he
  exact absurd ((append_eq_empty _ _).mp he).1 (by decide)

/-! ## Volumes logic: the claims on the geometry comparison -/

/-- C16, as stated, fails when the spacing is out of scale with the epsilon: two copies of
a node with image data, whose spacing is 0.0001 in every direction, have identical
dimensions, spacing, origin and matrices, yet the report at epsilon 1e-6 is not empty (it
holds the advisory, the orders of magnitude being -4 and -6). -/
theorem CompareVolumeGeometry_fine_spacing :
    exampleVolumesLogic.CompareVolumeGeometryEpsilon = .finite (1 / 1000000) ∧
      fineVolumeNode.ImageData ≠ none ∧
      orderOfMagnitude (.finite (minSpacing fineVolumeNode.Spacing fineVolumeNode.Spacing)) =
        -4 ∧
      orderOfMagnitude exampleVolumesLogic.CompareVolumeGeometryEpsilon = -6 ∧
      CompareVolumeGeometry examplePrint exampleVolumesLogic (some fineVolumeNode)
        (some fineVolumeNode) ≠ "" := by
  have heps : exampleVolumesLogic.CompareVolumeGeometryEpsilon = .finite (1 / 1000000) := rfl
  refine ⟨rfl, fun h => Option.noConfusion h, ?_, ?_, ?_⟩
  · rw [minSpacing_fine, orderOfMagnitude_fine]
  · rw [heps, orderOfMagnitude_millionth]
  · intro h
    rw [CompareVolumeGeometry_eq_empty examplePrint exampleVolumesLogic fineVolumeNode
      fineVolumeNode _ _ rfl rfl] at h
    rw [minSpacing_fine, orderOfMagnitude_fine, heps, orderOfMagnitude_millionth] at h
    exact absurd h.1.1 (by decide)

/-- C16, amended: for two nodes with image data, at epsilon 1e-6 (order of magnitude -6):
if dimensions, image spacing and image origin are identical, the IJK-to-RAS matrices differ
by at most 1e-9 in every cell and the smallest spacing of the two nodes is at least 0.001
and below 100000, the report is the empty string; if some cell (r, c) of the matrices
differs by 1, the report is not empty and contains the line
`IJKToRAS mismatch at [r, c] (... != ...)`; and whatever the geometries, if the order of
magnitude of the smallest spacing minus that of the epsilon, as an `int`, is below 3 or
above 10, which it is when the absolute value of the smallest spacing is below
0.001 - 2^-52 or at least 100000 (and below 1e308), the report is not empty and starts with
the advisory `(Minimum spacing for volumes of ... mismatched with epsilon ...)`. -/
theorem CompareVolumeGeometry_accepts (print : Int → Double → String)
    (l : vtkSlicerVolumesLogic) (A B : vtkMRMLVolumeNode) (imageA imageB : vtkImageData)
    (hA : A.ImageData = some imageA) (hB : B.ImageData = some imageB)
    (heps : l.CompareVolumeGeometryEpsilon = .finite (1 / 1000000)) :
    ((∀ row, imageA.Dimensions row = imageB.Dimensions row ∧
        imageA.Spacing row = imageB.Spacing row ∧ imageA.Origin row = imageB.Origin row) →
      (∀ row column, |A.IJKToRASMatrix row column - B.IJKToRASMatrix row column| ≤
        1 / 1000000000) →
      1 / 1000 ≤ minSpacing A.Spacing B.Spacing →
      minSpacing A.Spacing B.Spacing < 100000 →
      CompareVolumeGeometry print l (some A) (some B) = "") ∧
    (∀ row column, |A.IJKToRASMatrix row column - B.IJKToRASMatrix row column| = 1 →
      CompareVolumeGeometry print l (some A) (some B) ≠ "" ∧
      ∃ before after, CompareVolumeGeometry print l (some A) (some B) =
        before ++
          ("IJKToRAS mismatch at [" ++ toString row.val ++ ", " ++ toString column.val ++
            "] (" ++
            print l.CompareVolumeGeometryPrecision (.finite (A.IJKToRASMatrix row column)) ++
            " != " ++
            print l.CompareVolumeGeometryPrecision (.finite (B.IJKToRASMatrix row column)) ++
            ")\n") ++ after) ∧
    orderOfMagnitude l.CompareVolumeGeometryEpsilon = -6 ∧
    ((toInt32 (orderOfMagnitude (.finite (minSpacing A.Spacing B.Spacing)) -
          orderOfMagnitude l.CompareVolumeGeometryEpsilon) < 3 ∨
        toInt32 (orderOfMagnitude (.finite (minSpacing A.Spacing B.Spacing)) -
          orderOfMagnitude l.CompareVolumeGeometryEpsilon) > 10 ∨
        |minSpacing A.Spacing B.Spacing| < 1 / 1000 - epsilon ∨
        (100000 ≤ |minSpacing A.Spacing B.Spacing| ∧
          |minSpacing A.Spacing B.Spacing| < 10 ^ 308)) →
      CompareVolumeGeometry print l (some A) (some B) ≠ "" ∧
      ∃ rest, CompareVolumeGeometry print l (some A) (some B) =
        ("(Minimum spacing for volumes of " ++
          print l.CompareVolumeGeometryPrecision
            (.finite (minSpacing A.Spacing B.Spacing)) ++
          " mismatched with epsilon " ++
          print l.CompareVolumeGeometryPrecision l.CompareVolumeGeometryEpsilon ++
          ",\ngeometry comparison may not be useful.\nTry resetting the Volumes module logic compare volume geometry epsilon variable.)\n") ++
          rest) := by
  have hord : orderOfMagnitude l.CompareVolumeGeometryEpsilon = -6 := by
    rw [heps, orderOfMagnitude_millionth]
  refine ⟨?_, ?_, hord, ?_⟩
  · intro hsame hcells hlow hhigh
    rw [CompareVolumeGeometry_eq_empty print l A B imageA imageB hA hB, heps,
      orderOfMagnitude_millionth]
    obtain ⟨h3, h4⟩ := orderOfMagnitude_range _ hlow hhigh
    refine ⟨?_, hsame, fun row column => ?_⟩
    · rw [toInt32_eq _ (by omega) (by omega)]
      omega
    · rw [FuzzyCompare_finite]
      exact le_trans (hcells row column) (by norm_num)
  · intro row column hdiff
    have hfuzzy : FuzzyCompare (A.IJKToRASMatrix row column) (B.IJKToRASMatrix row column)
        l.CompareVolumeGeometryEpsilon = false := by
      cases hb : FuzzyCompare (A.IJKToRASMatrix row column) (B.IJKToRASMatrix row column)
        l.CompareVolumeGeometryEpsilon with
      | false => rfl
      | true =>
        rw [heps, FuzzyCompare_finite, hdiff] at hb
        norm_num at hb
    obtain ⟨before, after, hsplit⟩ :=
      CompareVolumeGeometry_cell print l A B imageA imageB hA hB row column hfuzzy
    refine ⟨ne_empty_of_split _ _ _ _ hsplit ?_, before, after, hsplit⟩
    intro he
    simp only [String.append_assoc] at he
    exact absurd ((append_eq_empty _ _).mp he).1 (by decide)
  · intro hcond
    apply CompareVolumeGeometry_advisory print l A B imageA imageB hA hB
    rcases hcond with h | h | h | ⟨h1, h2⟩
    · exact Or.inl h
    · exact Or.inr h
    · left
      rw [hord]
      rcases orderOfMagnitude_small _ h with h0 | ⟨h16, h4⟩
      · rw [h0]
        decide
      · rw [toInt32_eq _ (by omega) (by omega)]
        omega
    · right
      rw [hord]
      obtain ⟨h5, h307⟩ := orderOfMagnitude_large _ h1 h2
      rw [toInt32_eq _ (by omega) (by omega)]
      omega

theorem CompareVolumeGeometry_accepts_witness :
    exampleVolumeNode.ImageData =
        some { Dimensions := fun _ => 1, Spacing := fun _ => 1, Origin := fun _ => 0 } ∧
      exampleVolumesLogic.CompareVolumeGeometryEpsilon = .finite (1 / 1000000) ∧
      CompareVolumeGeometry examplePrint exampleVolumesLogic (some exampleVolumeNode)
        (some exampleVolumeNode) = "" ∧
      CompareVolumeGeometry examplePrint exampleVolumesLogic (some exampleVolumeNode)
        (some shiftedVolumeNode) ≠ "" ∧
      CompareVolumeGeometry examplePrint exampleVolumesLogic (some fineVolumeNode)
        (some fineVolumeNode) ≠ "" :=
  ⟨rfl, rfl,
    (CompareVolumeGeometry_accepts examplePrint exampleVolumesLogic exampleVolumeNode
      exampleVolumeNode _ _ rfl rfl rfl).1 (fun _ => ⟨rfl, rfl, rfl⟩)
      (fun _ _ => by norm_num) (by rw [minSpacing_example]; norm_num)
      (by rw [minSpacing_example]; norm_num),
    ((CompareVolumeGeometry_accepts examplePrint exampleVolumesLogic exampleVolumeNode
      shiftedVolumeNode _ _ rfl rfl rfl).2.1 0 3
      (by simp [shiftedVolumeNode, exampleVolumeNode, SetElement])).1,
    ((CompareVolumeGeometry_accepts examplePrint exampleVolumesLogic fineVolumeNode
      fineVolumeNode _ _ rfl rfl rfl).2.2.2
      (Or.inr (Or.inr (Or.inl (by rw [minSpacing_fine]; norm_num [epsilon, abs_of_pos]))))).1⟩

/-- C17: an empty report means that both nodes are non-null and have image data, that the
dimensions are equal on all three axes, that the image spacing and the image origin are
exactly equal, and that every one of the sixteen cells of the two IJK-to-RAS matrices
satisfies |a - b| <= epsilon. -/
theorem CompareVolumeGeometry_empty_report (print : Int → Double → String)
    (l : vtkSlicerVolumesLogic) (A B : Option vtkMRMLVolumeNode)
    (h : CompareVolumeGeometry print l A B = "") :
    ∃ nodeA nodeB imageA imageB,
      A = some nodeA ∧ B = some nodeB ∧
      nodeA.ImageData = some imageA ∧ nodeB.ImageData = some imageB ∧
      (∀ row, imageA.Dimensions row = imageB.Dimensions row) ∧
      (∀ row, imageA.Spacing row = imageB.Spacing row) ∧
      (∀ row, imageA.Origin row = imageB.Origin row) ∧
      (∀ row column,
        Double.le (.finite |nodeA.IJKToRASMatrix row column - nodeB.IJKToRASMatrix row column|)
          l.CompareVolumeGeometryEpsilon = true) ∧
      (∀ e, l.CompareVolumeGeometryEpsilon = .finite e → ∀ row column,
        |nodeA.IJKToRASMatrix row column - nodeB.IJKToRASMatrix row column| ≤ e) := by
  cases A with
  | none =>
    simp only [CompareVolumeGeometry] at h
    exact absurd h (by decide)
  | some nodeA =>
    cases B with
    | none =>
      simp only [CompareVolumeGeometry] at h
      exact absurd h (by decide)
    | some nodeB =>
      cases hA : nodeA.ImageData with
      | none =>
        cases hB : nodeB.ImageData with
        | none =>
          simp only [CompareVolumeGeometry, hA, hB] at h
          exact absurd h (by decide)
        | some imageB =>
          simp only [CompareVolumeGeometry, hA, hB] at h
          exact absurd h (by decide)
      | some imageA =>
        cases hB : nodeB.ImageData with
        | none =>
          simp only [CompareVolumeGeometry, hA, hB] at h
          exact absurd h (by decide)
        | some imageB =>
          rw [CompareVolumeGeometry_eq_empty print l nodeA nodeB imageA imageB hA hB] at h
          obtain ⟨_, hrows, hcells⟩ := h
          refine ⟨nodeA, nodeB, imageA, imageB, rfl, rfl, hA, hB,
            fun row => (hrows row).1, fun row => (hrows row).2.1, fun row => (hrows row).2.2,
            hcells, ?_⟩
          intro e he row column
          have hc := hcells row column
          unfold FuzzyCompare at hc
          rw [he] at hc
          exact (Double.le_finite _ _).mp hc

theorem CompareVolumeGeometry_empty_report_witness :
    CompareVolumeGeometry examplePrint exampleVolumesLogic (some exampleVolumeNode)
        (some exampleVolumeNode) = "" ∧
      ∃ nodeA nodeB imageA imageB,
        some exampleVolumeNode = some nodeA ∧ some exampleVolumeNode = some nodeB ∧
        nodeA.ImageData = some imageA ∧ nodeB.ImageData = some imageB ∧
        (∀ row, imageA.Dimensions row = imageB.Dimensions row) ∧
        (∀ row, imageA.Spacing row = imageB.Spacing row) ∧
        (∀ row, imageA.Origin row = imageB.Origin row) ∧
        (∀ row column,
          Double.le
            (.finite |nodeA.IJKToRASMatrix row column - nodeB.IJKToRASMatrix row column|)
            exampleVolumesLogic.CompareVolumeGeometryEpsilon = true) ∧
        (∀ e, exampleVolumesLogic.CompareVolumeGeometryEpsilon = .finite e → ∀ row column,
          |nodeA.IJKToRASMatrix row column - nodeB.IJKToRASMatrix row column| ≤ e) :=
  ⟨CompareVolumeGeometry_example,
    CompareVolumeGeometry_empty_report examplePrint exampleVolumesLogic
      (some exampleVolumeNode) (some exampleVolumeNode) CompareVolumeGeometry_example⟩

/-! ## Volumes logic: the FreeSurfer registration matrices -/

theorem ComputeTkRegVox2RASMatrix_of_image (VNode : vtkMRMLVolumeNode) (image : vtkImageData)
    (M : vtkMatrix4x4) (h : VNode.ImageData = some image) :
    ComputeTkRegVox2RASMatrix (some VNode) M =
      !![-VNode.Spacing 0, 0, 0, (image.Dimensions 0 : ℚ) * VNode.Spacing 0 / 2;
        0, 0, VNode.Spacing 2, -((image.Dimensions 2 : ℚ) * VNode.Spacing 2) / 2;
        0, -VNode.Spacing 1, 0, (image.Dimensions 1 : ℚ) * VNode.Spacing 1 / 2;
        0, 0, 0, 1] := by
  simp only [ComputeTkRegVox2RASMatrix, h]
  ext i j
  fin_cases i <;> fin_cases j <;> simp [SetElement] <;> rfl

/-- C19: for a node with image data of dimensions (d0, d1, d2) and spacing (dC, dR, dS),
`ComputeTkRegVox2RASMatrix` writes the rows [-dC, 0, 0, d0*dC/2], [0, 0, dS, -d2*dS/2],
[0, -dR, 0, d1*dR/2], [0, 0, 0, 1] whatever the matrix held before; for a null node or a
node without image data the matrix is left exactly as it was. -/
theorem ComputeTkRegVox2RASMatrix_rows (VNode : vtkMRMLVolumeNode) (image : vtkImageData)
    (M : vtkMatrix4x4) (h : VNode.ImageData = some image) :
    ComputeTkRegVox2RASMatrix (some VNode) M =
        !![-VNode.Spacing 0, 0, 0, (image.Dimensions 0 : ℚ) * VNode.Spacing 0 / 2;
          0, 0, VNode.Spacing 2, -((image.Dimensions 2 : ℚ) * VNode.Spacing 2) / 2;
          0, -VNode.Spacing 1, 0, (image.Dimensions 1 : ℚ) * VNode.Spacing 1 / 2;
          0, 0, 0, 1] ∧
      ComputeTkRegVox2RASMatrix none M = M ∧
      ComputeTkRegVox2RASMatrix (some { VNode with ImageData := none }) M = M :=
  ⟨ComputeTkRegVox2RASMatrix_of_image VNode image M h, rfl, rfl⟩

theorem ComputeTkRegVox2RASMatrix_rows_witness :
    exampleVolumeNode.ImageData =
        some { Dimensions := fun _ => 1, Spacing := fun _ => 1, Origin := fun _ => 0 } ∧
      ComputeTkRegVox2RASMatrix (some exampleVolumeNode) 0 =
        !![-2, 0, 0, 1; 0, 0, 2, -1; 0, -2, 0, 1; 0, 0, 0, 1] :=
  ⟨rfl, by
    rw [(ComputeTkRegVox2RASMatrix_rows exampleVolumeNode _ 0 rfl).1]
    ext i j
    fin_cases i <;> fin_cases j <;> simp [exampleVolumeNode]
    rfl⟩

theorem Invert_eq_inv (input output : vtkMatrix4x4) (h : input.det ≠ 0) :
    Invert input output = input⁻¹ := by
  unfold Invert
  rw [if_neg h, Matrix.inv_def, Ring.inverse_eq_inv']

theorem TranslateFreeSurferRegistrationMatrixIntoSlicerRASToRASMatrix_eq
    (A B : vtkMRMLVolumeNode) (R out : vtkMatrix4x4) :
    TranslateFreeSurferRegistrationMatrixIntoSlicerRASToRASMatrix (some A) (some B) (some R)
        (some out) =
      some (Invert B.RASToIJKMatrix 1 * (Invert (ComputeTkRegVox2RASMatrix (some B) 1) 1 *
        (R * (ComputeTkRegVox2RASMatrix (some A) 1 * Invert A.IJKToRASMatrix 1)))) := rfl

theorem TranslateFreeSurferRegistrationMatrixIntoSlicerRASToRASMatrix_inv
    (A B : vtkMRMLVolumeNode) (R out : vtkMatrix4x4)
    (hS : (ComputeTkRegVox2RASMatrix (some B) 1).det ≠ 0)
    (hM : A.IJKToRASMatrix.det ≠ 0) (hN : B.RASToIJKMatrix.det ≠ 0) :
    TranslateFreeSurferRegistrationMatrixIntoSlicerRASToRASMatrix (some A) (some B) (some R)
        (some out) =
      some (B.RASToIJKMatrix⁻¹ * (ComputeTkRegVox2RASMatrix (some B) 1)⁻¹ * R *
        ComputeTkRegVox2RASMatrix (some A) 1 * A.IJKToRASMatrix⁻¹) := by
  rw [TranslateFreeSurferRegistrationMatrixIntoSlicerRASToRASMatrix_eq,
    Invert_eq_inv _ _ hS, Invert_eq_inv _ _ hM, Invert_eq_inv _ _ hN]
  simp only [Matrix.mul_assoc]

theorem exampleVolumeNode_mul :
    exampleVolumeNode.RASToIJKMatrix * exampleVolumeNode.IJKToRASMatrix = 1 := by
  simp only [exampleVolumeNode, Matrix.diagonal_mul_diagonal]
  ext i j
  fin_cases i <;> fin_cases j <;> simp [Matrix.diagonal, Matrix.one_apply]

theorem exampleVolumeNode_mul_comm :
    exampleVolumeNode.IJKToRASMatrix * exampleVolumeNode.RASToIJKMatrix = 1 := by
  simp only [exampleVolumeNode, Matrix.diagonal_mul_diagonal]
  ext i j
  fin_cases i <;> fin_cases j <;> simp [Matrix.diagonal, Matrix.one_apply]

theorem exampleVolumeNode_det_IJKToRAS : exampleVolumeNode.IJKToRASMatrix.det ≠ 0 :=
  Matrix.det_ne_zero_of_right_inverse exampleVolumeNode_mul_comm

theorem exampleVolumeNode_det_RASToIJK : exampleVolumeNode.RASToIJKMatrix.det ≠ 0 :=
  Matrix.det_ne_zero_of_right_inverse exampleVolumeNode_mul

theorem exampleVolumeNode_tkReg :
    ComputeTkRegVox2RASMatrix (some exampleVolumeNode) 1 =
      !![-2, 0, 0, 1; 0, 0, 2, -1; 0, -2, 0, 1; 0, 0, 0, 1] := by
  rw [ComputeTkRegVox2RASMatrix_of_image exampleVolumeNode _ 1 rfl]
  ext i j
  fin_cases i <;> fin_cases j <;> simp [exampleVolumeNode]
  rfl

theorem exampleVolumeNode_det_tkReg :
    (ComputeTkRegVox2RASMatrix (some exampleVolumeNode) 1).det ≠ 0 := by
  apply Matrix.det_ne_zero_of_right_inverse
    (B := !![-1 / 2, 0, 0, 1 / 2; 0, 0, -1 / 2, 1 / 2; 0, 1 / 2, 0, 1 / 2; 0, 0, 0, 1])
  rw [exampleVolumeNode_tkReg]
  ext i j
  fin_cases i <;> fin_cases j <;>
    norm_num [Matrix.mul_apply, Fin.sum_univ_four, Matrix.one_apply, Matrix.vecHead,
      Matrix.vecTail] <;> rfl


theorem conjugate_cancel (X S Y : vtkMatrix4x4) (hS : S.det ≠ 0) :
    X * S⁻¹ * 1 * S * Y = X * Y := by
  rw [Matrix.mul_one, Matrix.mul_assoc X, Matrix.nonsing_inv_mul S (isUnit_iff_ne_zero.mpr hS),
    Matrix.mul_one]

/-- C20, as stated, fails: `N` is not the IJK-to-RAS matrix of the second node. For the
example node, whose matrices are invertible and inverse to each other, taken as both `A`
and `B` with the identity as registration matrix, the function writes the identity, while
the product formed with the IJK-to-RAS matrix of `B` as `N` is not the identity. -/
theorem TranslateFreeSurferRegistrationMatrixIntoSlicerRASToRASMatrix_not_IJKToRAS :
    exampleVolumeNode.IJKToRASMatrix.det ≠ 0 ∧
      exampleVolumeNode.RASToIJKMatrix.det ≠ 0 ∧
      (ComputeTkRegVox2RASMatrix (some exampleVolumeNode) 1).det ≠ 0 ∧
      exampleVolumeNode.RASToIJKMatrix * exampleVolumeNode.IJKToRASMatrix = 1 ∧
      TranslateFreeSurferRegistrationMatrixIntoSlicerRASToRASMatrix (some exampleVolumeNode)
        (some exampleVolumeNode) (some 1) (some 0) = some 1 ∧
      exampleVolumeNode.IJKToRASMatrix⁻¹ *
          (ComputeTkRegVox2RASMatrix (some exampleVolumeNode) 1)⁻¹ * 1 *
          ComputeTkRegVox2RASMatrix (some exampleVolumeNode) 1 *
          exampleVolumeNode.IJKToRASMatrix⁻¹ ≠ 1 := by
  refine ⟨exampleVolumeNode_det_IJKToRAS, exampleVolumeNode_det_RASToIJK,
    exampleVolumeNode_det_tkReg, exampleVolumeNode_mul, ?_, ?_⟩
  · rw [TranslateFreeSurferRegistrationMatrixIntoSlicerRASToRASMatrix_inv _ _ _ _
      exampleVolumeNode_det_tkReg exampleVolumeNode_det_IJKToRAS
      exampleVolumeNode_det_RASToIJK]
    rw [conjugate_cancel _ _ _ exampleVolumeNode_det_tkReg,
      Matrix.inv_eq_right_inv exampleVolumeNode_mul,
      Matrix.mul_nonsing_inv _ (isUnit_iff_ne_zero.mpr exampleVolumeNode_det_IJKToRAS)]
  · rw [conjugate_cancel _ _ _ exampleVolumeNode_det_tkReg,
      Matrix.inv_eq_right_inv exampleVolumeNode_mul_comm]
    intro h
    have h00 := congrFun (congrFun h 0) 0
    simp only [exampleVolumeNode, Matrix.diagonal_mul_diagonal] at h00
    norm_num [Matrix.diagonal] at h00

/-- C20, amended: for non-null nodes `A` and `B` and non-null matrices, the matrix written
is inverse(N) * inverse(S) * R * T * inverse(M), in this order, where `T` and `S` are the
tkReg matrices computed for `A` and `B`, `M` is the IJK-to-RAS matrix of `A` and `N` is the
RAS-to-IJK matrix of `B` (so that inverse(N) is the IJK-to-RAS matrix of `B` when the two
matrices of `B` are inverse to each other); `S`, `M` and `N` are taken invertible. -/
theorem TranslateFreeSurferRegistrationMatrixIntoSlicerRASToRASMatrix_composition
    (A B : vtkMRMLVolumeNode) (R out : vtkMatrix4x4)
    (hS : (ComputeTkRegVox2RASMatrix (some B) 1).det ≠ 0)
    (hM : A.IJKToRASMatrix.det ≠ 0) (hN : B.RASToIJKMatrix.det ≠ 0) :
    TranslateFreeSurferRegistrationMatrixIntoSlicerRASToRASMatrix (some A) (some B) (some R)
        (some out) =
        some (B.RASToIJKMatrix⁻¹ * (ComputeTkRegVox2RASMatrix (some B) 1)⁻¹ * R *
          ComputeTkRegVox2RASMatrix (some A) 1 * A.IJKToRASMatrix⁻¹) ∧
      (B.RASToIJKMatrix * B.IJKToRASMatrix = 1 →
        TranslateFreeSurferRegistrationMatrixIntoSlicerRASToRASMatrix (some A) (some B)
            (some R) (some out) =
          some (B.IJKToRASMatrix * (ComputeTkRegVox2RASMatrix (some B) 1)⁻¹ * R *
            ComputeTkRegVox2RASMatrix (some A) 1 * A.IJKToRASMatrix⁻¹)) := by
  have h := TranslateFreeSurferRegistrationMatrixIntoSlicerRASToRASMatrix_inv A B R out hS hM hN
  refine ⟨h, fun hinv => ?_⟩
  rw [h, Matrix.inv_eq_right_inv hinv]

theorem TranslateFreeSurferRegistrationMatrixIntoSlicerRASToRASMatrix_composition_witness :
    (ComputeTkRegVox2RASMatrix (some exampleVolumeNode) 1).det ≠ 0 ∧
      exampleVolumeNode.IJKToRASMatrix.det ≠ 0 ∧
      exampleVolumeNode.RASToIJKMatrix.det ≠ 0 ∧
      TranslateFreeSurferRegistrationMatrixIntoSlicerRASToRASMatrix (some exampleVolumeNode)
          (some exampleVolumeNode) (some 1) (some 0) =
        some (exampleVolumeNode.RASToIJKMatrix⁻¹ *
          (ComputeTkRegVox2RASMatrix (some exampleVolumeNode) 1)⁻¹ * 1 *
          ComputeTkRegVox2RASMatrix (some exampleVolumeNode) 1 *
          exampleVolumeNode.IJKToRASMatrix⁻¹) :=
  ⟨exampleVolumeNode_det_tkReg, exampleVolumeNode_det_IJKToRAS,
    exampleVolumeNode_det_RASToIJK,
    (TranslateFreeSurferRegistrationMatrixIntoSlicerRASToRASMatrix_composition
      exampleVolumeNode exampleVolumeNode 1 0 exampleVolumeNode_det_tkReg
      exampleVolumeNode_det_IJKToRAS exampleVolumeNode_det_RASToIJK).1⟩

/-! ## Volumes logic: the batch bracket and the scalar registry -/

theorem not_mem_trialActions (labelMap : Bool) (fs : List ArchetypeVolumeNodeSetFactory)
    (position : Nat) (a : Action) (h1 : ∀ i, a ≠ Action.CallFactory i)
    (h2 : ∀ i, a ≠ Action.ReadData i) : a ∉ trialActions labelMap position fs := by
  intro h
  obtain ⟨i, hi | hi⟩ := mem_trialActions _ _ _ _ h
  · exact h1 i hi
  · exact h2 i hi

/-- C23: every call of `AddArchetypeVolume` that passes the null-scene check (and can
compute a name for the volume) enters the batch state once and leaves it once: what it adds
to the record of actions is `StartState`, a body without `StartState` or `EndState` that
holds every `AddNode` on the main scene, then `EndState`, and after that the node-added
event and the logic's own `Modified`, in this order, exactly when a volume node is
returned; without one nothing follows `EndState` and the body adds no node. The batch depth
of the scene is afterwards what it was. -/
theorem AddArchetypeVolume_batch_bracket (env : Collaborators)
    (volumeRegistry : List ArchetypeVolumeNodeSetFactory) (filename volname : Option String)
    (loadingOptions : Nat) (fileList : Option (List String)) (l : vtkSlicerVolumesLogic)
    (scene : vtkMRMLScene) (hscene : l.MRMLScene = some scene)
    (hname : volname ≠ none ∨ filename ≠ none) :
    ∃ volumeNode l1 scene1 testScene body,
      AddArchetypeVolumeWith env volumeRegistry filename volname loadingOptions fileList l =
        CallResult.returned volumeNode l1 (some testScene) ∧
      l1.MRMLScene = some scene1 ∧
      scene1.BatchProcessDepth = scene.BatchProcessDepth ∧
      l1.Trace = l.Trace ++ [Action.StartState] ++ body ++ [Action.EndState] ++
        (match volumeNode with
          | some node => [Action.NodeAddedEvent node, Action.Modified]
          | none => []) ∧
      Action.StartState ∉ body ∧ Action.EndState ∉ body ∧ Action.Modified ∉ body ∧
      (∀ node, Action.NodeAddedEvent node ∉ body) ∧
      (volumeNode = none → ∀ node, Action.AddNode node ∉ body) ∧
      (∀ node, volumeNode = some node → Action.AddNode node ∈ body) := by
  rcases first_accepted_or_allRejected env (labelMapBit loadingOptions) volumeRegistry 0 with
    hrej | ⟨pre, f, post, heq, hpre, hacc⟩
  · obtain ⟨l1, testScene, errors, hres, hsc, _, _, _, _, _, _, htrace⟩ :=
      AddArchetypeVolumeWith_rejected env volumeRegistry filename volname loadingOptions
        fileList l scene hscene hname hrej
    refine ⟨none, l1, _, testScene,
      [Action.SaveStateForUndo, Action.NewTestScene] ++
        trialActions (labelMapBit loadingOptions) 0 volumeRegistry ++
        [Action.DisplayErrors errors], hres, hsc, rfl, ?_, ?_, ?_, ?_, ?_, ?_, ?_⟩
    · rw [htrace]
      simp only [List.append_assoc, List.cons_append, List.nil_append, List.append_nil]
    all_goals
      simp only [List.mem_append, List.mem_cons, List.not_mem_nil, reduceCtorEq, or_false,
        false_or, not_false_eq_true, forall_const, IsEmpty.forall_iff, implies_true]
    all_goals first
      | exact not_mem_trialActions _ _ _ _ (fun _ h => Action.noConfusion h)
          (fun _ h => Action.noConfusion h)
      | exact fun node => not_mem_trialActions _ _ _ _ (fun _ h => Action.noConfusion h)
          (fun _ h => Action.noConfusion h)
  · simp only [Nat.zero_add] at hacc
    obtain ⟨l1, testScene, hres, hsc, _, _, _, _, _, _, _, _, _, _, _, _, _, _, htrace⟩ :=
      AddArchetypeVolumeWith_accepted env pre f post filename volname loadingOptions
        fileList l scene hscene hname hpre hacc
    rw [heq]
    refine ⟨some (f.nodeSetAt (l.Memory.Next + 3 * pre.length)).Node, l1, _, testScene,
      [Action.SaveStateForUndo, Action.NewTestScene] ++
        trialActions (labelMapBit loadingOptions) 0 (pre ++ [f]) ++
        [Action.AddNode (f.nodeSetAt (l.Memory.Next + 3 * pre.length)).DisplayNode,
         Action.AddNode (f.nodeSetAt (l.Memory.Next + 3 * pre.length)).StorageNode,
         Action.AddNode (f.nodeSetAt (l.Memory.Next + 3 * pre.length)).Node],
      hres, hsc, rfl, ?_, ?_, ?_, ?_, ?_, ?_, ?_⟩
    · rw [htrace]
      simp only [List.append_assoc, List.cons_append, List.nil_append, List.append_nil]
    · simp only [List.mem_append, List.mem_cons, List.not_mem_nil, reduceCtorEq, or_false,
        false_or]
      exact not_mem_trialActions _ _ _ _ (fun _ h => Action.noConfusion h)
        (fun _ h => Action.noConfusion h)
    · simp only [List.mem_append, List.mem_cons, List.not_mem_nil, reduceCtorEq, or_false,
        false_or]
      exact not_mem_trialActions _ _ _ _ (fun _ h => Action.noConfusion h)
        (fun _ h => Action.noConfusion h)
    · simp only [List.mem_append, List.mem_cons, List.not_mem_nil, reduceCtorEq, or_false,
        false_or]
      exact not_mem_trialActions _ _ _ _ (fun _ h => Action.noConfusion h)
        (fun _ h => Action.noConfusion h)
    · intro node
      simp only [List.mem_append, List.mem_cons, List.not_mem_nil, reduceCtorEq, or_false,
        false_or]
      exact not_mem_trialActions _ _ _ _ (fun _ h => Action.noConfusion h)
        (fun _ h => Action.noConfusion h)
    · intro h
      exact Option.noConfusion h
    · intro node h
      injection h with h
      rw [← h]
      simp
theorem AddArchetypeVolume_batch_bracket_witness :
    exampleVolumesLogic.MRMLScene = some {} ∧
    ((none : Option String) ≠ none ∨ some "brain.nrrd" ≠ none) ∧
    ∃ volumeNode l1 scene1 testScene body,
      AddArchetypeVolumeWith exampleCollaborators exampleVolumesLogic.VolumeRegistry
          (some "brain.nrrd") none 0 none exampleVolumesLogic =
        CallResult.returned volumeNode l1 (some testScene) ∧
      l1.MRMLScene = some scene1 ∧
      l1.Trace = exampleVolumesLogic.Trace ++ [Action.StartState] ++ body ++
        [Action.EndState] ++
        (match volumeNode with
          | some node => [Action.NodeAddedEvent node, Action.Modified]
          | none => []) ∧
      Action.StartState ∉ body ∧ Action.EndState ∉ body :=
  ⟨rfl, Or.inr (by simp),
    match AddArchetypeVolume_batch_bracket exampleCollaborators
        exampleVolumesLogic.VolumeRegistry (some "brain.nrrd") none 0 none
        exampleVolumesLogic {} rfl (Or.inr (by simp)) with
    | ⟨volumeNode, l1, scene1, testScene, body, h, hsc, _, htrace, hs, he, _⟩ =>
      ⟨volumeNode, l1, scene1, testScene, body, h, hsc, htrace, hs, he⟩⟩

/-- C27: `AddArchetypeScalarVolume` called with bit 0 of the loading options set (and a
name for the volume) returns null whatever the file name and whatever the storage reads
would give: its registry holds the scalar factory only, whose node set has the label-map
flag false, so the factory is called once, no read is attempted, no node is added to the
main scene, whose nodes are as before, and no event follows the end of the batch state. -/
theorem AddArchetypeScalarVolume_label_map_bit (env : Collaborators)
    (filename volname : Option String) (loadingOptions : Nat)
    (fileList : Option (List String)) (l : vtkSlicerVolumesLogic) (scene : vtkMRMLScene)
    (hscene : l.MRMLScene = some scene) (hname : volname ≠ none ∨ filename ≠ none)
    (hbit : labelMapBit loadingOptions = true) :
    ScalarVolumeNodeSetFactory.LabelMap = false ∧
    ∃ l1 testScene errors,
      AddArchetypeScalarVolume env filename volname loadingOptions fileList l =
        CallResult.returned none l1 (some testScene) ∧
      l1.MRMLScene = some { scene with UndoCheckpoints := scene.UndoCheckpoints + 1 } ∧
      l1.ActiveVolumeNode = l.ActiveVolumeNode ∧
      (∀ a, a < l.Memory.Next → l1.Memory.Object a = l.Memory.Object a) ∧
      l1.Trace = l.Trace ++ [Action.StartState, Action.SaveStateForUndo, Action.NewTestScene,
        Action.CallFactory 0, Action.DisplayErrors errors, Action.EndState] := by
  refine ⟨rfl, ?_⟩
  have hrej : allRejected env (labelMapBit loadingOptions) 0 [ScalarVolumeNodeSetFactory] := by
    apply allRejected_of_flags_differ
    intro f hf
    rw [List.mem_singleton.mp hf, hbit]
    decide
  obtain ⟨l1, testScene, errors, hres, hsc, hactive, _, _, _, hframe, _, htrace⟩ :=
    AddArchetypeVolumeWith_rejected env [ScalarVolumeNodeSetFactory] filename volname
      loadingOptions fileList l scene hscene hname hrej
  refine ⟨l1, testScene, errors, hres, hsc, hactive, hframe, ?_⟩
  rw [htrace, hbit]
  have htrial : trialActions true 0 [ScalarVolumeNodeSetFactory] = [Action.CallFactory 0] := by
    decide
  rw [htrial]
  simp only [List.append_assoc, List.cons_append, List.nil_append]

theorem AddArchetypeScalarVolume_label_map_bit_witness :
    exampleVolumesLogic.MRMLScene = some {} ∧
    ((none : Option String) ≠ none ∨ some "labels.nrrd" ≠ none) ∧
    labelMapBit 1 = true ∧
    ∃ l1 testScene,
      AddArchetypeScalarVolume exampleCollaborators (some "labels.nrrd") none 1 none
          exampleVolumesLogic =
        CallResult.returned none l1 (some testScene) ∧
      l1.MRMLScene = some { UndoCheckpoints := 1 } :=
  ⟨rfl, Or.inr (by simp), by decide,
    match (AddArchetypeScalarVolume_label_map_bit exampleCollaborators (some "labels.nrrd")
        none 1 none exampleVolumesLogic {} rfl (Or.inr (by simp)) (by decide)).2 with
    | ⟨l1, testScene, _, h, hsc, _⟩ => ⟨l1, testScene, h, hsc⟩⟩

/-! ## Volumes logic: registration of a volume to itself -/

theorem one_fin_four :
    (1 : vtkMatrix4x4) = !![1, 0, 0, 0; 0, 1, 0, 0; 0, 0, 1, 0; 0, 0, 0, 1] := by
  ext i j
  fin_cases i <;> fin_cases j <;> rfl

theorem ComputeTkRegVox2RASMatrix_det (VNode : vtkMRMLVolumeNode) (image : vtkImageData)
    (M : vtkMatrix4x4) (h : VNode.ImageData = some image)
    (h0 : VNode.Spacing 0 ≠ 0) (h1 : VNode.Spacing 1 ≠ 0) (h2 : VNode.Spacing 2 ≠ 0) :
    (ComputeTkRegVox2RASMatrix (some VNode) M).det ≠ 0 := by
  apply Matrix.det_ne_zero_of_right_inverse
    (B := !![-1 / VNode.Spacing 0, 0, 0, (image.Dimensions 0 : ℚ) / 2;
      0, 0, -1 / VNode.Spacing 1, (image.Dimensions 1 : ℚ) / 2;
      0, 1 / VNode.Spacing 2, 0, (image.Dimensions 2 : ℚ) / 2;
      0, 0, 0, 1])
  rw [ComputeTkRegVox2RASMatrix_of_image VNode image M h, one_fin_four]
  ext i j
  fin_cases i <;> fin_cases j <;>
    simp [Matrix.mul_apply, Fin.sum_univ_four, Matrix.vecHead, Matrix.vecTail] <;>
    first
      | rfl
      | (field_simp; ring)
      | field_simp

/-- C28: registering a volume to itself gives the identity. For a node with image data,
non-zero spacing on the three axes and an invertible IJK-to-RAS matrix whose inverse is
its RAS-to-IJK matrix, `TranslateFreeSurferRegistrationMatrixIntoSlicerRASToRASMatrix`
called with the node as both volumes and the identity as registration matrix writes the
identity, whatever the output matrix held. -/
theorem TranslateFreeSurferRegistrationMatrixIntoSlicerRASToRASMatrix_self
    (V : vtkMRMLVolumeNode) (image : vtkImageData) (out : vtkMatrix4x4)
    (himage : V.ImageData = some image)
    (h0 : V.Spacing 0 ≠ 0) (h1 : V.Spacing 1 ≠ 0) (h2 : V.Spacing 2 ≠ 0)
    (hinv : V.RASToIJKMatrix * V.IJKToRASMatrix = 1) :
    TranslateFreeSurferRegistrationMatrixIntoSlicerRASToRASMatrix (some V) (some V) (some 1)
      (some out) = some 1 := by
  have hS := ComputeTkRegVox2RASMatrix_det V image 1 himage h0 h1 h2
  have hN : V.RASToIJKMatrix.det ≠ 0 := Matrix.det_ne_zero_of_right_inverse hinv
  have hM : V.IJKToRASMatrix.det ≠ 0 := Matrix.det_ne_zero_of_left_inverse hinv
  rw [TranslateFreeSurferRegistrationMatrixIntoSlicerRASToRASMatrix_inv V V 1 out hS hM hN,
    conjugate_cancel _ _ _ hS, Matrix.inv_eq_right_inv hinv,
    Matrix.mul_nonsing_inv _ (isUnit_iff_ne_zero.mpr hM)]

theorem TranslateFreeSurferRegistrationMatrixIntoSlicerRASToRASMatrix_self_witness :
    exampleVolumeNode.ImageData =
        some { Dimensions := fun _ => 1, Spacing := fun _ => 1, Origin := fun _ => 0 } ∧
      exampleVolumeNode.Spacing 0 ≠ 0 ∧ exampleVolumeNode.Spacing 1 ≠ 0 ∧
      exampleVolumeNode.Spacing 2 ≠ 0 ∧
      exampleVolumeNode.RASToIJKMatrix * exampleVolumeNode.IJKToRASMatrix = 1 ∧
      TranslateFreeSurferRegistrationMatrixIntoSlicerRASToRASMatrix (some exampleVolumeNode)
        (some exampleVolumeNode) (some 1) (some 0) = some 1 :=
  ⟨rfl, by norm_num [exampleVolumeNode], by norm_num [exampleVolumeNode],
    by norm_num [exampleVolumeNode], exampleVolumeNode_mul,
    TranslateFreeSurferRegistrationMatrixIntoSlicerRASToRASMatrix_self exampleVolumeNode _ 0
      rfl (by norm_num [exampleVolumeNode]) (by norm_num [exampleVolumeNode])
      (by norm_num [exampleVolumeNode]) exampleVolumeNode_mul⟩

/-! ## Volumes logic: the precision cached for the epsilon -/

theorem fixedFractional_millionth :
    fixedFractional (1 / 1000000) =
      ['0', '0', '0', '0', '0', '1', '0', '0', '0', '0', '0', '0', '0', '0', '0', '0'] := by
  unfold fixedFractional
  rw [roundHalfEven_eq _ 10000000000 (by norm_num [abs_of_pos]) (by norm_num [abs_of_pos])]
  decide

theorem significantDecimals_millionth :
    significantDecimals (.finite (1 / 1000000)) (-1) = 6 := by
  simp only [significantDecimals]
  rw [if_neg (by norm_num), if_neg (by simp [fixedFractional_length])]
  rw [fixedFractional_millionth]
  rw [show decide (-1 < (1 / 1000000 : ℚ) ∧ (1 / 1000000 : ℚ) < 1) = true from
    decide_eq_true (by norm_num)]
  decide

/-- C29 fails on the code: the constructor assigns the epsilon but not the precision, so
after construction the precision is whatever the member held, here 0, while
`significantDecimals` of the stored epsilon 0.000001 is 6; and
`SetCompareVolumeGeometryEpsilon(0.000001)` finds the epsilon unchanged and leaves the
precision as it is. Only a call that changes the stored epsilon brings the two in line. -/
theorem New_precision_not_assigned :
    (vtkSlicerVolumesLogic.New exampleVolumesLogic.Memory .nan 0).CompareVolumeGeometryEpsilon =
        .finite (1 / 1000000) ∧
      significantDecimals (.finite (1 / 1000000)) (-1) = 6 ∧
      (vtkSlicerVolumesLogic.New exampleVolumesLogic.Memory .nan
        0).CompareVolumeGeometryPrecision = 0 ∧
      SetCompareVolumeGeometryEpsilon (.finite (1 / 1000000))
          (vtkSlicerVolumesLogic.New exampleVolumesLogic.Memory .nan 0) =
        vtkSlicerVolumesLogic.New exampleVolumesLogic.Memory .nan 0 ∧
      (∀ (memory : Memory) (epsilon : Double) (precision : Int),
        (vtkSlicerVolumesLogic.New memory epsilon precision).CompareVolumeGeometryPrecision =
          precision ∧
        (SetCompareVolumeGeometryEpsilon (.finite (1 / 1000000))
          (vtkSlicerVolumesLogic.New memory epsilon
            precision)).CompareVolumeGeometryPrecision = precision) ∧
      (SetCompareVolumeGeometryEpsilon (.finite (1 / 1000))
        (vtkSlicerVolumesLogic.New exampleVolumesLogic.Memory .nan
          0)).CompareVolumeGeometryPrecision =
        significantDecimals (.finite (1 / 1000)) (-1) := by
  have hsame : ∀ (memory : Memory) (epsilon : Double) (precision : Int),
      SetCompareVolumeGeometryEpsilon (.finite (1 / 1000000))
          (vtkSlicerVolumesLogic.New memory epsilon precision) =
        vtkSlicerVolumesLogic.New memory epsilon precision := by
    intro memory epsilon precision
    apply SetCompareVolumeGeometryEpsilon_unchanged _ _ (fun h => Double.noConfusion h)
    have hfabs : Double.fabs (.finite (1 / 1000000)) = .finite (1 / 1000000) := by
      simp only [Double.fabs]
      rw [abs_of_pos (by norm_num)]
    have heps : (vtkSlicerVolumesLogic.New memory epsilon precision).CompareVolumeGeometryEpsilon
        = .finite (1 / 1000000) := rfl
    rw [hfabs, heps]
    simp [Double.ne, Double.eq, Double.number]
  refine ⟨rfl, significantDecimals_millionth, rfl, hsame _ _ _, ?_, ?_⟩
  · intro memory epsilon precision
    refine ⟨rfl, ?_⟩
    rw [hsame]
    rfl
  · have hfabs : Double.fabs (.finite (1 / 1000)) = .finite (1 / 1000) := by
      simp only [Double.fabs]
      rw [abs_of_pos (by norm_num)]
    rw [SetCompareVolumeGeometryEpsilon_changed _ _ (fun h => Double.noConfusion h), hfabs]
    rw [hfabs]
    have heps : (vtkSlicerVolumesLogic.New exampleVolumesLogic.Memory .nan
        0).CompareVolumeGeometryEpsilon = .finite (1 / 1000000) := rfl
    rw [heps]
    simp only [Double.ne, Double.eq, Double.number, Bool.not_eq_true',
      decide_eq_false_iff_not]
    intro h
    injection h with h
    norm_num at h

/-! ## Volumes logic: FreeSurfer file names and the resampling transform -/

/-- C26 fails on the code: the extension compared with the three names is the last
extension of the file name, which holds one dot only. For `brain.mgh.gz` it is `.gz`, so
`IsFreeSurferVolume` returns 0 and a label map loaded from that file gets the generic
label palette; `.mgz` and `.mgh` are recognised, in any case of the letters, and a null
file name gives 0. -/
theorem IsFreeSurferVolume_mgh_gz :
    SystemTools.GetFilenameLastExtension "brain.mgh.gz" = ".gz" ∧
      IsFreeSurferVolume systemToolsCollaborators (some "brain.mgh.gz") = 0 ∧
      IsFreeSurferVolume systemToolsCollaborators (some "/data/subject1/aseg.MGH.GZ") = 0 ∧
      IsFreeSurferVolume systemToolsCollaborators (some "brain.mgz") = 1 ∧
      IsFreeSurferVolume systemToolsCollaborators (some "brain.MGH") = 1 ∧
      IsFreeSurferVolume systemToolsCollaborators (some "brain.nrrd") = 0 ∧
      IsFreeSurferVolume systemToolsCollaborators none = 0 ∧
      (SetAndObserveColorToDisplayNode systemToolsCollaborators (some exampleColorLogic) {} true
        (some "brain.mgh.gz")).ColorNodeID = exampleColorLogic.DefaultLabelMapColorNodeID ∧
      (SetAndObserveColorToDisplayNode systemToolsCollaborators (some exampleColorLogic) {} true
        (some "brain.mgz")).ColorNodeID =
          exampleColorLogic.DefaultFreeSurferLabelMapColorNodeID ∧
      exampleColorLogic.DefaultLabelMapColorNodeID ≠
        exampleColorLogic.DefaultFreeSurferLabelMapColorNodeID := by
  refine ⟨by decide, by decide, by decide, by decide, by decide, by decide, rfl, by decide,
    by decide, by decide⟩

/-- C30 fails on the code: when both nodes have a parent transform, the third transform
concatenated is the from-world transform of the input node's parent (line 1546), not of
the reference node's, so the transform of the reference node is never read: reference
nodes whose parent transforms differ give the same reslice transform. -/
theorem ResampleVolumeToReferenceVolume_ignores_reference_transform :
    (∀ (inputVolumeNode referenceVolumeNode : vtkMRMLVolumeNode)
      (inputTransform referenceTransform : vtkMRMLTransformNode),
      inputVolumeNode.ImageData.isNone = false → referenceVolumeNode.ImageData.isNone = false →
      ResampleVolumeToReferenceVolume (some inputVolumeNode) (some referenceVolumeNode) true
          (some inputTransform) (some referenceTransform) =
        some { Concatenation := [inputVolumeNode.IJKToRASMatrix, inputTransform.TransformToWorld,
                 inputTransform.TransformFromWorld, referenceVolumeNode.RASToIJKMatrix]
               InverseFlag := true }) ∧
      doublingTransformNode.TransformFromWorld ≠ halvingTransformNode.TransformFromWorld ∧
      ResampleVolumeToReferenceVolume (some exampleVolumeNode) (some exampleVolumeNode) true
          (some doublingTransformNode) (some doublingTransformNode) =
        ResampleVolumeToReferenceVolume (some exampleVolumeNode) (some exampleVolumeNode) true
          (some doublingTransformNode) (some halvingTransformNode) := by
  refine ⟨?_, ?_, rfl⟩
  · intro inputVolumeNode referenceVolumeNode inputTransform referenceTransform h1 h2
    simp [ResampleVolumeToReferenceVolume, h1, h2, vtkGeneralTransform.Concatenate,
      vtkGeneralTransform.Inverse]
  · intro h
    have h00 := congrFun (congrFun h 0) 0
    norm_num [doublingTransformNode, halvingTransformNode, Matrix.diagonal] at h00

/-! ## Units logic: the built-in units -/

theorem builtInUnits_names :
    builtInUnits.map (fun node => (node.Name, node.Quantity)) =
      [("Meter", "length"), ("Centimeter", "length"), ("Millimeter", "length"),
       ("Micrometer", "length"), ("Nanometer", "length"), ("Year", "time"), ("Month", "time"),
       ("Day", "time"), ("Hour", "time"), ("Minute", "time"), ("Second", "time"),
       ("Millisecond", "time"), ("Microsecond", "time"), ("Herz", "frequency"),
       ("decahertz", "frequency"), ("HectoHerz", "frequency"), ("KiloHerz", "frequency"),
       ("MegaHerz", "frequency"), ("GigaHerz", "frequency"), ("TeraHerz", "frequency"),
       ("Metre per second", "velocity"), ("Kilometre per second", "velocity"),
       ("Intensity", "intensity")] := by
  rfl

theorem builtInUnits_offsets : ∀ node ∈ builtInUnits, node.DisplayOffset = 0 := by
  intro node hnode
  simp only [builtInUnits, AddBuiltInUnits, AddUnitNodeToScene, UnitsScene.AddNode,
    List.nil_append, List.cons_append, List.mem_cons, List.mem_singleton,
    List.not_mem_nil, or_false] at hnode
  rcases hnode with h | h | h | h | h | h | h | h | h | h | h | h | h | h | h | h | h | h |
    h | h | h | h | h <;> rw [h]

theorem builtInCoefficient_Year : builtInCoefficient "Year" = some (438291 / 2) := by
  have h : builtInCoefficient "Year" = some (1.0 / 12.0 * 30.436875 * 24.0 * 60.0 * 60.0) := rfl
  rw [h]
  norm_num

theorem builtInCoefficient_Day : builtInCoefficient "Day" = some 150 := by
  have h : builtInCoefficient "Day" = some (1.0 / 24.0 * 60.0 * 60.0) := rfl
  rw [h]
  norm_num

theorem builtInCoefficient_Hour : builtInCoefficient "Hour" = some 1 := by
  have h : builtInCoefficient "Hour" = some (1.0 / 60.0 * 60.0) := rfl
  rw [h]
  norm_num

theorem builtInCoefficient_Minute : builtInCoefficient "Minute" = some (1 / 60) := by
  have h : builtInCoefficient "Minute" = some (1.0 / 60.0) := rfl
  rw [h]
  norm_num

theorem builtInCoefficient_Millisecond : builtInCoefficient "Millisecond" = some 1000 := rfl

theorem builtInCoefficient_Microsecond : builtInCoefficient "Microsecond" = some 1000 := rfl

theorem builtInCoefficient_Kilometre :
    builtInCoefficient "Kilometre per second" = some (1 / 100) := by
  have h : builtInCoefficient "Kilometre per second" = some (0.01) := rfl
  rw [h]
  norm_num

theorem builtInCoefficient_Second : builtInCoefficient "Second" = some 1 := rfl

theorem builtInCoefficient_Metre : builtInCoefficient "Metre per second" = some 1 := rfl

/-- C21 fails on the code: every built-in unit has display offset 0, and Minute has
coefficient 1/60 and Millisecond 1000 relative to Second = 1, but the expressions written
for the longer units of time are grouped from the left: Hour is 1/60*60 = 1, the
coefficient of Second, where 1/3600 is meant; Day is 1/24*60*60 = 150 and Year is
1/12*30.436875*24*60*60 = 219145.5; Microsecond has 1000, the coefficient of Millisecond;
and Kilometre per second has 1/100 relative to Metre per second = 1. -/
theorem AddBuiltInUnits_coefficients :
    (∀ node ∈ builtInUnits, node.DisplayOffset = 0) ∧
      builtInCoefficient "Second" = some 1 ∧
      builtInCoefficient "Minute" = some (1 / 60) ∧
      builtInCoefficient "Millisecond" = some 1000 ∧
      builtInCoefficient "Hour" = some 1 ∧
      builtInCoefficient "Day" = some 150 ∧
      builtInCoefficient "Year" = some (438291 / 2) ∧
      builtInCoefficient "Microsecond" = some 1000 ∧
      builtInCoefficient "Metre per second" = some 1 ∧
      builtInCoefficient "Kilometre per second" = some (1 / 100) ∧
      builtInCoefficient "Hour" = builtInCoefficient "Second" ∧
      builtInCoefficient "Microsecond" = builtInCoefficient "Millisecond" ∧
      ("Hour", "time") ∈ builtInUnits.map (fun node => (node.Name, node.Quantity)) ∧
      ("Second", "time") ∈ builtInUnits.map (fun node => (node.Name, node.Quantity)) ∧
      ("Millisecond", "time") ∈ builtInUnits.map (fun node => (node.Name, node.Quantity)) ∧
      ("Microsecond", "time") ∈ builtInUnits.map (fun node => (node.Name, node.Quantity)) := by
  refine ⟨builtInUnits_offsets, builtInCoefficient_Second, builtInCoefficient_Minute,
    builtInCoefficient_Millisecond, builtInCoefficient_Hour, builtInCoefficient_Day,
    builtInCoefficient_Year, builtInCoefficient_Microsecond, builtInCoefficient_Metre,
    builtInCoefficient_Kilometre, ?_, ?_, ?_, ?_, ?_, ?_⟩
  · rw [builtInCoefficient_Hour, builtInCoefficient_Second]
  · rw [builtInCoefficient_Microsecond, builtInCoefficient_Millisecond]
  all_goals
    rw [builtInUnits_names]
    decide

/-! ## Units logic: notifications of the selection node -/

theorem OnMRMLNodeModified_restores (l : vtkSlicerUnitsLogic)
    (hflag : l.RestoringDefaultUnits = false) :
    OnMRMLNodeModified true l = RestoreDefaultUnits l := by
  simp [OnMRMLNodeModified, hflag]

/-- C25: a stale cache overrides a later write. On a logic that observes the selection
node of its scene, with no restore running and `Q -> U1` in the cache,
`SetDefaultUnit(Q, U2)` with `U2 != U1` first makes the selection node map `Q` to `U2`;
once the notification of this write has been handled by `OnMRMLNodeModified`, the
selection node maps `Q` to the cached `U1` again, not to `U2`. The new default stays if
the cache has no entry for `Q`, or if the default units are saved again before the
notification is handled. -/
theorem SetDefaultUnit_overridden_by_cache (Q U1 U2 : String) (l : vtkSlicerUnitsLogic)
    (hsel : hasSelectionNode l) (hobs : 0 < l.SelectionNodeObservations)
    (hflag : l.RestoringDefaultUnits = false) (hne : U2 ≠ U1) :
    defaultUnit (SetDefaultUnit (some Q) (some U2) l) Q = some U2 ∧
    (l.CachedDefaultUnits.lookup Q = some U1 →
      ∃ handled,
        deliverModifiedEvent (decide (0 < l.SelectionNodeObservations))
          (SetDefaultUnit (some Q) (some U2) l) = some handled ∧
        defaultUnit handled Q = some U1 ∧ defaultUnit handled Q ≠ some U2 ∧
        handled.CachedDefaultUnits = l.CachedDefaultUnits) ∧
    (l.CachedDefaultUnits.lookup Q = none →
      ∃ handled,
        deliverModifiedEvent (decide (0 < l.SelectionNodeObservations))
          (SetDefaultUnit (some Q) (some U2) l) = some handled ∧
        defaultUnit handled Q = some U2) ∧
    (∃ saved handled,
      SaveDefaultUnits (SetDefaultUnit (some Q) (some U2) l) = some saved ∧
      deliverModifiedEvent (decide (0 < l.SelectionNodeObservations)) saved = some handled ∧
      defaultUnit handled Q = some U2) := by
  have hsel2 := hasSelectionNode_SetDefaultUnit (some Q) (some U2) l hsel
  have hwritten := defaultUnit_SetDefaultUnit Q (some U2) l hsel
  have hcache := (cache_SetDefaultUnit (some Q) (some U2) l).1
  have hflag2 : (SetDefaultUnit (some Q) (some U2) l).RestoringDefaultUnits = false := by
    rw [(cache_SetDefaultUnit (some Q) (some U2) l).2, hflag]
  have hdeliver : ∀ s : vtkSlicerUnitsLogic, s.RestoringDefaultUnits = false →
      deliverModifiedEvent (decide (0 < l.SelectionNodeObservations)) s =
        RestoreDefaultUnits s := by
    intro s hs
    simp only [deliverModifiedEvent, decide_eq_true hobs, if_true]
    exact OnMRMLNodeModified_restores s hs
  obtain ⟨restored, hres, _, _, hrc, hdef⟩ :=
    defaultUnit_RestoreDefaultUnits (SetDefaultUnit (some Q) (some U2) l) hsel2
  refine ⟨hwritten, ?_, ?_, ?_⟩
  · intro hlook
    refine ⟨restored, by rw [hdeliver _ hflag2, hres], ?_, ?_, by rw [hrc, hcache]⟩
    · rw [hdef, hcache, hlook]; rfl
    · rw [hdef, hcache, hlook]
      intro h
      injection h with h
      exact hne h.symm
  · intro hlook
    refine ⟨restored, by rw [hdeliver _ hflag2, hres], ?_⟩
    rw [hdef, hcache, hlook]
    exact hwritten
  · obtain ⟨scene, sel, hscene, hselnode⟩ := hsel2
    obtain ⟨saved, hsaved, hsc, _, hlookup⟩ :=
      lookup_SaveDefaultUnits (SetDefaultUnit (some Q) (some U2) l) scene sel hscene hselnode
    have hsavedsel : hasSelectionNode saved := ⟨scene, sel, by rw [hsc, hscene], hselnode⟩
    have hsavedflag : saved.RestoringDefaultUnits = false := by
      simp only [SaveDefaultUnits, hscene, Option.some.injEq] at hsaved
      rw [← hsaved]
      exact hflag2
    obtain ⟨restored2, hres2, _, _, _, hdef2⟩ := defaultUnit_RestoreDefaultUnits saved hsavedsel
    refine ⟨saved, restored2, hsaved, by rw [hdeliver _ hsavedflag, hres2], ?_⟩
    rw [hdef2, hlookup]
    have hw : sel.UnitNodeIDs.lookup Q = some U2 := by
      have := hwritten
      simp only [defaultUnit, hscene, hselnode, vtkMRMLSelectionNode.GetUnitNodeID] at this
      exact this
    rw [hw]; rfl

theorem SetDefaultUnit_overridden_by_cache_witness :
    hasSelectionNode savedUnitsLogic ∧ 0 < savedUnitsLogic.SelectionNodeObservations ∧
      savedUnitsLogic.RestoringDefaultUnits = false ∧
      "vtkMRMLUnitNodeMeter" ≠ "vtkMRMLUnitNodeApplicationLength" ∧
      savedUnitsLogic.CachedDefaultUnits.lookup "length" =
        some "vtkMRMLUnitNodeApplicationLength" ∧
      ∃ handled,
        deliverModifiedEvent (decide (0 < savedUnitsLogic.SelectionNodeObservations))
          (SetDefaultUnit (some "length") (some "vtkMRMLUnitNodeMeter") savedUnitsLogic) =
            some handled ∧
        defaultUnit handled "length" = some "vtkMRMLUnitNodeApplicationLength" :=
  ⟨⟨_, _, rfl, rfl⟩, by decide, rfl, by decide, by decide,
    match (SetDefaultUnit_overridden_by_cache "length" "vtkMRMLUnitNodeApplicationLength"
        "vtkMRMLUnitNodeMeter" savedUnitsLogic ⟨_, _, rfl, rfl⟩ (by decide) rfl
        (by decide)).2.1 (by decide) with
    | ⟨handled, h, hdef, _⟩ => ⟨handled, h, hdef⟩⟩

theorem OnSelectionNodeModified_guarded (delivered : Nat → Bool) (fuel : Nat)
    (l : vtkSlicerUnitsLogic) (log : List Bool) (hflag : l.RestoringDefaultUnits = true) :
    OnSelectionNodeModified delivered (fuel + 1) l log = some (l, log ++ [true]) := by
  simp [OnSelectionNodeModified, hflag]

theorem restoreLoop_guarded (delivered : Nat → Bool) (fuel : Nat)
    (es : List (Sigma fun _ : String => String)) :
    ∀ (k : Nat) (l : vtkSlicerUnitsLogic) (log : List Bool),
      l.RestoringDefaultUnits = true →
      ∃ nested,
        restoreLoop (OnSelectionNodeModified delivered (fuel + 1)) delivered es k l log =
          some (es.foldl (fun acc e => SetDefaultUnit (some e.1) (some e.2) acc) l,
            log ++ nested) ∧
        ∀ b ∈ nested, b = true := by
  induction es with
  | nil =>
    intro k l log _
    exact ⟨[], by simp [restoreLoop], by simp⟩
  | cons e es ih =>
    intro k l log hflag
    have hflag1 : (SetDefaultUnit (some e.1) (some e.2) l).RestoringDefaultUnits = true := by
      rw [(cache_SetDefaultUnit (some e.1) (some e.2) l).2, hflag]
    by_cases hd : delivered k = true
    · obtain ⟨nested, hloop, hall⟩ :=
        ih (k + 1) (SetDefaultUnit (some e.1) (some e.2) l) (log ++ [true]) hflag1
      refine ⟨true :: nested, ?_, ?_⟩
      · simp only [restoreLoop, hd, if_true,
          OnSelectionNodeModified_guarded delivered fuel _ log hflag1, List.foldl_cons]
        rw [hloop]
        simp
      · intro b hb
        rcases List.mem_cons.mp hb with h | h
        · exact h
        · exact hall b h
    · obtain ⟨nested, hloop, hall⟩ :=
        ih (k + 1) (SetDefaultUnit (some e.1) (some e.2) l) log hflag1
      refine ⟨nested, ?_, hall⟩
      simp only [restoreLoop, hd, List.foldl_cons]
      exact hloop

theorem OnSelectionNodeModified_restoring (delivered : Nat → Bool) (fuel : Nat)
    (l : vtkSlicerUnitsLogic) (scene : UnitsScene) (log : List Bool)
    (hscene : l.MRMLScene = some scene) (hflag : l.RestoringDefaultUnits = false) :
    OnSelectionNodeModified delivered (fuel + 1) l log =
      match restoreLoop (OnSelectionNodeModified delivered fuel) delivered
          l.CachedDefaultUnits.entries 0 { l with RestoringDefaultUnits := true }
          (log ++ [false]) with
      | none => none
      | some (l2, log2) =>
        match (if delivered l.CachedDefaultUnits.entries.length then
            OnSelectionNodeModified delivered fuel l2 log2 else some (l2, log2)) with
        | none => none
        | some (l3, log3) => some ({ l3 with RestoringDefaultUnits := false }, log3) := by
  rw [OnSelectionNodeModified]
  simp only [hflag, hscene, if_true]

/-- C22: the guard of `RestoreDefaultUnits`. A modification of the selection node handled
while no restore is running (flag false) starts one restore, whatever notifications the
selection node delivers during the loop and at `EndModify`: every `OnMRMLNodeModified`
run inside the body finds the flag true and starts nothing, the outer run ends with the
state that `RestoreDefaultUnits` alone gives, with the flag false again and the cache
unchanged; and a handler that finds the flag true returns at once. Handlers nest no deeper
than two. -/
theorem RestoreDefaultUnits_guard (delivered : Nat → Bool) (fuel : Nat)
    (l : vtkSlicerUnitsLogic) (scene : UnitsScene) (log : List Bool)
    (hscene : l.MRMLScene = some scene) (hflag : l.RestoringDefaultUnits = false) :
    (∃ restored nested,
      OnSelectionNodeModified delivered (fuel + 2) l log =
        some (restored, log ++ false :: nested) ∧
      (∀ b ∈ nested, b = true) ∧
      RestoreDefaultUnits l = some restored ∧
      OnMRMLNodeModified true l = some restored ∧
      restored.RestoringDefaultUnits = false ∧
      restored.CachedDefaultUnits = l.CachedDefaultUnits) ∧
    (∀ running : vtkSlicerUnitsLogic, running.RestoringDefaultUnits = true →
      OnSelectionNodeModified delivered (fuel + 1) running log =
        some (running, log ++ [true]) ∧
      OnMRMLNodeModified true running = some running) := by
  constructor
  · obtain ⟨nested, hloop, hall⟩ :=
      restoreLoop_guarded delivered fuel l.CachedDefaultUnits.entries 0
        { l with RestoringDefaultUnits := true } (log ++ [false]) rfl
    have hfold : (l.CachedDefaultUnits.entries.foldl
        (fun acc e => SetDefaultUnit (some e.1) (some e.2) acc)
        { l with RestoringDefaultUnits := true }).RestoringDefaultUnits = true := by
      have hgen : ∀ (es : List (Sigma fun _ : String => String)) (s : vtkSlicerUnitsLogic),
          s.RestoringDefaultUnits = true →
          (es.foldl (fun acc e => SetDefaultUnit (some e.1) (some e.2) acc)
            s).RestoringDefaultUnits = true := by
        intro es
        induction es with
        | nil => intro s hs; exact hs
        | cons e es ih =>
          intro s hs
          rw [List.foldl_cons]
          exact ih _ (by rw [(cache_SetDefaultUnit (some e.1) (some e.2) s).2, hs])
      exact hgen _ _ rfl
    have hrestore : RestoreDefaultUnits l =
        some { (l.CachedDefaultUnits.entries.foldl
          (fun acc e => SetDefaultUnit (some e.1) (some e.2) acc)
          { l with RestoringDefaultUnits := true }) with RestoringDefaultUnits := false } := by
      simp only [RestoreDefaultUnits, hscene]
    by_cases hd : delivered l.CachedDefaultUnits.entries.length = true
    · refine ⟨_, nested ++ [true], ?_, ?_, hrestore, ?_, rfl, ?_⟩
      · rw [show fuel + 2 = (fuel + 1) + 1 from rfl,
          OnSelectionNodeModified_restoring delivered (fuel + 1) l scene log hscene hflag]
        simp only [hloop, hd, if_true,
          OnSelectionNodeModified_guarded delivered fuel _ _ hfold]
        simp
      · intro b hb
        rcases List.mem_append.mp hb with h | h
        · exact hall b h
        · simpa using h
      · rw [OnMRMLNodeModified_restores l hflag, hrestore]
      · exact cache_restoreFold _ _
    · refine ⟨_, nested, ?_, hall, hrestore, ?_, rfl, ?_⟩
      · rw [show fuel + 2 = (fuel + 1) + 1 from rfl,
          OnSelectionNodeModified_restoring delivered (fuel + 1) l scene log hscene hflag]
        simp only [hloop, hd]
        simp
      · rw [OnMRMLNodeModified_restores l hflag, hrestore]
      · exact cache_restoreFold _ _
  · intro running hrunning
    refine ⟨OnSelectionNodeModified_guarded delivered fuel running log hrunning, ?_⟩
    simp [OnMRMLNodeModified, hrunning]

theorem RestoreDefaultUnits_guard_witness :
    savedUnitsLogic.MRMLScene = some
        { UnitNodes := []
          SelectionNode := some
            { UnitNodeIDs :=
                (∅ : UnitTable).insert "length" "vtkMRMLUnitNodeApplicationLength" } } ∧
      savedUnitsLogic.RestoringDefaultUnits = false ∧
      ∃ restored nested,
        OnSelectionNodeModified (fun _ => true) 2 savedUnitsLogic [] =
          some (restored, [] ++ false :: nested) ∧
        (∀ b ∈ nested, b = true) ∧
        RestoreDefaultUnits savedUnitsLogic = some restored ∧
        restored.RestoringDefaultUnits = false :=
  ⟨rfl, rfl,
    match (RestoreDefaultUnits_guard (fun _ => true) 0 savedUnitsLogic _ [] rfl rfl).1 with
    | ⟨restored, nested, h, hall, hres, _, hflag, _⟩ =>
      ⟨restored, nested, h, hall, hres, hflag⟩⟩

/-! ## Numbers: the run-of-three rule of `significantDecimals` -/

/-- What the loop of `significantDecimals` knows when it reaches index `idx`. -/
theorem significantDecimalsLoop_step (d : List Char) (isUnit : Bool) (defaultDecimals : Int)
    (i : Nat) (hrun : closesRun d i) (hfirst : ∀ k, k < i → ¬ closesRun d k) (n : Nat) :
    ∀ (idx : Nat) (previous : Char) (previousRepeat : Int) (only0s : Bool),
      idx + n = i →
      (idx = 0 → previousRepeat = 0) →
      (1 ≤ idx → previous = d.getD (idx - 1) ' ' ∧ 1 ≤ previousRepeat) →
      (1 ≤ idx → (previousRepeat = 1 ↔
        (idx = 1 ∨ d.getD (idx - 1) ' ' ≠ d.getD (idx - 2) ' '))) →
      (2 ≤ idx → (previousRepeat = 2 ↔
        (d.getD (idx - 1) ' ' = d.getD (idx - 2) ' ' ∧
          (idx = 2 ∨ d.getD (idx - 3) ' ' ≠ d.getD (idx - 2) ' ')))) →
      (only0s = true ↔ ∀ j, j < idx → d.getD j ' ' = '0') →
      significantDecimalsLoop d.length isUnit defaultDecimals (d.drop idx) idx previous
          previousRepeat only0s =
        if d.getD i ' ' = '0' ∨ d.getD i ' ' = '9' then (i : Int) - 2 else (i : Int) := by
  obtain ⟨hi2, hilen, heq1, heq2, j0, hj0, hnz⟩ := hrun
  induction n with
  | zero =>
    intro idx previous previousRepeat only0s hidx _ hprev _ hpr2 honly
    simp only [Nat.add_zero] at hidx
    subst hidx
    have hdrop : d.drop idx = d.getD idx ' ' :: d.drop (idx + 1) := by
      rw [List.getD_eq_getElem d ' ' hilen]
      exact List.drop_eq_getElem_cons hilen
    have hp := (hprev (by omega)).1
    have hthird : idx = 2 ∨ d.getD (idx - 3) ' ' ≠ d.getD (idx - 2) ' ' := by
      by_contra hc
      have hc1 : ¬ idx = 2 := fun h => hc (Or.inl h)
      have hc2 : d.getD (idx - 3) ' ' = d.getD (idx - 2) ' ' := by
        by_contra h; exact hc (Or.inr h)
      apply hfirst (idx - 1) (by omega)
      refine ⟨by omega, by omega, ?_, ?_, ?_⟩
      · rw [show idx - 1 - 1 = idx - 2 by omega]; exact heq2
      · rw [show idx - 1 - 1 = idx - 2 by omega, show idx - 1 - 2 = idx - 3 by omega]
        exact hc2.symm
      · by_cases hj : j0 = idx
        · exact ⟨idx - 1, le_refl _, by rw [← heq1, ← hj]; exact hnz⟩
        · exact ⟨j0, by omega, hnz⟩
    have hrep : previousRepeat = 2 := (hpr2 hi2).mpr ⟨heq2, hthird⟩
    have honly2 : (if d.getD idx ' ' ≠ '0' then false else only0s) = false := by
      by_cases hd : d.getD idx ' ' ≠ '0'
      · rw [if_pos hd]
      · rw [if_neg hd]
        have hj : j0 < idx := by
          rcases Nat.lt_or_ge j0 idx with h | h
          · exact h
          · have : j0 = idx := by omega
            rw [this] at hnz
            exact absurd hnz hd
        cases hb : only0s with
        | false => rfl
        | true => exact absurd ((honly.mp hb) j0 hj) hnz
    have hcond : d.getD idx ' ' = previous ∧ previousRepeat = 2 ∧
        (if d.getD idx ' ' ≠ '0' then false else only0s) = false :=
      ⟨by rw [hp]; exact heq1, hrep, honly2⟩
    rw [hdrop]
    simp only [significantDecimalsLoop]
    rw [if_pos hcond, hrep]
  | succ n ih =>
    intro idx previous previousRepeat only0s hidx h0 hprev hpr1 hpr2 honly
    have hlt : idx < i := by omega
    have hlen : idx < d.length := by omega
    have hdrop : d.drop idx = d.getD idx ' ' :: d.drop (idx + 1) := by
      rw [List.getD_eq_getElem d ' ' hlen]
      exact List.drop_eq_getElem_cons hlen
    have hnot : ¬ (d.getD idx ' ' = previous ∧ previousRepeat = 2 ∧
        (if d.getD idx ' ' ≠ '0' then false else only0s) = false) := by
      rintro ⟨hc1, hc2, hc3⟩
      have hidx1 : 1 ≤ idx := by
        by_contra h
        have := h0 (by omega)
        omega
      have hidx2 : 2 ≤ idx := by
        by_contra h
        have h1 : idx = 1 := by omega
        have := (hpr1 hidx1).mpr (Or.inl h1)
        omega
      apply hfirst idx hlt
      refine ⟨hidx2, hlen, ?_, ((hpr2 hidx2).mp hc2).1, ?_⟩
      · rw [hc1]; exact (hprev hidx1).1
      · by_cases hd : d.getD idx ' ' ≠ '0'
        · exact ⟨idx, le_refl _, hd⟩
        · rw [if_neg hd] at hc3
          have hne : ¬ ∀ j, j < idx → d.getD j ' ' = '0' := by
            intro hall
            have := honly.mpr hall
            rw [hc3] at this
            exact Bool.noConfusion this
          push_neg at hne
          obtain ⟨j, hj, hjn⟩ := hne
          exact ⟨j, by omega, hjn⟩
    have hlast : ¬ idx = d.length - 1 := by omega
    rw [hdrop]
    simp only [significantDecimalsLoop, hnot, hlast, if_false]
    have honly' : ((if d.getD idx ' ' ≠ '0' then false else only0s) = true ↔
        ∀ j, j < idx + 1 → d.getD j ' ' = '0') := by
      constructor
      · intro h j hj
        by_cases hd : d.getD idx ' ' ≠ '0'
        · rw [if_pos hd] at h; exact Bool.noConfusion h
        · rw [if_neg hd] at h
          rcases Nat.lt_or_ge j idx with h1 | h1
          · exact honly.mp h j h1
          · have : j = idx := by omega
            rw [this]; exact not_not.mp hd
      · intro h
        have hd : ¬ d.getD idx ' ' ≠ '0' := not_not.mpr (h idx (by omega))
        rw [if_neg hd]
        exact honly.mpr (fun j hj => h j (by omega))
    by_cases hne : previous ≠ d.getD idx ' '
    · rw [if_pos hne]
      apply ih (idx + 1) _ _ _ (by omega) (by omega)
      · intro _; exact ⟨by simp, by norm_num⟩
      · intro _
        constructor
        · intro _
          by_cases h1 : idx = 0
          · exact Or.inl (by omega)
          · right
            simp only [Nat.add_sub_cancel, show idx + 1 - 2 = idx - 1 by omega]
            rw [← (hprev (by omega)).1]
            exact fun h => hne h.symm
        · intro _; rfl
      · intro h2
        constructor
        · intro h; norm_num at h
        · rintro ⟨h, _⟩
          simp only [Nat.add_sub_cancel, show idx + 1 - 2 = idx - 1 by omega] at h
          rw [← (hprev (by omega)).1] at h
          exact absurd h.symm hne
      · exact honly'
    · have hprevd : previous = d.getD idx ' ' := not_not.mp hne
      rw [if_neg hne]
      apply ih (idx + 1) _ _ _ (by omega) (by omega)
      · intro _
        refine ⟨by simp only [Nat.add_sub_cancel]; exact hprevd, ?_⟩
        by_cases h1 : idx = 0
        · rw [h0 h1]; norm_num
        · have := (hprev (by omega)).2; omega
      · intro _
        constructor
        · intro h
          by_cases h1 : idx = 0
          · exact Or.inl (by omega)
          · have := (hprev (by omega)).2; omega
        · rintro (h | h)
          · have h1 : idx = 0 := by omega
            rw [h0 h1]; norm_num
          · simp only [Nat.add_sub_cancel, show idx + 1 - 2 = idx - 1 by omega] at h
            have h1 : 1 ≤ idx := by
              by_contra hc
              have hz : idx = 0 := by omega
              rw [hz] at h
              exact h rfl
            rw [← (hprev h1).1] at h
            exact absurd hprevd.symm h
      · intro h2
        have h1 : 1 ≤ idx := by omega
        simp only [Nat.add_sub_cancel, show idx + 1 - 2 = idx - 1 by omega,
          show idx + 1 - 3 = idx - 2 by omega]
        constructor
        · intro h
          have hone : previousRepeat = 1 := by omega
          refine ⟨by rw [← (hprev h1).1]; exact hprevd.symm, ?_⟩
          rcases (hpr1 h1).mp hone with h3 | h3
          · exact Or.inl (by omega)
          · exact Or.inr (fun h4 => h3 h4.symm)
        · rintro ⟨_, h3 | h3⟩
          · have := (hpr1 h1).mpr (Or.inl (by omega)); omega
          · have := (hpr1 h1).mpr (Or.inr (fun h4 => h3 h4.symm)); omega
      · exact honly'


theorem significantDecimalsLoop_run (d : List Char) (isUnit : Bool) (defaultDecimals : Int)
    (i : Nat) (hrun : closesRun d i) (hfirst : ∀ k, k < i → ¬ closesRun d k) :
    significantDecimalsLoop d.length isUnit defaultDecimals d 0 ' ' 0 true =
      if d.getD i ' ' = '0' ∨ d.getD i ' ' = '9' then (i : Int) - 2 else (i : Int) := by
  have h := significantDecimalsLoop_step d isUnit defaultDecimals i hrun hfirst i 0 ' ' 0 true
    (by omega) (fun _ => rfl) (fun h => absurd h (by omega)) (fun h => absurd h (by omega))
    (fun h => absurd h (by omega))
    ⟨fun _ j hj => absurd hj (by omega), fun _ => rfl⟩
  rw [List.drop_zero] at h
  exact h

theorem significantDecimals_finite (value : ℚ) (defaultDecimals : Int) (hvalue : value ≠ 0) :
    significantDecimals (.finite value) defaultDecimals =
      significantDecimalsLoop (fixedFractional value).length (decide (-1 < value ∧ value < 1))
        defaultDecimals (fixedFractional value) 0 ' ' 0 true := by
  simp only [significantDecimals]
  rw [if_neg hvalue, if_neg (by simp [fixedFractional_length])]

theorem fixedFractional_integer (n : Int) :
    fixedFractional (n : ℚ) = List.replicate 16 '0' := by
  unfold fixedFractional
  have hround : roundHalfEven (|(n : ℚ)| * 10 ^ 16) = (n.natAbs * 10 ^ 16 : Int) := by
    apply roundHalfEven_eq
    · push_cast
      norm_num
    · push_cast
      norm_num
  rw [hround]
  have htoNat : ((n.natAbs * 10 ^ 16 : Int)).toNat = n.natAbs * 10 ^ 16 := by
    have : (n.natAbs * 10 ^ 16 : Int) = ((n.natAbs * 10 ^ 16 : Nat) : Int) := by push_cast; rfl
    rw [this, Int.toNat_natCast]
  rw [htoNat]
  have hdigit : ∀ i, i < 16 →
      Char.ofNat (48 + n.natAbs * 10 ^ 16 / 10 ^ (15 - i) % 10) = '0' := by
    intro i hi
    have hz : n.natAbs * 10 ^ 16 / 10 ^ (15 - i) % 10 = 0 := by
      have hpow : (10 : Nat) ^ 16 = 10 ^ (15 - i) * (10 ^ i * 10) := by
        rw [← pow_succ, ← pow_add]
        congr 1
        omega
      rw [hpow, ← Nat.mul_assoc, Nat.mul_comm (n.natAbs) (10 ^ (15 - i)), Nat.mul_assoc,
        Nat.mul_div_cancel_left _ (by positivity)]
      rw [← Nat.mul_assoc]
      exact Nat.mul_mod_left _ _
    rw [hz]
  apply List.ext_getElem
  · simp
  · intro i h1 h2
    simp only [List.getElem_map, List.getElem_range, List.getElem_replicate]
    apply hdigit
    simpa using h1

theorem significantDecimals_integer (n : Int) (defaultDecimals : Int) (hn : n ≠ 0) :
    significantDecimals (.finite (n : ℚ)) defaultDecimals = 0 := by
  rw [significantDecimals_finite _ _ (by exact_mod_cast hn), fixedFractional_integer]
  have hunit : decide (-1 < (n : ℚ) ∧ (n : ℚ) < 1) = false := by
    apply decide_eq_false
    rintro ⟨h1, h2⟩
    have h3 : (-1 : Int) < n := by exact_mod_cast h1
    have h4 : n < (1 : Int) := by exact_mod_cast h2
    omega
  rw [hunit]
  rfl

theorem fixedFractional_half :
    fixedFractional (1 / 2) =
      ['5', '0', '0', '0', '0', '0', '0', '0', '0', '0', '0', '0', '0', '0', '0', '0'] := by
  unfold fixedFractional
  rw [roundHalfEven_eq _ 5000000000000000 (by norm_num [abs_of_pos])
    (by norm_num [abs_of_pos])]
  decide

theorem fixedFractional_quarter :
    fixedFractional (1 / 4) =
      ['2', '5', '0', '0', '0', '0', '0', '0', '0', '0', '0', '0', '0', '0', '0', '0'] := by
  unfold fixedFractional
  rw [roundHalfEven_eq _ 2500000000000000 (by norm_num [abs_of_pos])
    (by norm_num [abs_of_pos])]
  decide

theorem significantDecimals_half : significantDecimals (.finite (1 / 2)) (-1) = 1 := by
  rw [significantDecimals_finite _ _ (by norm_num), fixedFractional_half]
  rw [show decide (-1 < (1 / 2 : ℚ) ∧ (1 / 2 : ℚ) < 1) = true from
    decide_eq_true (by norm_num)]
  decide

theorem significantDecimals_quarter : significantDecimals (.finite (1 / 4)) (-1) = 2 := by
  rw [significantDecimals_finite _ _ (by norm_num), fixedFractional_quarter]
  rw [show decide (-1 < (1 / 4 : ℚ) ∧ (1 / 4 : ℚ) < 1) = true from
    decide_eq_true (by norm_num)]
  decide


theorem closesRun_third : closesRun (fixedFractional (1 / 3)) 2 ∧
    ∀ k, k < 2 → ¬ closesRun (fixedFractional (1 / 3)) k := by
  rw [fixedFractional_third]
  refine ⟨⟨le_refl 2, by decide, by decide, by decide, 0, by omega, by decide⟩, ?_⟩
  intro k hk hrun
  have := hrun.1
  omega

/-- C24: the run-of-three rule of `significantDecimals`, over the sixteen fractional digits
`d` of the fixed representation of a finite non-zero value. If `i` is the first index that
is the third of three equal digits in a row with some non-zero digit at an index up to `i`,
the result is `i - 2` when `d[i]` is `0` or `9` and `i` otherwise. Hence digits whose last
non-zero one is at index `k - 1`, with `k <= 13` and no such index before `k + 2`, give
`k`; 0.5 gives 1, 0.25 gives 2 and 0.000001 gives 6; and every non-zero integer gives 0. -/
theorem significantDecimals_run_of_three (value : ℚ) (defaultDecimals : Int)
    (hvalue : value ≠ 0) :
    (∀ i, closesRun (fixedFractional value) i →
      (∀ k, k < i → ¬ closesRun (fixedFractional value) k) →
      significantDecimals (.finite value) defaultDecimals =
        if (fixedFractional value).getD i ' ' = '0' ∨ (fixedFractional value).getD i ' ' = '9'
        then (i : Int) - 2 else (i : Int)) ∧
    (∀ k, 1 ≤ k → k ≤ 13 → (fixedFractional value).getD (k - 1) ' ' ≠ '0' →
      (∀ j, k ≤ j → j < 16 → (fixedFractional value).getD j ' ' = '0') →
      (∀ m, m < k + 2 → ¬ closesRun (fixedFractional value) m) →
      significantDecimals (.finite value) defaultDecimals = (k : Int)) ∧
    significantDecimals (.finite (1 / 2)) (-1) = 1 ∧
    significantDecimals (.finite (1 / 4)) (-1) = 2 ∧
    significantDecimals (.finite (1 / 1000000)) (-1) = 6 ∧
    (∀ n : Int, n ≠ 0 → significantDecimals (.finite (n : ℚ)) defaultDecimals = 0) := by
  have hrule : ∀ i, closesRun (fixedFractional value) i →
      (∀ k, k < i → ¬ closesRun (fixedFractional value) k) →
      significantDecimals (.finite value) defaultDecimals =
        if (fixedFractional value).getD i ' ' = '0' ∨ (fixedFractional value).getD i ' ' = '9'
        then (i : Int) - 2 else (i : Int) := by
    intro i hrun hfirst
    rw [significantDecimals_finite value defaultDecimals hvalue]
    exact significantDecimalsLoop_run _ _ _ i hrun hfirst
  refine ⟨hrule, ?_, significantDecimals_half, significantDecimals_quarter,
    significantDecimals_millionth, fun n hn => significantDecimals_integer n defaultDecimals hn⟩
  intro k hk1 hk13 hlast hzeros hnone
  have h0 : ∀ j, k ≤ j → j < 16 → (fixedFractional value).getD j ' ' = '0' := hzeros
  have hrun : closesRun (fixedFractional value) (k + 2) := by
    refine ⟨by omega, by rw [fixedFractional_length]; omega, ?_, ?_, k - 1, by omega, hlast⟩
    · rw [h0 (k + 2) (by omega) (by omega), h0 (k + 2 - 1) (by omega) (by omega)]
    · rw [h0 (k + 2 - 1) (by omega) (by omega), h0 (k + 2 - 2) (by omega) (by omega)]
  rw [hrule (k + 2) hrun hnone, if_pos (Or.inl (h0 (k + 2) (by omega) (by omega)))]
  push_cast
  ring

theorem significantDecimals_run_of_three_witness :
    (1 / 3 : ℚ) ≠ 0 ∧ closesRun (fixedFractional (1 / 3)) 2 ∧
      significantDecimals (.finite (1 / 3)) (-1) = 2 :=
  ⟨by norm_num, closesRun_third.1,
    ((significantDecimals_run_of_three (1 / 3) (-1) (by norm_num)).1 2 closesRun_third.1
      closesRun_third.2).trans (by rw [fixedFractional_third]; decide)⟩

/-! ## Units logic: calls of `SetDefaultUnit` with their notification handled -/

end Slicer
